import Mathlib

/-!
# SealOBD: cycle controller, acquisition, connectivity and publisher

A shallow embedding of the firmware's managers.  Every class of the source
becomes a structure holding its member variables and every member function a
pure function on that structure.  The outside world (tick counter, BLE serial
port, ELM327 adapter, WiFi, system clock, MQTT client) is an `Env` of oracles;
the `World` threaded through the code counts the collaborator calls made so far
(the index at which the next oracle is consulted) and records the operations
issued, oldest first.  `Serial` output is diagnostic only and is left out.

Tick-counter values are 32-bit (`% WORD`, differences by `usub`); the `int` streak
counters are unbounded naturals; `float` readings are exact rationals; C strings are
`String`s of ASCII characters.
-/

namespace SealOBD

/-! ## Machine arithmetic and C strings -/

/-- Number of values of a 32-bit `unsigned long`. -/
def WORD : Nat := 4294967296

/-- Difference `a - b` of two `unsigned long` values, modulo 2^32. -/
def usub (a b : Nat) : Nat := (a % WORD + (WORD - b % WORD)) % WORD

/-- Whether `needle` is a leading segment of `hay`. -/
def startsWith : List Char → List Char → Bool
  | _, [] => true
  | [], _ :: _ => false
  | h :: hs, n :: ns => h == n && startsWith hs ns

/-- Result of `strstr(hay, needle) != NULL` on character lists. -/
def strstrChars : List Char → List Char → Bool
  | [], needle => needle.isEmpty
  | h :: hs, needle => startsWith (h :: hs) needle || strstrChars hs needle

/-- Result of `strstr(hay, needle) != NULL`. -/
def strstr (hay needle : String) : Bool := strstrChars hay.data needle.data

/-- Result of `strncpy(dst, src, size - 1); dst[size - 1] = 0` into a buffer of `size` bytes. -/
def strncpyBuf (size : Nat) (src : String) : String := String.mk (src.data.take (size - 1))

/-! ## The outside world -/

/-- Values of `elm327.nb_rx_state` the firmware tells apart; `ELM_FAILED` stands for
every other status code of the adapter library. -/
inductive RxState
  | ELM_SUCCESS
  | ELM_GETTING_MSG
  | ELM_FAILED (code : Nat)
  deriving DecidableEq, Repr

/-- Text handed to the broker client.  `fixed v d` is the output of
`dtostrf(v, 1, d, buf)`, `datetime t` the output of `strftime` for the clock value `t`. -/
inductive Payload
  | text (s : String)
  | fixed (value : ℚ) (decimal_places : Nat)
  | datetime (t : Nat)
  deriving DecidableEq, Repr

/-- How far one `publishWithTimeout` call got. -/
inductive PublishOutcome
  | notConnected
  | beginFailed
  | writeFailed
  | sendFailed
  | timedOut
  | ok
  deriving DecidableEq, Repr

/-- Operations issued on the collaborators, and the publish calls with their outcome. -/
inductive Event
  | bleBegin (device : String)
  | bleConnect (timeout : Nat) (connected : Bool)
  | bleEnd
  | elmBegin (ready : Bool)
  | elmCommandBlocking (cmd : String)
  | elmSendCommand (cmd : String)
  | elmGetResponse
  | wifiBegin
  | wifiDisconnect
  | configTime
  | mqttConnect (connected : Bool)
  | mqttStop
  | mqttPoll
  | delay (ms : Nat)
  | publish (topic : String) (message : Payload) (retain : Bool) (outcome : PublishOutcome)
  deriving DecidableEq, Repr

/-- Topic of a publish call; `none` for every other operation. -/
def Event.publishTopic : Event → Option String
  | Event.publish topic _ _ _ => some topic
  | _ => none

/-- Outcome of a publish call; `none` for every other operation. -/
def Event.publishOutcome : Event → Option PublishOutcome
  | Event.publish _ _ _ outcome => some outcome
  | _ => none

/-- Answers of the collaborators; the argument is the number of collaborator calls
made before the one being answered. -/
structure Env where
  /-- Value of `millis()`. -/
  millis : Nat → Nat
  /-- Result of `ble_serial.connect(timeout)`. -/
  bleConnect : Nat → Bool
  /-- Result of `elm327.begin(...)`. -/
  elmBegin : Nat → Bool
  /-- Status `nb_rx_state` left by `elm327.get_response()`. -/
  elmRxState : Nat → RxState
  /-- Bytes of `elm327.payload` left by `elm327.get_response()`. -/
  elmPayload : Nat → List Nat
  /-- Whether `WiFi.status() == WL_CONNECTED`. -/
  wifiStatus : Nat → Bool
  /-- Field `tm_year` produced by `time` and `localtime_r`. -/
  tmYear : Nat → Int
  /-- Clock value produced by `time`. -/
  time : Nat → Nat
  /-- Result of `mqtt_client_.connect(...)`. -/
  mqttConnect : Nat → Bool
  /-- Result of `mqtt_client_.connectError()`. -/
  mqttConnectError : Nat → Int
  /-- Result of `mqtt_client_.beginMessage(...)`. -/
  mqttBeginMessage : Nat → Bool
  /-- Result of `mqtt_client_.print(message)`. -/
  mqttPrint : Nat → Nat
  /-- Result of `mqtt_client_.endMessage()`. -/
  mqttEndMessage : Nat → Bool

/-- Collaborator calls made so far and the operations issued, oldest first. -/
structure World where
  calls : Nat := 0
  log : List Event := []
  deriving DecidableEq, Repr

/-- One more collaborator call was answered. -/
def World.tick (w : World) : World := { w with calls := w.calls + 1 }

/-- An operation is issued. -/
def World.emit (w : World) (e : Event) : World := { w with log := w.log ++ [e] }

/-- Reading of `millis()`: the tick counter as a 32-bit value. -/
def World.millis (env : Env) (w : World) : Nat × World :=
  (env.millis w.calls % WORD, w.tick)

/-! ## OBDManager (obd_manager.h, obd_manager.cpp): the polled acquisition machine -/

inductive OBDState
  | SETUP
  | READ_SOC
  | READ_BATTERY_TEMP
  | READ_BATTERY_VOLTAGE
  | COMPLETE
  | ERROR
  deriving DecidableEq, Repr

inductive SetupSubstep
  | SETUP_START
  | BLE_CONNECTING
  | ELM_INITIALIZING
  deriving DecidableEq, Repr

inductive QueryState
  | SEND_COMMAND
  | WAITING_RESP
  deriving DecidableEq, Repr

/-- Readings of one cycle.  The `float` members are kept as exact rationals. -/
structure OBDData where
  state_of_charge : ℚ := 0
  battery_temperature : ℚ := 0
  battery_voltage : ℚ := 0
  valid : Bool := false
  deriving DecidableEq, Repr

/-- Member variables of `OBDManager`, with the two fields of its `ELM327` member the
code reads (`nb_rx_state`, `payload`).  The `int` streak is an unbounded natural. -/
structure OBDManager where
  current_state : OBDState := OBDState.SETUP
  setup_substep : SetupSubstep := SetupSubstep.SETUP_START
  soc_query_state : QueryState := QueryState.SEND_COMMAND
  temp_query_state : QueryState := QueryState.SEND_COMMAND
  voltage_query_state : QueryState := QueryState.SEND_COMMAND
  data : OBDData := {}
  obd_connected : Bool := false
  car_connection_lost : Bool := false
  consecutive_bt_timeouts : Nat := 0
  elm_connection_start_time : Nat := 0
  elm_soc_start_time : Nat := 0
  elm_temp_start_time : Nat := 0
  elm_voltage_start_time : Nat := 0
  last_error : String := ""
  nb_rx_state : RxState := RxState.ELM_SUCCESS
  payload : List Nat := []
  deriving DecidableEq, Repr

namespace OBDManager

def MAX_CONSECUTIVE_BT_TIMEOUTS : Nat := 2
def ELM_CONNECTION_TIMEOUT : Nat := 30000
def ELM_INIT_TIMEOUT : Nat := 15000
def ELM_SOC_TIMEOUT : Nat := 10000
def ELM_TEMP_TIMEOUT : Nat := 10000
def ELM_VOLTAGE_TIMEOUT : Nat := 10000

def isConnected (m : OBDManager) : Bool := m.obd_connected
def getCurrentState (m : OBDManager) : OBDState := m.current_state
def getData (m : OBDManager) : OBDData := m.data
def getLastError (m : OBDManager) : String := m.last_error
def hasConnectionLost (m : OBDManager) : Bool := m.car_connection_lost

/-- Byte `payload[i]` of the adapter's response buffer; positions past the recorded
response read as 0. -/
def payloadAt (m : OBDManager) (i : Nat) : Nat := m.payload.getD i 0

/-- The call `elm327.sendCommand_Blocking(cmd)`. -/
def sendCommand_Blocking (w : World) (cmd : String) : World :=
  w.emit (Event.elmCommandBlocking cmd)

/-- The call `elm327.sendCommand(cmd)`: the query goes out and the adapter library
marks the response as pending. -/
def sendCommand (m : OBDManager) (w : World) (cmd : String) : OBDManager × World :=
  ({ m with nb_rx_state := RxState.ELM_GETTING_MSG }, w.emit (Event.elmSendCommand cmd))

/-- The call `elm327.get_response()`. -/
def get_response (env : Env) (m : OBDManager) (w : World) : OBDManager × World :=
  ({ m with nb_rx_state := env.elmRxState w.calls, payload := env.elmPayload w.calls },
   (w.emit Event.elmGetResponse).tick)

/-- The member `initialize()`, whose name is reserved here. -/
def initialise (m : OBDManager) : OBDManager × Bool :=
  ({ m with current_state := OBDState.SETUP, setup_substep := SetupSubstep.SETUP_START }, true)

def disconnect (m : OBDManager) (w : World) : OBDManager × World :=
  if m.obd_connected then
    let w1 := sendCommand_Blocking w "ATZ"
    let w2 := w1.emit Event.bleEnd
    ({ m with obd_connected := false }, w2)
  else (m, w)

/-- Hex digit value of a response byte (`uint8_t` in, `uint8_t` out). -/
def ctoi (value : Nat) : Nat :=
  let v := value % 256
  if 65 ≤ v ∧ v ≤ 70 then (v - 65 + 10) % 256
  else if 48 ≤ v ∧ v ≤ 57 then (v - 48) % 256
  else 0

def configureELM327 (w : World) : World :=
  ["ATZ", "ATD", "ATD0", "ATH1", "ATSP6", "ATE0", "ATH1", "ATM0", "ATS0", "ATAT1",
   "ATAL", "STCSEGT1", "ATST96", "ATSH7E7"].foldl sendCommand_Blocking w

def isBluetoothTimeoutError (error_message : String) : Bool :=
  strstr error_message "ELM_BLE_CONNECTION_TIMEOUT" ||
  strstr error_message "ELM_INIT_TIMEOUT" ||
  strstr error_message "SOC_READ_TIMEOUT" ||
  strstr error_message "TEMP_READ_TIMEOUT" ||
  strstr error_message "VOLTAGE_READ_TIMEOUT"

def handleTimeout (m : OBDManager) (w : World) (error_message : String) : OBDManager × World :=
  let m1 := { m with last_error := error_message }
  let m2 :=
    if isBluetoothTimeoutError error_message then
      let m3 := { m1 with consecutive_bt_timeouts := m1.consecutive_bt_timeouts + 1 }
      if m3.consecutive_bt_timeouts ≥ MAX_CONSECUTIVE_BT_TIMEOUTS then
        { m3 with car_connection_lost := true }
      else m3
    else { m1 with consecutive_bt_timeouts := 0, car_connection_lost := false }
  let r := m2.disconnect w
  ({ r.1 with current_state := OBDState.ERROR }, r.2)

def resetTimeoutCounter (m : OBDManager) : OBDManager :=
  if m.consecutive_bt_timeouts > 0 then
    { m with consecutive_bt_timeouts := 0, car_connection_lost := false }
  else m

/-- The byte `(ctoi(payload[i]) << 4) | ctoi(payload[i + 1])`. -/
def hexPair (m : OBDManager) (i : Nat) : Nat :=
  (ctoi (m.payloadAt i) <<< 4) ||| ctoi (m.payloadAt (i + 1))

def handleSetupStep (env : Env) (m : OBDManager) (w : World) : OBDManager × World × Bool :=
  match m.setup_substep with
  | SetupSubstep.SETUP_START =>
    let w1 := w.emit (Event.bleBegin "OBDLink CX")
    let t := w1.millis env
    ({ m with elm_connection_start_time := t.1,
              setup_substep := SetupSubstep.BLE_CONNECTING }, t.2, false)
  | SetupSubstep.BLE_CONNECTING =>
    let ok := env.bleConnect w.calls
    let w1 := (w.emit (Event.bleConnect 15000 ok)).tick
    if !ok then
      let r := m.handleTimeout w1 "ELM_BLE_CONNECTION_TIMEOUT"
      ({ r.1 with setup_substep := SetupSubstep.SETUP_START }, r.2, false)
    else
      let t := w1.millis env
      ({ m with elm_connection_start_time := t.1,
                setup_substep := SetupSubstep.ELM_INITIALIZING }, t.2, false)
  | SetupSubstep.ELM_INITIALIZING =>
    let ok := env.elmBegin w.calls
    let w1 := (w.emit (Event.elmBegin ok)).tick
    if !ok then
      let t := w1.millis env
      if usub t.1 m.elm_connection_start_time > ELM_INIT_TIMEOUT then
        let r := m.handleTimeout t.2 "ELM_INIT_TIMEOUT"
        ({ r.1 with setup_substep := SetupSubstep.SETUP_START }, r.2, false)
      else (m, t.2, false)
    else
      let w2 := configureELM327 w1
      ({ m with obd_connected := true,
                current_state := OBDState.READ_SOC,
                soc_query_state := QueryState.SEND_COMMAND,
                setup_substep := SetupSubstep.SETUP_START }, w2, true)

def handleSOCReading (env : Env) (m : OBDManager) (w : World) : OBDManager × World × Bool :=
  match m.soc_query_state with
  | QueryState.SEND_COMMAND =>
    let s := m.sendCommand w "221FFC"
    let t := s.2.millis env
    ({ s.1 with soc_query_state := QueryState.WAITING_RESP, elm_soc_start_time := t.1 },
     t.2, false)
  | QueryState.WAITING_RESP =>
    let t := w.millis env
    if usub t.1 m.elm_soc_start_time > ELM_SOC_TIMEOUT then
      let r := m.handleTimeout t.2 "SOC_READ_TIMEOUT"
      (r.1, r.2, false)
    else
      let g := m.get_response env t.2
      let m1 := g.1
      if m1.nb_rx_state = RxState.ELM_SUCCESS then
        let A := m1.hexPair 11
        let B := m1.hexPair 13
        let B1 := B * 256
        let m2 := { m1 with data := { m1.data with state_of_charge := ((A + B1 : Nat) : ℚ) / 100 } }
        let m3 := m2.resetTimeoutCounter
        ({ m3 with soc_query_state := QueryState.SEND_COMMAND,
                   current_state := OBDState.READ_BATTERY_TEMP,
                   temp_query_state := QueryState.SEND_COMMAND }, g.2, true)
      else if m1.nb_rx_state ≠ RxState.ELM_GETTING_MSG then
        let m2 := { m1 with soc_query_state := QueryState.SEND_COMMAND }
        let r := m2.handleTimeout g.2 "SOC_READ_FAILED"
        (r.1, r.2, false)
      else (m1, g.2, false)

def handleTempReading (env : Env) (m : OBDManager) (w : World) : OBDManager × World × Bool :=
  match m.temp_query_state with
  | QueryState.SEND_COMMAND =>
    let s := m.sendCommand w "220032"
    let t := s.2.millis env
    ({ s.1 with temp_query_state := QueryState.WAITING_RESP, elm_temp_start_time := t.1 },
     t.2, false)
  | QueryState.WAITING_RESP =>
    let t := w.millis env
    if usub t.1 m.elm_temp_start_time > ELM_TEMP_TIMEOUT then
      let r := m.handleTimeout t.2 "TEMP_READ_TIMEOUT"
      (r.1, r.2, false)
    else
      let g := m.get_response env t.2
      let m1 := g.1
      if m1.nb_rx_state = RxState.ELM_SUCCESS then
        let A := m1.hexPair 11
        let m2 := { m1 with data := { m1.data with battery_temperature := ((A : Nat) : ℚ) - 40 } }
        ({ m2 with temp_query_state := QueryState.SEND_COMMAND,
                   current_state := OBDState.READ_BATTERY_VOLTAGE,
                   voltage_query_state := QueryState.SEND_COMMAND }, g.2, true)
      else if m1.nb_rx_state ≠ RxState.ELM_GETTING_MSG then
        let m2 := { m1 with temp_query_state := QueryState.SEND_COMMAND }
        let r := m2.handleTimeout g.2 "TEMP_READ_FAILED"
        (r.1, r.2, false)
      else (m1, g.2, false)

def handleVoltageReading (env : Env) (m : OBDManager) (w : World) : OBDManager × World × Bool :=
  match m.voltage_query_state with
  | QueryState.SEND_COMMAND =>
    let s := m.sendCommand w "220008"
    let t := s.2.millis env
    ({ s.1 with voltage_query_state := QueryState.WAITING_RESP, elm_voltage_start_time := t.1 },
     t.2, false)
  | QueryState.WAITING_RESP =>
    let t := w.millis env
    if usub t.1 m.elm_voltage_start_time > ELM_VOLTAGE_TIMEOUT then
      let r := m.handleTimeout t.2 "VOLTAGE_READ_TIMEOUT"
      (r.1, r.2, false)
    else
      let g := m.get_response env t.2
      let m1 := g.1
      if m1.nb_rx_state = RxState.ELM_SUCCESS then
        let A := m1.hexPair 11
        let B := m1.hexPair 13
        let m2 := { m1 with data := { m1.data with battery_voltage := ((A + B * 256 : Nat) : ℚ) } }
        ({ m2 with voltage_query_state := QueryState.SEND_COMMAND,
                   current_state := OBDState.COMPLETE,
                   data := { m2.data with valid := true } }, g.2, true)
      else if m1.nb_rx_state ≠ RxState.ELM_GETTING_MSG then
        let m2 := { m1 with voltage_query_state := QueryState.SEND_COMMAND }
        let r := m2.handleTimeout g.2 "VOLTAGE_READ_FAILED"
        (r.1, r.2, false)
      else (m1, g.2, false)

def update (env : Env) (m : OBDManager) (w : World) : OBDManager × World :=
  match m.current_state with
  | OBDState.SETUP => let r := m.handleSetupStep env w; (r.1, r.2.1)
  | OBDState.READ_SOC => let r := m.handleSOCReading env w; (r.1, r.2.1)
  | OBDState.READ_BATTERY_TEMP => let r := m.handleTempReading env w; (r.1, r.2.1)
  | OBDState.READ_BATTERY_VOLTAGE => let r := m.handleVoltageReading env w; (r.1, r.2.1)
  | OBDState.COMPLETE => (m, w)
  | OBDState.ERROR => (m, w)

end OBDManager

/-! ## ConnectivityManager (connectivity_manager.h, connectivity_manager.cpp)

The `Config` strings (network name, credentials, broker address, time servers) only
travel to the collaborators and are left out. -/

structure ConnectivityManager where
  wifi_connected : Bool := false
  mqtt_connected : Bool := false
  time_synced : Bool := false
  mqtt_retry_count : Nat := 0
  mqtt_connection_start_time : Nat := 0
  ntp_sync_start_time : Nat := 0
  last_error : String := ""
  deriving DecidableEq, Repr

namespace ConnectivityManager

def NTP_SYNC_TIMEOUT : Nat := 10000
def MQTT_CONNECTION_TIMEOUT : Nat := 10000
def MQTT_PUBLISH_TIMEOUT : Nat := 5000
def MAX_MQTT_RETRIES : Nat := 3

def isWiFiConnected (c : ConnectivityManager) : Bool := c.wifi_connected
def isMQTTConnected (c : ConnectivityManager) : Bool := c.mqtt_connected
def isTimeSynced (c : ConnectivityManager) : Bool := c.time_synced
def getLastError (c : ConnectivityManager) : String := c.last_error

def setError (c : ConnectivityManager) (error : String) : ConnectivityManager :=
  { c with last_error := strncpyBuf 128 error }

/-- The loop `while (WiFi.status() != WL_CONNECTED && attempts < 20)` of `connectWiFi`,
with `20 - attempts` rounds left. -/
def wifiWait (env : Env) : Nat → World → World
  | 0, w => w.tick
  | n + 1, w =>
    if env.wifiStatus w.calls then w.tick
    else wifiWait env n (w.tick.emit (Event.delay 1000))

def connectWiFi (env : Env) (c : ConnectivityManager) (w : World) :
    ConnectivityManager × World × Bool :=
  if c.wifi_connected then (c, w, true)
  else
    let w1 := w.emit Event.wifiBegin
    let w2 := wifiWait env 20 w1
    if env.wifiStatus w2.calls then
      ({ c with wifi_connected := true }, w2.tick, true)
    else
      (c.setError "WiFi connection failed", w2.tick, false)

def disconnectWiFi (c : ConnectivityManager) (w : World) : ConnectivityManager × World :=
  if c.wifi_connected then
    ({ c with wifi_connected := false }, w.emit Event.wifiDisconnect)
  else (c, w)

/-- The loop `while (timeinfo.tm_year < (2024 - 1900) && ++retry < retry_count)` of
`syncTime`, with `retry_count - 1 - retry` rounds left; `none` is the timeout exit. -/
def syncWait (env : Env) (start : Nat) : Nat → Int → World → Option Int × World
  | 0, year, w => (some year, w)
  | n + 1, year, w =>
    if year < 2024 - 1900 then
      let t := w.millis env
      if usub t.1 start > NTP_SYNC_TIMEOUT then (none, t.2)
      else
        let w1 := t.2.emit (Event.delay 1000)
        syncWait env start n (env.tmYear w1.calls) w1.tick
    else (some year, w)

def syncTime (env : Env) (c : ConnectivityManager) (w : World) :
    ConnectivityManager × World × Bool :=
  if c.time_synced then (c, w, true)
  else if !c.wifi_connected then (c.setError "WiFi not connected for NTP sync", w, false)
  else
    let t := w.millis env
    let c1 := { c with ntp_sync_start_time := t.1 }
    let w1 := t.2.emit Event.configTime
    let r := syncWait env c1.ntp_sync_start_time 14 0 w1
    match r.1 with
    | none => (c1.setError "NTP sync timeout", r.2, false)
    | some year =>
      if year < 2024 - 1900 then
        (c1.setError "Failed to obtain time from NTP servers", r.2, false)
      else ({ c1 with time_synced := true }, r.2, true)

def getCurrentTimeString (env : Env) (c : ConnectivityManager) (w : World) (buffer_size : Nat) :
    Payload × World :=
  if !c.time_synced then (Payload.text (strncpyBuf buffer_size "TIME_NOT_SYNCED"), w)
  else (Payload.datetime (env.time w.calls), w.tick)

def connectMQTT (env : Env) (c : ConnectivityManager) (w : World) :
    ConnectivityManager × World × Bool :=
  if c.mqtt_connected then (c, w, true)
  else if !c.wifi_connected then (c.setError "WiFi not connected for MQTT", w, false)
  else
    let s :=
      if c.mqtt_retry_count = 0 then
        let t := w.millis env
        ({ c with mqtt_connection_start_time := t.1 }, t.2)
      else (c, w)
    let c1 := s.1
    let t := s.2.millis env
    let go (c2 : ConnectivityManager) (w2 : World) : ConnectivityManager × World × Bool :=
      let ok := env.mqttConnect w2.calls
      let w3 := (w2.emit (Event.mqttConnect ok)).tick
      if !ok then
        let code := env.mqttConnectError w3.calls
        (c2.setError ("MQTT connection failed! Error code = " ++ toString code), w3.tick, false)
      else ({ c2 with mqtt_connected := true, mqtt_retry_count := 0 }, w3, true)
    if usub t.1 c1.mqtt_connection_start_time > MQTT_CONNECTION_TIMEOUT then
      let c2 := { c1 with mqtt_retry_count := c1.mqtt_retry_count + 1 }
      if c2.mqtt_retry_count ≥ MAX_MQTT_RETRIES then
        ({ c2.setError "MQTT connection: Maximum retries reached" with mqtt_retry_count := 0 },
         t.2, false)
      else
        let t2 := t.2.millis env
        go { c2 with mqtt_connection_start_time := t2.1 } t2.2
    else go c1 t.2

def disconnectMQTT (c : ConnectivityManager) (w : World) : ConnectivityManager × World :=
  if c.mqtt_connected then
    ({ c with mqtt_connected := false }, w.emit Event.mqttStop)
  else (c, w)

def publishWithTimeout (env : Env) (c : ConnectivityManager) (w : World)
    (topic : String) (message : Payload) (retain : Bool) : ConnectivityManager × World × Bool :=
  if !c.mqtt_connected then
    (c.setError "MQTT not connected for publish",
     w.emit (Event.publish topic message retain PublishOutcome.notConnected), false)
  else
    let t := w.millis env
    let publish_start := t.1
    let w1 := t.2
    if !env.mqttBeginMessage w1.calls then
      (c.setError "Failed to begin MQTT message",
       w1.tick.emit (Event.publish topic message retain PublishOutcome.beginFailed), false)
    else
      let w2 := w1.tick
      if env.mqttPrint w2.calls = 0 then
        (c.setError "Failed to write MQTT message",
         w2.tick.emit (Event.publish topic message retain PublishOutcome.writeFailed), false)
      else
        let w3 := w2.tick
        if !env.mqttEndMessage w3.calls then
          (c.setError "Failed to send MQTT message",
           w3.tick.emit (Event.publish topic message retain PublishOutcome.sendFailed), false)
        else
          let t2 := w3.tick.millis env
          if usub t2.1 publish_start > MQTT_PUBLISH_TIMEOUT then
            (c.setError "MQTT publish timeout",
             t2.2.emit (Event.publish topic message retain PublishOutcome.timedOut), false)
          else
            (c, t2.2.emit (Event.publish topic message retain PublishOutcome.ok), true)

def poll (env : Env) (c : ConnectivityManager) (w : World) : ConnectivityManager × World :=
  if !c.mqtt_connected then (c, w)
  else if !env.wifiStatus w.calls then (c, w.tick)
  else
    let t := w.tick.millis env
    let w1 := t.2.emit Event.mqttPoll
    let t2 := w1.millis env
    if usub t2.1 t.1 > 1000 then
      ({ c.setError "MQTT poll timeout" with mqtt_connected := false }, t2.2)
    else (c, t2.2)

end ConnectivityManager

/-! ## DataPublisher (data_publisher.h, data_publisher.cpp) -/

structure Topics where
  soc : String := "bydseal/soc"
  battery_temp : String := "bydseal/battery_temp"
  battery_voltage : String := "bydseal/battery_voltage"
  status : String := "bydseal/status"
  last_update : String := "bydseal/last_update"
  deriving DecidableEq, Repr

/-- Member variables of `DataPublisher`; its reference `connectivity_` is passed to
each function together with the world. -/
structure DataPublisher where
  topics_ : Topics := {}
  last_error : String := ""
  deriving DecidableEq, Repr

/-- What a publisher call leaves behind and returns. -/
structure Published where
  pub : DataPublisher
  conn : ConnectivityManager
  world : World
  ok : Bool
  deriving DecidableEq, Repr

namespace DataPublisher

def setError (p : DataPublisher) (error : String) : DataPublisher :=
  { p with last_error := strncpyBuf 128 error }

/-- One `connectivity_.publishWithTimeout(topic, message)` followed by
`setError(failure)` when it returns false. -/
def publishOrError (env : Env) (p : DataPublisher) (c : ConnectivityManager) (w : World)
    (topic : String) (message : Payload) (failure : String) : Published :=
  let r := c.publishWithTimeout env w topic message true
  if !r.2.2 then { pub := p.setError failure, conn := r.1, world := r.2.1, ok := false }
  else { pub := p, conn := r.1, world := r.2.1, ok := true }

def publishStatus (env : Env) (p : DataPublisher) (c : ConnectivityManager) (w : World)
    (status : String) : Published :=
  publishOrError env p c w p.topics_.status (Payload.text status) "Failed to publish status"

def publishLastUpdate (env : Env) (p : DataPublisher) (c : ConnectivityManager) (w : World) :
    Published :=
  let d := c.getCurrentTimeString env w 64
  publishOrError env p c d.2 p.topics_.last_update d.1 "Failed to publish last update time"

def publishOBDData (env : Env) (p : DataPublisher) (c : ConnectivityManager) (w : World)
    (data : OBDData) : Published :=
  if !data.valid then
    { pub := p.setError "OBD data is not valid", conn := c, world := w, ok := false }
  else
    let r1 := publishOrError env p c w p.topics_.soc
      (Payload.fixed data.state_of_charge 2) "Failed to publish SoC"
    let r2 := publishOrError env r1.pub r1.conn r1.world p.topics_.battery_temp
      (Payload.fixed data.battery_temperature 1) "Failed to publish battery temperature"
    let r3 := publishOrError env r2.pub r2.conn r2.world p.topics_.battery_voltage
      (Payload.fixed data.battery_voltage 2) "Failed to publish battery voltage"
    { r3 with ok := r1.ok && r2.ok && r3.ok }

def publishErrorStatus (env : Env) (p : DataPublisher) (c : ConnectivityManager) (w : World)
    (error_message : String) (car_connection_lost : Bool) : Published :=
  let r1 :=
    if car_connection_lost then publishStatus env p c w "No Car Connection"
    else if error_message.length > 0 then publishStatus env p c w error_message
    else publishStatus env p c w "UNKNOWN_ERROR"
  let r2 := publishLastUpdate env r1.pub r1.conn r1.world
  { r2 with ok := r1.ok && r2.ok }

end DataPublisher

/-! ## SystemController (system_controller.h, system_controller.cpp) -/

inductive SystemState
  | INIT
  | OBD_READING
  | CONNECTIVITY_SETUP
  | DATA_PUBLISHING
  | ERROR_HANDLING
  | WAITING
  | COMPLETE_CYCLE
  deriving DecidableEq, Repr

/-- The function-local static `connectivity_step` of `handleConnectivitySetup`. -/
inductive ConnectivityStep
  | SETUP_WIFI
  | SETUP_NTP
  | SETUP_MQTT
  | CONNECTIVITY_COMPLETE
  deriving DecidableEq, Repr

/-- The members of `SystemController::Config` the controller itself reads. -/
structure Config where
  topics : Topics := {}
  normal_cycle_interval : Nat := 300000
  error_cycle_interval : Nat := 60000
  retry_cycle_interval : Nat := 60000
  deriving DecidableEq, Repr

/-- Member variables of `SystemController`, the static local of
`handleConnectivitySetup`, and the world the controller runs in. -/
structure SystemController where
  config_ : Config := {}
  obd_manager_ : OBDManager := {}
  connectivity_manager_ : ConnectivityManager := {}
  data_publisher_ : DataPublisher := {}
  current_state : SystemState := SystemState.INIT
  next_state : SystemState := SystemState.INIT
  last_update_time : Nat := 0
  current_cycle_interval : Nat := 0
  state_start_time : Nat := 0
  last_error : String := ""
  cycle_successful : Bool := false
  connectivity_step : ConnectivityStep := ConnectivityStep.SETUP_WIFI
  world : World := {}
  deriving DecidableEq, Repr

namespace SystemController

def CONNECTIVITY_TIMEOUT : Nat := 30000
def PUBLISHING_TIMEOUT : Nat := 15000

/-- The constructor `SystemController(config)`. -/
def new (config : Config) : SystemController :=
  { config_ := config, data_publisher_ := { topics_ := config.topics } }

def getCurrentState (s : SystemController) : SystemState := s.current_state
def getLastError (s : SystemController) : String := s.last_error
def isOBDConnected (s : SystemController) : Bool := s.obd_manager_.isConnected
def isWiFiConnected (s : SystemController) : Bool := s.connectivity_manager_.isWiFiConnected
def isMQTTConnected (s : SystemController) : Bool := s.connectivity_manager_.isMQTTConnected
def isTimeSynced (s : SystemController) : Bool := s.connectivity_manager_.isTimeSynced

def setError (s : SystemController) (error : String) : SystemController :=
  { s with last_error := strncpyBuf 128 error }

def setState (env : Env) (s : SystemController) (new_state : SystemState) : SystemController :=
  if s.current_state ≠ new_state then
    let t := s.world.millis env
    { s with current_state := new_state, state_start_time := t.1, world := t.2 }
  else s

def cleanupConnections (s : SystemController) : SystemController :=
  let r1 := s.connectivity_manager_.disconnectMQTT s.world
  let r2 := r1.1.disconnectWiFi r1.2
  let r3 := s.obd_manager_.disconnect r2.2
  { s with connectivity_manager_ := r2.1, obd_manager_ := r3.1, world := r3.2 }

def setCycleInterval (env : Env) (s : SystemController) (interval : Nat) : SystemController :=
  let t := s.world.millis env
  { s with current_cycle_interval := interval, last_update_time := t.1, world := t.2 }

/-- The member `initialize()`, whose name is reserved here. -/
def initialise (env : Env) (s : SystemController) : SystemController :=
  setCycleInterval env (setState env s SystemState.INIT) 0

def handleInit (env : Env) (s : SystemController) : SystemController :=
  let s1 := { s with cycle_successful := false }
  let r := s1.obd_manager_.initialise
  let s2 := { s1 with obd_manager_ := r.1 }
  if !r.2 then
    setState env (s2.setError "Failed to initialize OBD manager") SystemState.ERROR_HANDLING
  else setState env s2 SystemState.OBD_READING

def handleOBDReading (env : Env) (s : SystemController) : SystemController :=
  let r := s.obd_manager_.update env s.world
  let s1 := { s with obd_manager_ := r.1, world := r.2 }
  match s1.obd_manager_.getCurrentState with
  | OBDState.COMPLETE => setState env s1 SystemState.CONNECTIVITY_SETUP
  | OBDState.ERROR => setState env (s1.setError s1.obd_manager_.getLastError) SystemState.ERROR_HANDLING
  | _ => s1

def handleConnectivitySetup (env : Env) (s : SystemController) : SystemController :=
  let t := s.world.millis env
  let s0 := { s with world := t.2 }
  if usub t.1 s0.state_start_time > CONNECTIVITY_TIMEOUT then
    let s1 := setState env (s0.setError "Connectivity setup timeout") SystemState.ERROR_HANDLING
    { s1 with connectivity_step := ConnectivityStep.SETUP_WIFI }
  else
    match s0.connectivity_step with
    | ConnectivityStep.SETUP_WIFI =>
      let r := s0.connectivity_manager_.connectWiFi env s0.world
      let s1 := { s0 with connectivity_manager_ := r.1, world := r.2.1 }
      if r.2.2 then { s1 with connectivity_step := ConnectivityStep.SETUP_NTP }
      else
        let s2 := setState env (s1.setError "WiFi connection failed") SystemState.ERROR_HANDLING
        { s2 with connectivity_step := ConnectivityStep.SETUP_WIFI }
    | ConnectivityStep.SETUP_NTP =>
      let r := s0.connectivity_manager_.syncTime env s0.world
      let s1 := { s0 with connectivity_manager_ := r.1, world := r.2.1 }
      if r.2.2 then { s1 with connectivity_step := ConnectivityStep.SETUP_MQTT }
      else { s1 with connectivity_step := ConnectivityStep.SETUP_MQTT }
    | ConnectivityStep.SETUP_MQTT =>
      let r := s0.connectivity_manager_.connectMQTT env s0.world
      let s1 := { s0 with connectivity_manager_ := r.1, world := r.2.1 }
      if r.2.2 then { s1 with connectivity_step := ConnectivityStep.CONNECTIVITY_COMPLETE }
      else
        let s2 := setState env (s1.setError "MQTT connection failed") SystemState.ERROR_HANDLING
        { s2 with connectivity_step := ConnectivityStep.SETUP_WIFI }
    | ConnectivityStep.CONNECTIVITY_COMPLETE =>
      let s1 := setState env s0 SystemState.DATA_PUBLISHING
      { s1 with connectivity_step := ConnectivityStep.SETUP_WIFI }

/-- Store what a publisher call left behind. -/
def absorb (s : SystemController) (r : Published) : SystemController :=
  { s with data_publisher_ := r.pub, connectivity_manager_ := r.conn, world := r.world }

def handleDataPublishing (env : Env) (s : SystemController) : SystemController :=
  let t := s.world.millis env
  let s0 := { s with world := t.2 }
  if usub t.1 s0.state_start_time > PUBLISHING_TIMEOUT then
    setState env (s0.setError "Data publishing timeout") SystemState.ERROR_HANDLING
  else
    let success := true
    let a :=
      if s0.obd_manager_.hasConnectionLost then
        let r := s0.data_publisher_.publishStatus env s0.connectivity_manager_ s0.world
          "No Car Connection"
        (s0.absorb r, success && r.ok)
      else
        let r1 := s0.data_publisher_.publishStatus env s0.connectivity_manager_ s0.world
          "CONNECTED"
        let s1 := s0.absorb r1
        let data := s1.obd_manager_.getData
        let r2 := s1.data_publisher_.publishOBDData env s1.connectivity_manager_ s1.world data
        (s1.absorb r2, (success && r1.ok) && r2.ok)
    let r3 := a.1.data_publisher_.publishLastUpdate env a.1.connectivity_manager_ a.1.world
    let s3 := a.1.absorb r3
    let success3 := a.2 && r3.ok
    let s4 := if success3 then { s3 with cycle_successful := true }
              else { s3 with cycle_successful := false }
    setState env s4 SystemState.COMPLETE_CYCLE

def handleErrorHandling (env : Env) (s : SystemController) : SystemController :=
  let error_published := false
  let s1 :=
    if !s.connectivity_manager_.isWiFiConnected then
      let r := s.connectivity_manager_.connectWiFi env s.world
      if r.2.2 then
        let r2 := r.1.syncTime env r.2.1
        { s with connectivity_manager_ := r2.1, world := r2.2.1 }
      else { s with connectivity_manager_ := r.1, world := r.2.1 }
    else s
  let s2 :=
    if s1.connectivity_manager_.isWiFiConnected && !s1.connectivity_manager_.isMQTTConnected then
      let r := s1.connectivity_manager_.connectMQTT env s1.world
      { s1 with connectivity_manager_ := r.1, world := r.2.1 }
    else s1
  let a :=
    if s2.connectivity_manager_.isMQTTConnected then
      let r := s2.data_publisher_.publishErrorStatus env s2.connectivity_manager_ s2.world
        s2.last_error s2.obd_manager_.hasConnectionLost
      (s2.absorb r, r.ok)
    else (s2, error_published)
  setState env a.1 SystemState.COMPLETE_CYCLE

def handleCompleteCycle (env : Env) (s : SystemController) : SystemController :=
  let s1 := s.cleanupConnections
  let s2 :=
    if s1.cycle_successful then setCycleInterval env s1 s1.config_.normal_cycle_interval
    else if s1.obd_manager_.hasConnectionLost then
      setCycleInterval env s1 s1.config_.error_cycle_interval
    else setCycleInterval env s1 s1.config_.retry_cycle_interval
  setState env s2 SystemState.WAITING

def handleWaiting (env : Env) (s : SystemController) : SystemController :=
  let s1 :=
    if s.connectivity_manager_.isMQTTConnected then
      let r := s.connectivity_manager_.poll env s.world
      { s with connectivity_manager_ := r.1, world := r.2 }
    else s
  let t := s1.world.millis env
  let s2 := { s1 with world := t.2 }
  if usub t.1 s2.last_update_time ≥ s2.current_cycle_interval then
    setState env s2 SystemState.INIT
  else s2

def update (env : Env) (s : SystemController) : SystemController :=
  match s.current_state with
  | SystemState.INIT => handleInit env s
  | SystemState.OBD_READING => handleOBDReading env s
  | SystemState.CONNECTIVITY_SETUP => handleConnectivitySetup env s
  | SystemState.DATA_PUBLISHING => handleDataPublishing env s
  | SystemState.ERROR_HANDLING => handleErrorHandling env s
  | SystemState.WAITING => handleWaiting env s
  | SystemState.COMPLETE_CYCLE => handleCompleteCycle env s

/-- The scheduler loop: one `update()` per element, each against the collaborators'
behaviour during that tick. -/
def run : List Env → SystemController → SystemController
  | [], s => s
  | env :: rest, s => run rest (update env s)

end SystemController

/-! ## The blocking OBDManager (managers/obdmanager.h, obdmanager.cpp, config.h)

Its waits are loops without a bound of their own; they are run with a number of
rounds `fuel`, and `none` means the rounds ran out before the loop ended. -/

namespace Timeouts
def ELM_CONNECTION : Nat := 30000
def ELM_INIT : Nat := 15000
def ELM_COMMAND : Nat := 10000
def NTP_SYNC : Nat := 10000
def BLE_CONNECTION : Nat := 15000
end Timeouts

namespace OBD
def DEVICE_NAME : String := "OBDLink CX"
def MAX_BT_TIMEOUTS : Nat := 2
def CMD_SOC : String := "221FFC"
def CMD_TEMP : String := "220032"
def CMD_VOLTAGE : String := "220008"
def CMD_TOTALCHARGES : String := "22000B"
def CMD_TOTALKWHCHARGE : String := "220011"
def CMD_TOTALKWHDISCHARGE : String := "220012"
def INIT_COMMANDS : List String :=
  ["ATZ", "ATD", "ATD0", "ATH1", "ATSP6", "ATE0", "ATM0", "ATS0", "ATAT1", "ATAL",
   "STCSEGT1", "ATST96", "ATSH7E7"]
def INIT_COMMANDS_COUNT : Nat := 13
end OBD

namespace ErrorMessages
def BLE_TIMEOUT : String := "ELM_BLE_CONNECTION_TIMEOUT"
def INIT_TIMEOUT : String := "ELM_INIT_TIMEOUT"
def SOC_TIMEOUT : String := "SOC_READ_TIMEOUT"
def TEMP_TIMEOUT : String := "TEMP_READ_TIMEOUT"
def VOLTAGE_TIMEOUT : String := "VOLTAGE_READ_TIMEOUT"
def SOC_FAILED : String := "SOC_READ_FAILED"
def TEMP_FAILED : String := "TEMP_READ_FAILED"
def VOLTAGE_FAILED : String := "VOLTAGE_READ_FAILED"
def TIMES_CHARGED_FAILED : String := "TIMES_CHARGED_READ_FAILED"
def TOTAL_KWH_CHARGED_FAILED : String := "TOTAL_KWH_CHARGED_FAILED"
def TOTAL_KWH_DISCHARGED_FAILED : String := "TOTAL_KWH_DISCHARGED_FAILED"
def NO_CAR : String := "No Car Connection"
def CONNECTED : String := "CONNECTED"
def TIME_NOT_SYNCED : String := "TIME_NOT_SYNCED"
end ErrorMessages

namespace Legacy

structure VehicleData where
  stateOfCharge : ℚ := 0
  batteryTemperature : ℚ := 0
  batteryVoltage : ℚ := 0
  totalCharges : ℚ := 0
  totalKwhCharged : ℚ := 0
  totalKwhDischarged : ℚ := 0
  isValid : Bool := false
  deriving DecidableEq, Repr

/-- Member variables of the blocking `OBDManager`, with the two fields of its `ELM327`
member the code reads.  The `int` streak is an unbounded natural. -/
structure OBDManager where
  connected : Bool := false
  consecutiveTimeouts : Nat := 0
  carConnectionLost : Bool := false
  nb_rx_state : RxState := RxState.ELM_SUCCESS
  payload : List Nat := []
  deriving DecidableEq, Repr

/-- What a read leaves behind: the manager, the world, the return value and the
content of the `float&` argument. -/
structure ReadResult where
  mgr : OBDManager
  world : World
  ok : Bool
  value : ℚ
  deriving DecidableEq, Repr

namespace OBDManager

def isConnected (m : OBDManager) : Bool := m.connected
def getConsecutiveTimeouts (m : OBDManager) : Nat := m.consecutiveTimeouts
def isCarConnectionLost (m : OBDManager) : Bool := m.carConnectionLost

def charToInt (value : Nat) : Nat :=
  let v := value % 256
  if 65 ≤ v ∧ v ≤ 70 then (v - 65 + 10) % 256
  else if 48 ≤ v ∧ v ≤ 57 then (v - 48) % 256
  else 0

/-- The byte `(charToInt(payload[i]) << 4) | charToInt(payload[i + 1])`. -/
def hexPair (m : OBDManager) (i : Nat) : Nat :=
  (charToInt (m.payload.getD i 0) <<< 4) ||| charToInt (m.payload.getD (i + 1) 0)

def handleTimeout (m : OBDManager) (errorMsg : String) : OBDManager :=
  if strstr errorMsg "TIMEOUT" then
    let m1 := { m with consecutiveTimeouts := m.consecutiveTimeouts + 1 }
    if m1.consecutiveTimeouts ≥ OBD.MAX_BT_TIMEOUTS then { m1 with carConnectionLost := true }
    else m1
  else m

def resetTimeoutCounter (m : OBDManager) : OBDManager :=
  if m.consecutiveTimeouts > 0 then
    { m with consecutiveTimeouts := 0, carConnectionLost := false }
  else m

def disconnect (m : OBDManager) (w : World) : OBDManager × World :=
  if m.connected then
    ({ m with connected := false }, (w.emit (Event.elmCommandBlocking "ATZ")).emit Event.bleEnd)
  else (m, w)

/-- The loop `while (!elm327.begin(bleSerial, true, 2000))` of `initializeELM327`. -/
def beginWait (env : Env) (startTime : Nat) : Nat → World → Option (Bool × World)
  | 0, _ => none
  | fuel + 1, w =>
    let ok := env.elmBegin w.calls
    let w1 := (w.emit (Event.elmBegin ok)).tick
    if ok then some (true, w1)
    else
      let t := w1.millis env
      if usub t.1 startTime > Timeouts.ELM_INIT then some (false, t.2)
      else beginWait env startTime fuel (t.2.emit (Event.delay 1000))

def initializeELM327 (env : Env) (fuel : Nat) (w : World) : Option (Bool × World) :=
  let t := w.millis env
  match beginWait env t.1 fuel t.2 with
  | none => none
  | some (false, w1) => some (false, w1)
  | some (true, w1) =>
    some (true, (OBD.INIT_COMMANDS.take OBD.INIT_COMMANDS_COUNT).foldl
      (fun w2 cmd => (w2.emit (Event.elmCommandBlocking cmd)).emit (Event.delay 100)) w1)

def connect (env : Env) (fuel : Nat) (m : OBDManager) (w : World) :
    Option (OBDManager × World × Bool) :=
  let w1 := w.emit (Event.bleBegin OBD.DEVICE_NAME)
  let ok := env.bleConnect w1.calls
  let w2 := (w1.emit (Event.bleConnect Timeouts.BLE_CONNECTION ok)).tick
  if !ok then some (m.handleTimeout ErrorMessages.BLE_TIMEOUT, w2, false)
  else
    match initializeELM327 env fuel w2 with
    | none => none
    | some (false, w3) => some (m.handleTimeout ErrorMessages.INIT_TIMEOUT, w3, false)
    | some (true, w3) => some ({ m with connected := true }, w3, true)

/-- The loop `while (elm327.nb_rx_state == ELM_GETTING_MSG)` of the read functions;
the boolean tells whether the loop was left through its timeout test. -/
def awaitResponse (env : Env) (startTime : Nat) :
    Nat → OBDManager → World → Option (Bool × OBDManager × World)
  | 0, _, _ => none
  | fuel + 1, m, w =>
    if m.nb_rx_state = RxState.ELM_GETTING_MSG then
      let t := w.millis env
      if usub t.1 startTime > Timeouts.ELM_COMMAND then some (true, m, t.2)
      else
        let w1 := t.2.emit Event.elmGetResponse
        let m1 := { m with nb_rx_state := env.elmRxState w1.calls,
                           payload := env.elmPayload w1.calls }
        awaitResponse env startTime fuel m1 (w1.tick.emit (Event.delay 50))
    else some (false, m, w)

/-- The common shape of the six read functions: the query `cmd`, the error name used
when the wait times out, the one used when the response is not a success, the decoding
of the response, and whether success calls `resetTimeoutCounter()`. -/
def readWith (cmd timeoutMsg failedMsg : String) (decode : OBDManager → ℚ) (resets : Bool)
    (env : Env) (fuel : Nat) (m : OBDManager) (w : World) (out : ℚ) : Option ReadResult :=
  if !m.connected then some { mgr := m, world := w, ok := false, value := out }
  else
    let m1 := { m with nb_rx_state := RxState.ELM_GETTING_MSG }
    let w1 := w.emit (Event.elmSendCommand cmd)
    let t := w1.millis env
    match awaitResponse env t.1 fuel m1 t.2 with
    | none => none
    | some (true, m2, w2) =>
      some { mgr := m2.handleTimeout timeoutMsg, world := w2, ok := false, value := out }
    | some (false, m2, w2) =>
      if m2.nb_rx_state = RxState.ELM_SUCCESS then
        some { mgr := if resets then m2.resetTimeoutCounter else m2,
               world := w2, ok := true, value := decode m2 }
      else
        some { mgr := m2.handleTimeout failedMsg, world := w2, ok := false, value := out }

def readStateOfCharge : Env → Nat → OBDManager → World → ℚ → Option ReadResult :=
  readWith OBD.CMD_SOC ErrorMessages.SOC_TIMEOUT ErrorMessages.SOC_FAILED
    (fun m => ((m.hexPair 11 + m.hexPair 13 * 256 : Nat) : ℚ) / 100) true

def readBatteryTemperature : Env → Nat → OBDManager → World → ℚ → Option ReadResult :=
  readWith OBD.CMD_TEMP ErrorMessages.TEMP_TIMEOUT ErrorMessages.TEMP_FAILED
    (fun m => ((m.hexPair 11 : Nat) : ℚ) - 40) false

def readBatteryVoltage : Env → Nat → OBDManager → World → ℚ → Option ReadResult :=
  readWith OBD.CMD_VOLTAGE ErrorMessages.VOLTAGE_TIMEOUT ErrorMessages.VOLTAGE_FAILED
    (fun m => ((m.hexPair 11 + m.hexPair 13 * 256 : Nat) : ℚ)) false

def readTotalCharges : Env → Nat → OBDManager → World → ℚ → Option ReadResult :=
  readWith OBD.CMD_TOTALCHARGES ErrorMessages.TIMES_CHARGED_FAILED
    ErrorMessages.TIMES_CHARGED_FAILED
    (fun m => ((m.hexPair 11 + m.hexPair 13 * 256 : Nat) : ℚ)) true

def readTotalKwhCharged : Env → Nat → OBDManager → World → ℚ → Option ReadResult :=
  readWith OBD.CMD_TOTALKWHCHARGE ErrorMessages.TOTAL_KWH_CHARGED_FAILED
    ErrorMessages.TOTAL_KWH_CHARGED_FAILED
    (fun m => ((m.hexPair 11 + m.hexPair 13 * 256 : Nat) : ℚ)) false

def readTotalKwhDischarged : Env → Nat → OBDManager → World → ℚ → Option ReadResult :=
  readWith OBD.CMD_TOTALKWHDISCHARGE ErrorMessages.TOTAL_KWH_DISCHARGED_FAILED
    ErrorMessages.TOTAL_KWH_DISCHARGED_FAILED
    (fun m => ((m.hexPair 11 + m.hexPair 13 * 256 : Nat) : ℚ)) false

def readAllData (env : Env) (fuel : Nat) (m : OBDManager) (w : World) (data : VehicleData) :
    Option (OBDManager × World × Bool × VehicleData) :=
  let d0 := { data with isValid := false }
  match readStateOfCharge env fuel m w d0.stateOfCharge with
  | none => none
  | some r1 =>
    let d1 := { d0 with stateOfCharge := r1.value }
    if !r1.ok then some (r1.mgr, r1.world, false, d1)
    else
      match readBatteryTemperature env fuel r1.mgr r1.world d1.batteryTemperature with
      | none => none
      | some r2 =>
        let d2 := { d1 with batteryTemperature := r2.value }
        if !r2.ok then some (r2.mgr, r2.world, false, d2)
        else
          match readBatteryVoltage env fuel r2.mgr r2.world d2.batteryVoltage with
          | none => none
          | some r3 =>
            let d3 := { d2 with batteryVoltage := r3.value }
            if !r3.ok then some (r3.mgr, r3.world, false, d3)
            else
              match readTotalCharges env fuel r3.mgr r3.world d3.totalCharges with
              | none => none
              | some r4 =>
                let d4 := { d3 with totalCharges := r4.value }
                if !r4.ok then some (r4.mgr, r4.world, false, d4)
                else
                  match readTotalKwhCharged env fuel r4.mgr r4.world d4.totalKwhCharged with
                  | none => none
                  | some r5 =>
                    let d5 := { d4 with totalKwhCharged := r5.value }
                    if !r5.ok then some (r5.mgr, r5.world, false, d5)
                    else
                      match readTotalKwhDischarged env fuel r5.mgr r5.world
                        d5.totalKwhDischarged with
                      | none => none
                      | some r6 =>
                        let d6 := { d5 with totalKwhDischarged := r6.value }
                        if !r6.ok then some (r6.mgr, r6.world, false, d6)
                        else some (r6.mgr, r6.world, true, { d6 with isValid := true })

end OBDManager

end Legacy

/-! ## The cycle graph of the specification -/

/-- Edges of the controller's cycle graph as the specification lists them: Init to
Acquiring or ErrorHandling; Acquiring to itself, ConnectivitySetup or ErrorHandling;
ConnectivitySetup to itself, Publishing or ErrorHandling; Publishing to CycleComplete or
ErrorHandling; ErrorHandling to CycleComplete; CycleComplete to Waiting; Waiting to
itself or Init. -/
def cycleEdge : SystemState → SystemState → Bool
  | SystemState.INIT, SystemState.OBD_READING => true
  | SystemState.INIT, SystemState.ERROR_HANDLING => true
  | SystemState.OBD_READING, SystemState.OBD_READING => true
  | SystemState.OBD_READING, SystemState.CONNECTIVITY_SETUP => true
  | SystemState.OBD_READING, SystemState.ERROR_HANDLING => true
  | SystemState.CONNECTIVITY_SETUP, SystemState.CONNECTIVITY_SETUP => true
  | SystemState.CONNECTIVITY_SETUP, SystemState.DATA_PUBLISHING => true
  | SystemState.CONNECTIVITY_SETUP, SystemState.ERROR_HANDLING => true
  | SystemState.DATA_PUBLISHING, SystemState.COMPLETE_CYCLE => true
  | SystemState.DATA_PUBLISHING, SystemState.ERROR_HANDLING => true
  | SystemState.ERROR_HANDLING, SystemState.COMPLETE_CYCLE => true
  | SystemState.COMPLETE_CYCLE, SystemState.WAITING => true
  | SystemState.WAITING, SystemState.WAITING => true
  | SystemState.WAITING, SystemState.INIT => true
  | _, _ => false

/-! ## Executions and what holds along them -/

/-- The scheduler loop against a sequence of collaborator behaviours: the state after
`n` ticks, tick `i` running against `envs i`. -/
def SystemController.runSeq (envs : Nat → Env) : Nat → SystemController → SystemController
  | 0, s => s
  | n + 1, s => SystemController.update (envs n) (SystemController.runSeq envs n s)

/-- States the firmware can be in: the controller as constructed, the same after the
start-up call of `initialize()`, and whatever `update()` makes of a reachable state
under any behaviour of the collaborators. -/
inductive Reachable : SystemController → Prop
  | power_up (config : Config) : Reachable (SystemController.new config)
  | started (env : Env) (config : Config) :
      Reachable (SystemController.initialise env (SystemController.new config))
  | update (env : Env) (s : SystemController) :
      Reachable s → Reachable (SystemController.update env s)

/-- Bookkeeping of the acquisition manager: the link is reported lost only at a streak
of at least 2; past the state-of-charge read the streak is 0; a complete acquisition
has valid readings. -/
def OBDManager.StreakInv (m : OBDManager) : Prop :=
  (m.car_connection_lost = true → 2 ≤ m.consecutive_bt_timeouts) ∧
  (m.current_state = OBDState.READ_BATTERY_TEMP ∨
    m.current_state = OBDState.READ_BATTERY_VOLTAGE ∨
    m.current_state = OBDState.COMPLETE → m.consecutive_bt_timeouts = 0) ∧
  (m.current_state = OBDState.COMPLETE → m.data.valid = true)

/-- Bookkeeping of the controller: the acquisition manager's, the success mark is clear
from `OBD_READING` until publishing, and the connectivity sub-step is at its start
outside `CONNECTIVITY_SETUP`. -/
def SystemController.CycleInv (s : SystemController) : Prop :=
  s.obd_manager_.StreakInv ∧
  (s.current_state = SystemState.OBD_READING ∨
    s.current_state = SystemState.CONNECTIVITY_SETUP ∨
    s.current_state = SystemState.DATA_PUBLISHING ∨
    s.current_state = SystemState.ERROR_HANDLING → s.cycle_successful = false) ∧
  (s.current_state ≠ SystemState.CONNECTIVITY_SETUP →
    s.connectivity_step = ConnectivityStep.SETUP_WIFI)

/-- Topic and text of the publish calls of a log, in order. -/
def publishedMessages (log : List Event) : List (String × Payload) :=
  log.filterMap fun e =>
    match e with
    | Event.publish topic message _ _ => some (topic, message)
    | _ => none

/-- The controller state after tick `i` of a cycle whose acquisition takes `k` ticks, as
the specification describes a successful cycle: Init, Acquiring, ConnectivitySetup,
Publishing, CycleComplete, Waiting. -/
def successPath (k i : Nat) : SystemState :=
  if i = 0 then SystemState.INIT
  else if i ≤ k then SystemState.OBD_READING
  else if i ≤ k + 4 then SystemState.CONNECTIVITY_SETUP
  else if i = k + 5 then SystemState.DATA_PUBLISHING
  else if i = k + 6 then SystemState.COMPLETE_CYCLE
  else SystemState.WAITING

/-! ## Concrete collaborators used to exercise the code -/

/-- Response to a query as the adapter buffers it (headers on, spaces off). -/
def samplePayload : List Nat := "7EF0562003241".data.map Char.toNat

/-- Collaborators that answer every request at once and with success, while the tick
counter stands at `now`. -/
def Env.ideal (now : Nat) : Env :=
  { millis := fun _ => now
    bleConnect := fun _ => true
    elmBegin := fun _ => true
    elmRxState := fun _ => RxState.ELM_SUCCESS
    elmPayload := fun _ => samplePayload
    wifiStatus := fun _ => true
    tmYear := fun _ => 125
    time := fun _ => 1750000000
    mqttConnect := fun _ => true
    mqttConnectError := fun _ => 0
    mqttBeginMessage := fun _ => true
    mqttPrint := fun _ => 1
    mqttEndMessage := fun _ => true }

/-- As `Env.ideal`, but the BLE connection attempt fails. -/
def Env.bleDown (now : Nat) : Env := { Env.ideal now with bleConnect := fun _ => false }

/-- As `Env.ideal`, but the wireless network never associates. -/
def Env.wifiDown (now : Nat) : Env := { Env.ideal now with wifiStatus := fun _ => false }

/-- As `Env.ideal`, but the adapter and the BLE port report failure. -/
def Env.carDown (now : Nat) : Env :=
  { Env.ideal now with
    bleConnect := fun _ => false
    elmBegin := fun _ => false
    elmRxState := fun _ => RxState.ELM_FAILED 7 }

/-- The blocking manager after a BLE connect that timed out followed by a connect that
succeeded. -/
def Legacy.reconnected : Option (Legacy.OBDManager × World × Bool) :=
  (Legacy.OBDManager.connect (Env.bleDown 0) 1 {} {}).bind
    (fun r => Legacy.OBDManager.connect (Env.ideal 0) 1 r.1 r.2.1)

/-- Ten ticks from power-up with ideal collaborators: the acquisition is complete and
the controller has just entered the connectivity phase. -/
def SystemController.acquired : SystemController :=
  SystemController.run (List.replicate 10 (Env.ideal 0)) (SystemController.new {})

/-- The controller of `acquired` after the network failed to associate, both in the
connectivity phase and in error handling: it stands in `COMPLETE_CYCLE`. -/
def SystemController.acquiredOffline : SystemController :=
  SystemController.run [Env.wifiDown 0, Env.wifiDown 0] SystemController.acquired

/-- Thirteen ticks of a cycle that starts at tick-counter value `t`: link setup and the
state-of-charge and temperature reads succeed at once, the voltage query is sent, and
the next tick comes 10001 ms later, so the voltage read times out; error handling and
cycle completion follow, and the last tick, at `t + 80000`, ends the wait. -/
def voltageTimeoutCycle (t : Nat) : List Env :=
  List.replicate 9 (Env.ideal t) ++ List.replicate 3 (Env.ideal (t + 10001)) ++
    [Env.ideal (t + 80000)]

/-- The controller, constructed with `config`, after one full `voltageTimeoutCycle` and
the first `n` ticks of a second one. -/
def SystemController.secondVoltageTimeout (config : Config) (n : Nat) : SystemController :=
  SystemController.run (voltageTimeoutCycle 0 ++ (voltageTimeoutCycle 80000).take n)
    (SystemController.new config)

/-- The controller of `acquired` four ideal ticks later: connectivity is set up and the
controller has just entered `DATA_PUBLISHING`, at tick-counter value 0. -/
def SystemController.readyToPublish : SystemController :=
  SystemController.run (List.replicate 4 (Env.ideal 0)) SystemController.acquired


/-- Response whose first hex pair (positions 11 and 12) is 10 and whose second (positions
13 and 14) is 27. -/
def twoBytePayload : List Nat := "7EF056200081027".data.map Char.toNat

/-- Response whose hex pair at positions 11 and 12 is 05. -/
def coldPayload : List Nat := "7EF0462003205".data.map Char.toNat

/-- As `Env.ideal`, with `payload` as the adapter's response. -/
def Env.answering (payload : List Nat) (now : Nat) : Env :=
  { Env.ideal now with elmPayload := fun _ => payload }

/-- The polled manager while it awaits a response in the state `st`, the query having
been sent at tick-counter value 0. -/
def OBDManager.awaiting (st : OBDState) : OBDManager :=
  { current_state := st
    soc_query_state := QueryState.WAITING_RESP
    temp_query_state := QueryState.WAITING_RESP
    voltage_query_state := QueryState.WAITING_RESP
    obd_connected := true }


/-- States of the polled acquisition manager reachable from construction through its
public operations `initialize()`, `update()`, `disconnect()` and `resetTimeoutCounter()`,
under any adapter responses and clock values. -/
inductive OBDManager.Reach : OBDManager → Prop
  | constructed : OBDManager.Reach {}
  | initialise (m : OBDManager) : OBDManager.Reach m → OBDManager.Reach m.initialise.1
  | update (env : Env) (w : World) (m : OBDManager) :
      OBDManager.Reach m → OBDManager.Reach (m.update env w).1
  | disconnect (w : World) (m : OBDManager) :
      OBDManager.Reach m → OBDManager.Reach (m.disconnect w).1
  | resetTimeoutCounter (m : OBDManager) :
      OBDManager.Reach m → OBDManager.Reach m.resetTimeoutCounter


/-- How one `update()` may change the failure streak and the lost-link flag: not at
all; by a transport timeout (error state, a timeout-named last error, streak + 1, flag
set at the threshold); by a state-of-charge success (streak 0, flag cleared); or by a
protocol error (error state, a `*_READ_FAILED` last error, streak 0, flag cleared). -/
def OBDManager.StreakStep (m n : OBDManager) : Prop :=
  (n.consecutive_bt_timeouts = m.consecutive_bt_timeouts ∧
    n.car_connection_lost = m.car_connection_lost) ∨
  (n.current_state = OBDState.ERROR ∧
    OBDManager.isBluetoothTimeoutError n.last_error = true ∧
    n.consecutive_bt_timeouts = m.consecutive_bt_timeouts + 1 ∧
    n.car_connection_lost =
      (decide (OBDManager.MAX_CONSECUTIVE_BT_TIMEOUTS ≤ m.consecutive_bt_timeouts + 1)
        || m.car_connection_lost)) ∨
  (m.current_state = OBDState.READ_SOC ∧ n.current_state = OBDState.READ_BATTERY_TEMP ∧
    n.consecutive_bt_timeouts = 0 ∧ n.car_connection_lost = false) ∨
  (n.current_state = OBDState.ERROR ∧
    (n.last_error = "SOC_READ_FAILED" ∨ n.last_error = "TEMP_READ_FAILED" ∨
      n.last_error = "VOLTAGE_READ_FAILED") ∧
    n.consecutive_bt_timeouts = 0 ∧ n.car_connection_lost = false)

/-- As `Env.ideal`, but every query is answered with an error response. -/
def Env.protocolError (now : Nat) : Env :=
  { Env.ideal now with elmRxState := fun _ => RxState.ELM_FAILED 7 }

/-- Consecutive calls of `update()` of the polled manager, one per environment. -/
def OBDManager.run (envs : List Env) (m : OBDManager) (w : World) : OBDManager × World :=
  envs.foldl (fun p env => p.1.update env p.2) (m, w)

/-- The polled manager after two acquisition attempts whose BLE connect was refused. -/
def OBDManager.twiceRefused : OBDManager × World :=
  let a := OBDManager.run [Env.bleDown 0, Env.bleDown 0] ({} : OBDManager).initialise.1 {}
  OBDManager.run [Env.bleDown 0, Env.bleDown 0] a.1.initialise.1 a.2

/-- A third attempt after `twiceRefused`, with BLE and adapter coming up, taken to the
point where the state-of-charge response is awaited. -/
def OBDManager.lostThenAwaitingSOC : OBDManager × World :=
  OBDManager.run (List.replicate 4 (Env.ideal 0))
    OBDManager.twiceRefused.1.initialise.1 OBDManager.twiceRefused.2


/-- As `Env.ideal`, but the adapter never answers a query (its state stays
`ELM_GETTING_MSG`) while the tick counter advances by 6000 ms from one reading to the
next. -/
def Env.silent : Env :=
  { Env.ideal 0 with
    millis := fun k => 6000 * k
    elmRxState := fun _ => RxState.ELM_GETTING_MSG }


/-- The moves of the acquisition machine in one `update()`: stay, advance by one along
SETUP, READ_SOC, READ_BATTERY_TEMP, READ_BATTERY_VOLTAGE, COMPLETE, or fall into ERROR
from a state before COMPLETE; COMPLETE and ERROR only stay. -/
def obdEdge : OBDState → OBDState → Bool
  | OBDState.SETUP, OBDState.SETUP => true
  | OBDState.SETUP, OBDState.READ_SOC => true
  | OBDState.SETUP, OBDState.ERROR => true
  | OBDState.READ_SOC, OBDState.READ_SOC => true
  | OBDState.READ_SOC, OBDState.READ_BATTERY_TEMP => true
  | OBDState.READ_SOC, OBDState.ERROR => true
  | OBDState.READ_BATTERY_TEMP, OBDState.READ_BATTERY_TEMP => true
  | OBDState.READ_BATTERY_TEMP, OBDState.READ_BATTERY_VOLTAGE => true
  | OBDState.READ_BATTERY_TEMP, OBDState.ERROR => true
  | OBDState.READ_BATTERY_VOLTAGE, OBDState.READ_BATTERY_VOLTAGE => true
  | OBDState.READ_BATTERY_VOLTAGE, OBDState.COMPLETE => true
  | OBDState.READ_BATTERY_VOLTAGE, OBDState.ERROR => true
  | OBDState.COMPLETE, OBDState.COMPLETE => true
  | OBDState.ERROR, OBDState.ERROR => true
  | _, _ => false


/-- As `Env.ideal`, but the adapter never becomes ready. -/
def Env.elmDown (now : Nat) : Env := { Env.ideal now with elmBegin := fun _ => false }

/-- The calls made on the BLE serial port, in order: `begin`, `connect`, `end`. -/
def bleOps (log : List Event) : List Event :=
  log.filter fun e =>
    match e with
    | Event.bleBegin _ => true
    | Event.bleConnect _ _ => true
    | Event.bleEnd => true
    | _ => false

/-- Collaborators of a cycle in which BLE connects and the adapter initialisation then
times out, followed by the idle period and the start of the next cycle. -/
def initTimeoutEnvs : List Env :=
  [Env.ideal 0, Env.ideal 0, Env.ideal 0, Env.elmDown 15001, Env.ideal 15001,
   Env.ideal 15001, Env.ideal 80000, Env.ideal 80000, Env.ideal 80000]


/-- A fully successful cycle run while the tick counter stands 1000 ms before its
wrap-around: the controller waits, with `last_update_time` = 2^32 − 1000. -/
def SystemController.waitingBeforeWrap : SystemController :=
  SystemController.run (List.replicate 16 (Env.ideal 4294966296)) (SystemController.new {})


/-- As `Env.ideal`, but the system clock never leaves 1970: time synchronisation fails. -/
def Env.clockDown (now : Nat) : Env := { Env.ideal now with tmYear := fun _ => 70 }


/-! ## TimeManager (managers/timemanager.h, managers/timemanager.cpp) -/

namespace NTP
def MAX_RETRY : Nat := 15
end NTP

namespace Legacy

structure TimeManager where
  timeSynced : Bool := false
  deriving DecidableEq, Repr

namespace TimeManager

def isSynced (t : TimeManager) : Bool := t.timeSynced

/-- The loop `while (timeinfo.tm_year < (2024 - 1900) && retry < maxRetries)` of
`waitForSync`, with `maxRetries - retry` rounds left, and its return value. -/
def waitForSync (env : Env) : Nat → Int → World → Bool × World
  | 0, year, w => (decide (year ≥ 2024 - 1900), w)
  | n + 1, year, w =>
    if year < 2024 - 1900 then
      let w1 := w.emit (Event.delay 1000)
      waitForSync env n (env.tmYear w1.calls) w1.tick
    else (decide (year ≥ 2024 - 1900), w)

/-- Output of `strftime` for the clock value read by `time(&now)`. -/
def getFormattedTime (env : Env) (w : World) : Payload × World :=
  (Payload.datetime (env.time w.calls), w.tick)

def syncWithNTP (env : Env) (t : TimeManager) (w : World) : TimeManager × World × Bool :=
  let w1 := w.emit Event.configTime
  let r := waitForSync env NTP.MAX_RETRY 0 w1
  if r.1 then
    let f := getFormattedTime env r.2
    ({ t with timeSynced := true }, f.2, true)
  else (t, r.2, false)

def getCurrentTimestamp (env : Env) (t : TimeManager) (w : World) : Payload × World :=
  if !t.timeSynced then (Payload.text ErrorMessages.TIME_NOT_SYNCED, w)
  else getFormattedTime env w

end TimeManager

end Legacy


/-- Bookkeeping across the phases of a cycle: during connectivity setup and publishing
the acquisition machine stands in COMPLETE, and while the cycle is marked successful
the link is not reported lost and the streak is 0. -/
def SystemController.AcqInv (s : SystemController) : Prop :=
  (s.current_state = SystemState.CONNECTIVITY_SETUP ∨
    s.current_state = SystemState.DATA_PUBLISHING →
    s.obd_manager_.current_state = OBDState.COMPLETE) ∧
  (s.cycle_successful = true →
    s.obd_manager_.car_connection_lost = false ∧ s.obd_manager_.consecutive_bt_timeouts = 0)


/-- States of the connectivity manager reachable from construction through its public
operations, under any behaviour of the collaborators, provided that in each
`connectMQTT()` call the tick counter advances by at most 10000 ms between the first
reading and the one after it. -/
inductive ConnectivityManager.Reach : ConnectivityManager → Prop
  | constructed : ConnectivityManager.Reach {}
  | connectWiFi (env : Env) (w : World) (c : ConnectivityManager) :
      ConnectivityManager.Reach c → ConnectivityManager.Reach (c.connectWiFi env w).1
  | disconnectWiFi (w : World) (c : ConnectivityManager) :
      ConnectivityManager.Reach c → ConnectivityManager.Reach (c.disconnectWiFi w).1
  | syncTime (env : Env) (w : World) (c : ConnectivityManager) :
      ConnectivityManager.Reach c → ConnectivityManager.Reach (c.syncTime env w).1
  | connectMQTT (env : Env) (w : World) (c : ConnectivityManager) :
      ConnectivityManager.Reach c →
      usub (env.millis (w.calls + 1) % WORD) (env.millis w.calls % WORD)
        ≤ ConnectivityManager.MQTT_CONNECTION_TIMEOUT →
      ConnectivityManager.Reach (c.connectMQTT env w).1
  | disconnectMQTT (w : World) (c : ConnectivityManager) :
      ConnectivityManager.Reach c → ConnectivityManager.Reach (c.disconnectMQTT w).1
  | publishWithTimeout (env : Env) (w : World) (topic : String) (message : Payload)
      (retain : Bool) (c : ConnectivityManager) :
      ConnectivityManager.Reach c →
      ConnectivityManager.Reach (c.publishWithTimeout env w topic message retain).1
  | poll (env : Env) (w : World) (c : ConnectivityManager) :
      ConnectivityManager.Reach c → ConnectivityManager.Reach (c.poll env w).1

/-- The retry counter is 0 and the last error is not the exhausted-budget message. -/
def ConnectivityManager.Steady (c : ConnectivityManager) : Prop :=
  c.mqtt_retry_count = 0 ∧ c.last_error ≠ "MQTT connection: Maximum retries reached"

/-- As `Env.ideal`, but the broker refuses the session. -/
def Env.brokerDown (now : Nat) : Env :=
  { Env.ideal now with mqttConnect := fun _ => false, mqttConnectError := fun _ => -2 }


/-- The results of the broker connection attempts (`mqtt_client_.connect`) of a log, in
order. -/
def mqttAttempts (log : List Event) : List Bool :=
  log.filterMap fun e =>
    match e with
    | Event.mqttConnect ok => some ok
    | _ => none

/-- The controller of `acquired` two ideal ticks later: the network is associated, the
clock is synchronised and the broker connection is the pending sub-step. -/
def SystemController.brokerPending : SystemController :=
  SystemController.run [Env.ideal 0, Env.ideal 0] SystemController.acquired


/-- The operations that start a connectivity step: `WiFi.begin`, `configTime` and
`mqtt_client_.connect`. -/
def Event.isConnectivityOp : Event → Bool
  | Event.wifiBegin => true
  | Event.configTime => true
  | Event.mqttConnect _ => true
  | _ => false

/-- Number of connectivity operations (network connect, time sync, broker connect)
started in a log. -/
def connectivityOps (log : List Event) : Nat := log.countP Event.isConnectivityOp

/-- The controller from power-up after an acquisition whose BLE connect was refused: it
has just entered `ERROR_HANDLING`, with no network, no synchronised clock and no broker
session. -/
def SystemController.acquisitionFailed : SystemController :=
  SystemController.run [Env.bleDown 0, Env.bleDown 0, Env.bleDown 0] (SystemController.new {})

end SealOBD

/-! # Properties -/

namespace SealOBD

/-! ## Acquisition manager: teardown and timeout bookkeeping -/

namespace OBDManager

theorem disconnect_fst (m : OBDManager) (w : World) :
    (m.disconnect w).1 = { m with obd_connected := false } := by
  unfold disconnect
  split
  · rfl
  · next h =>
    cases m
    simp at h ⊢
    exact h

theorem handleTimeout_fst (m : OBDManager) (w : World) (e : String) :
    (m.handleTimeout w e).1 =
      { m with
        last_error := e
        consecutive_bt_timeouts :=
          if isBluetoothTimeoutError e then m.consecutive_bt_timeouts + 1 else 0
        car_connection_lost :=
          if isBluetoothTimeoutError e then
            (if m.consecutive_bt_timeouts + 1 ≥ MAX_CONSECUTIVE_BT_TIMEOUTS then true
             else m.car_connection_lost)
          else false
        obd_connected := false
        current_state := OBDState.ERROR } := by
  unfold handleTimeout
  simp only [disconnect_fst]
  by_cases hb : isBluetoothTimeoutError e = true
  · by_cases hc : m.consecutive_bt_timeouts + 1 ≥ MAX_CONSECUTIVE_BT_TIMEOUTS
    · simp [hb, hc]
    · simp [hb, hc]
  · simp [hb]

end OBDManager

/-- C1. From a streak of 0 with the link not reported lost (power-up, or just after a
reset), the first `handleTimeout` with a timeout-named error leaves
`hasConnectionLost()` false and the second one, with no success in between, makes it
true.  This holds in the polled manager (names recognised by
`isBluetoothTimeoutError`) and in the blocking manager (names containing TIMEOUT). -/
theorem two_timeouts_report_link_lost (m : OBDManager) (w1 w2 : World) (e1 e2 : String)
    (l : Legacy.OBDManager)
    (h0 : m.consecutive_bt_timeouts = 0) (hl : m.car_connection_lost = false)
    (he1 : OBDManager.isBluetoothTimeoutError e1 = true)
    (he2 : OBDManager.isBluetoothTimeoutError e2 = true)
    (k0 : l.consecutiveTimeouts = 0) (kl : l.carConnectionLost = false)
    (ke1 : strstr e1 "TIMEOUT" = true) (ke2 : strstr e2 "TIMEOUT" = true) :
    (m.handleTimeout w1 e1).1.hasConnectionLost = false ∧
    ((m.handleTimeout w1 e1).1.handleTimeout w2 e2).1.hasConnectionLost = true ∧
    (l.handleTimeout e1).isCarConnectionLost = false ∧
    ((l.handleTimeout e1).handleTimeout e2).isCarConnectionLost = true := by
  refine ⟨?_, ?_, ?_, ?_⟩
  · simp [OBDManager.handleTimeout_fst, he1, h0, hl, OBDManager.hasConnectionLost,
      OBDManager.MAX_CONSECUTIVE_BT_TIMEOUTS]
  · simp [OBDManager.handleTimeout_fst, he1, he2, h0, OBDManager.hasConnectionLost,
      OBDManager.MAX_CONSECUTIVE_BT_TIMEOUTS]
  · simp [Legacy.OBDManager.handleTimeout, ke1, k0, kl, Legacy.OBDManager.isCarConnectionLost,
      OBD.MAX_BT_TIMEOUTS]
  · simp [Legacy.OBDManager.handleTimeout, ke1, ke2, k0, Legacy.OBDManager.isCarConnectionLost,
      OBD.MAX_BT_TIMEOUTS]

/-- Witness of C1: a BLE connection timeout followed by a state-of-charge read timeout,
both managers starting as constructed. -/
theorem two_timeouts_report_link_lost_witness :
    (({} : OBDManager).handleTimeout {} "ELM_BLE_CONNECTION_TIMEOUT").1.hasConnectionLost
      = false ∧
    ((({} : OBDManager).handleTimeout {} "ELM_BLE_CONNECTION_TIMEOUT").1.handleTimeout {}
      "SOC_READ_TIMEOUT").1.hasConnectionLost = true ∧
    (({} : Legacy.OBDManager).handleTimeout "ELM_BLE_CONNECTION_TIMEOUT").isCarConnectionLost
      = false ∧
    ((({} : Legacy.OBDManager).handleTimeout "ELM_BLE_CONNECTION_TIMEOUT").handleTimeout
      "SOC_READ_TIMEOUT").isCarConnectionLost = true :=
  two_timeouts_report_link_lost {} {} {} "ELM_BLE_CONNECTION_TIMEOUT" "SOC_READ_TIMEOUT" {}
    rfl rfl (by decide) (by decide) rfl rfl (by decide) (by decide)

/-- C2 (the code at the failing input). In the blocking manager a BLE connect times out
(streak 1), the next connect succeeds, and then a temperature read succeeds with value
0x41 - 40 = 25: the streak is still 1.  A state-of-charge read succeeding in the very
same situation leaves the streak at 0. -/
theorem temperature_success_keeps_streak :
    (Legacy.reconnected.map fun r => (r.2.2, r.1.connected, r.1.consecutiveTimeouts))
      = some (true, true, 1) ∧
    ((Legacy.reconnected.bind fun r =>
        Legacy.OBDManager.readBatteryTemperature (Env.ideal 0) 2 r.1 r.2.1 0).map
      fun x => (x.ok, x.value, x.mgr.consecutiveTimeouts)) = some (true, 25, 1) ∧
    ((Legacy.reconnected.bind fun r =>
        Legacy.OBDManager.readStateOfCharge (Env.ideal 0) 2 r.1 r.2.1 0).map
      fun x => (x.ok, x.mgr.consecutiveTimeouts)) = some (true, 0) := by
  decide!

/-! ## Cycle controller: state changes and the idle interval -/

namespace SystemController

theorem setState_current_state (env : Env) (s : SystemController) (st : SystemState) :
    (setState env s st).current_state = st := by
  unfold setState
  split
  · rfl
  · next h => exact not_not.mp h

theorem setState_log (env : Env) (s : SystemController) (st : SystemState) :
    (setState env s st).world.log = s.world.log := by
  unfold setState
  split <;> rfl

theorem setState_frame (env : Env) (s : SystemController) (st : SystemState) :
    (setState env s st).config_ = s.config_ ∧
    (setState env s st).obd_manager_ = s.obd_manager_ ∧
    (setState env s st).connectivity_manager_ = s.connectivity_manager_ ∧
    (setState env s st).data_publisher_ = s.data_publisher_ ∧
    (setState env s st).last_update_time = s.last_update_time ∧
    (setState env s st).current_cycle_interval = s.current_cycle_interval ∧
    (setState env s st).last_error = s.last_error ∧
    (setState env s st).cycle_successful = s.cycle_successful ∧
    (setState env s st).connectivity_step = s.connectivity_step := by
  unfold setState
  split <;> simp

theorem handleCompleteCycle_interval (env : Env) (s : SystemController) :
    (handleCompleteCycle env s).current_cycle_interval =
      (if s.cycle_successful then s.config_.normal_cycle_interval
       else if s.obd_manager_.hasConnectionLost then s.config_.error_cycle_interval
       else s.config_.retry_cycle_interval) := by
  unfold handleCompleteCycle
  simp only [(setState_frame _ _ _).2.2.2.2.2.1]
  have hc : s.cleanupConnections.cycle_successful = s.cycle_successful := rfl
  have hk : s.cleanupConnections.config_ = s.config_ := rfl
  have hl : s.cleanupConnections.obd_manager_.hasConnectionLost
      = s.obd_manager_.hasConnectionLost := by
    simp [cleanupConnections, OBDManager.disconnect_fst, OBDManager.hasConnectionLost]
  rw [hc, hk, hl]
  by_cases h1 : s.cycle_successful = true
  · simp [h1, setCycleInterval]
  · by_cases h2 : s.obd_manager_.hasConnectionLost = true
    · simp [h1, h2, setCycleInterval]
    · simp [h1, h2, setCycleInterval]

end SystemController

/-- C3 (counterexample). After a complete acquisition the network fails to associate:
the controller stands in `COMPLETE_CYCLE` with the readings' `valid` flag true, the
cycle not marked successful and the link not reported lost, and `handleCompleteCycle`
chooses 60000 ms, not the normal interval of 300000 ms. -/
theorem valid_readings_without_normal_interval :
    SystemController.acquiredOffline.current_state = SystemState.COMPLETE_CYCLE ∧
    SystemController.acquiredOffline.obd_manager_.getData.valid = true ∧
    SystemController.acquiredOffline.config_.normal_cycle_interval = 300000 ∧
    (SystemController.handleCompleteCycle (Env.ideal 0)
      SystemController.acquiredOffline).current_cycle_interval = 60000 := by
  decide

/-- C3 (amended). The idle interval chosen by `handleCompleteCycle` depends on the
cycle's success mark and on `hasConnectionLost()` only: the normal interval when the
cycle was marked successful, else the error interval when the link is reported lost,
else the retry interval; the defaults are 300000, 60000 and 60000 ms.  The controller
then waits. -/
theorem interval_from_success_and_link (env : Env) (s : SystemController) :
    (SystemController.handleCompleteCycle env s).current_cycle_interval =
      (if s.cycle_successful then s.config_.normal_cycle_interval
       else if s.obd_manager_.hasConnectionLost then s.config_.error_cycle_interval
       else s.config_.retry_cycle_interval) ∧
    (SystemController.handleCompleteCycle env s).current_state = SystemState.WAITING ∧
    ({} : Config).normal_cycle_interval = 300000 ∧
    ({} : Config).error_cycle_interval = 60000 ∧
    ({} : Config).retry_cycle_interval = 60000 :=
  ⟨SystemController.handleCompleteCycle_interval env s,
   SystemController.setState_current_state _ _ _, rfl, rfl, rfl⟩

/-! ## Publishing: what each call hands to the broker client -/

namespace ConnectivityManager

theorem publishWithTimeout_spec (env : Env) (c : ConnectivityManager) (w : World)
    (topic : String) (message : Payload) (retain : Bool) :
    ∃ o : PublishOutcome,
      (c.publishWithTimeout env w topic message retain).2.1.log
        = w.log ++ [Event.publish topic message retain o] ∧
      ((c.publishWithTimeout env w topic message retain).2.2 = true ↔ o = PublishOutcome.ok) ∧
      (c.publishWithTimeout env w topic message retain).1.time_synced = c.time_synced ∧
      (c.publishWithTimeout env w topic message retain).1.mqtt_connected = c.mqtt_connected ∧
      (c.publishWithTimeout env w topic message retain).1.wifi_connected = c.wifi_connected := by
  simp only [publishWithTimeout]
  split_ifs <;> exact ⟨_, rfl, by simp, rfl, rfl, rfl⟩

end ConnectivityManager

namespace DataPublisher

theorem publishOrError_spec (env : Env) (p : DataPublisher) (c : ConnectivityManager)
    (w : World) (topic : String) (message : Payload) (failure : String) :
    ∃ o : PublishOutcome,
      (publishOrError env p c w topic message failure).world.log
        = w.log ++ [Event.publish topic message true o] ∧
      ((publishOrError env p c w topic message failure).ok = true ↔ o = PublishOutcome.ok) ∧
      (publishOrError env p c w topic message failure).conn.time_synced = c.time_synced ∧
      (publishOrError env p c w topic message failure).conn.mqtt_connected = c.mqtt_connected ∧
      (publishOrError env p c w topic message failure).conn.wifi_connected = c.wifi_connected ∧
      (publishOrError env p c w topic message failure).pub.topics_ = p.topics_ := by
  obtain ⟨o, h1, h2, h3, h4, h5⟩ := c.publishWithTimeout_spec env w topic message true
  refine ⟨o, ?_⟩
  unfold publishOrError
  by_cases hk : (c.publishWithTimeout env w topic message true).2.2 = true
  · simp [hk, h1, h3, h4, h5, h2.mp hk]
  · have hne : o ≠ PublishOutcome.ok := fun h => hk (h2.mpr h)
    simp [hk, h1, h3, h4, h5, hne, setError]

end DataPublisher

namespace DataPublisher

theorem publishStatus_spec (env : Env) (p : DataPublisher) (c : ConnectivityManager)
    (w : World) (status : String) :
    ∃ o : PublishOutcome,
      (publishStatus env p c w status).world.log
        = w.log ++ [Event.publish p.topics_.status (Payload.text status) true o] ∧
      ((publishStatus env p c w status).ok = true ↔ o = PublishOutcome.ok) ∧
      (publishStatus env p c w status).conn.time_synced = c.time_synced ∧
      (publishStatus env p c w status).pub.topics_ = p.topics_ := by
  obtain ⟨o, h1, h2, h3, _, _, h6⟩ := publishOrError_spec env p c w p.topics_.status
    (Payload.text status) "Failed to publish status"
  exact ⟨o, h1, h2, h3, h6⟩

/-- The text `getCurrentTimeString` produces for a manager whose sync flag is `synced`. -/
theorem getCurrentTimeString_spec (env : Env) (c : ConnectivityManager) (w : World) :
    (c.getCurrentTimeString env w 64).2.log = w.log ∧
    (c.time_synced = false →
      (c.getCurrentTimeString env w 64).1 = Payload.text "TIME_NOT_SYNCED") ∧
    (c.time_synced = true → ∃ t, (c.getCurrentTimeString env w 64).1 = Payload.datetime t) := by
  unfold ConnectivityManager.getCurrentTimeString
  by_cases h : c.time_synced = true
  · simp [h, World.tick]
  · simp [h]
    decide

theorem publishLastUpdate_spec (env : Env) (p : DataPublisher) (c : ConnectivityManager)
    (w : World) :
    ∃ (o : PublishOutcome) (ts : Payload),
      (publishLastUpdate env p c w).world.log
        = w.log ++ [Event.publish p.topics_.last_update ts true o] ∧
      ((publishLastUpdate env p c w).ok = true ↔ o = PublishOutcome.ok) ∧
      (publishLastUpdate env p c w).conn.time_synced = c.time_synced ∧
      (publishLastUpdate env p c w).pub.topics_ = p.topics_ ∧
      (c.time_synced = false → ts = Payload.text "TIME_NOT_SYNCED") ∧
      (c.time_synced = true → ∃ t, ts = Payload.datetime t) := by
  obtain ⟨g1, g2, g3⟩ := getCurrentTimeString_spec env c w
  obtain ⟨o, h1, h2, h3, _, _, h6⟩ := publishOrError_spec env p c
    (c.getCurrentTimeString env w 64).2 p.topics_.last_update
    (c.getCurrentTimeString env w 64).1 "Failed to publish last update time"
  refine ⟨o, (c.getCurrentTimeString env w 64).1, ?_, h2, h3, h6, g2, g3⟩
  rw [← g1]
  exact h1

theorem publishOBDData_spec (env : Env) (p : DataPublisher) (c : ConnectivityManager)
    (w : World) (data : OBDData) (hv : data.valid = true) :
    ∃ o2 o3 o4 : PublishOutcome,
      (publishOBDData env p c w data).world.log = w.log ++
        [Event.publish p.topics_.soc (Payload.fixed data.state_of_charge 2) true o2,
         Event.publish p.topics_.battery_temp (Payload.fixed data.battery_temperature 1) true o3,
         Event.publish p.topics_.battery_voltage (Payload.fixed data.battery_voltage 2) true o4] ∧
      ((publishOBDData env p c w data).ok = true ↔
        o2 = PublishOutcome.ok ∧ o3 = PublishOutcome.ok ∧ o4 = PublishOutcome.ok) ∧
      (publishOBDData env p c w data).conn.time_synced = c.time_synced ∧
      (publishOBDData env p c w data).pub.topics_ = p.topics_ := by
  unfold publishOBDData
  simp only [hv, Bool.not_true, Bool.false_eq_true, if_false]
  obtain ⟨o2, a1, a2, a3, _, _, a6⟩ := publishOrError_spec env p c w p.topics_.soc
    (Payload.fixed data.state_of_charge 2) "Failed to publish SoC"
  generalize publishOrError env p c w p.topics_.soc
    (Payload.fixed data.state_of_charge 2) "Failed to publish SoC" = r1 at *
  obtain ⟨o3, b1, b2, b3, _, _, b6⟩ := publishOrError_spec env r1.pub r1.conn r1.world
    p.topics_.battery_temp (Payload.fixed data.battery_temperature 1)
    "Failed to publish battery temperature"
  generalize publishOrError env r1.pub r1.conn r1.world
    p.topics_.battery_temp (Payload.fixed data.battery_temperature 1)
    "Failed to publish battery temperature" = r2 at *
  obtain ⟨o4, c1, c2, c3, _, _, c6⟩ := publishOrError_spec env r2.pub r2.conn r2.world
    p.topics_.battery_voltage (Payload.fixed data.battery_voltage 2)
    "Failed to publish battery voltage"
  generalize publishOrError env r2.pub r2.conn r2.world
    p.topics_.battery_voltage (Payload.fixed data.battery_voltage 2)
    "Failed to publish battery voltage" = r3 at *
  refine ⟨o2, o3, o4, ?_, ?_, ?_, ?_⟩
  · simp [c1, b1, a1]
  · simp [Bool.and_eq_true, a2, b2, c2, and_assoc]
  · simp [c3, b3, a3]
  · simp [c6, b6, a6]

end DataPublisher

namespace DataPublisher

theorem publishErrorStatus_spec (env : Env) (p : DataPublisher) (c : ConnectivityManager)
    (w : World) (error_message : String) (car_connection_lost : Bool) :
    ∃ (o1 o2 : PublishOutcome) (ts : Payload),
      (publishErrorStatus env p c w error_message car_connection_lost).world.log = w.log ++
        [Event.publish p.topics_.status
           (Payload.text (if car_connection_lost then "No Car Connection"
                          else if error_message.length > 0 then error_message
                          else "UNKNOWN_ERROR")) true o1,
         Event.publish p.topics_.last_update ts true o2] ∧
      ((publishErrorStatus env p c w error_message car_connection_lost).ok = true ↔
        o1 = PublishOutcome.ok ∧ o2 = PublishOutcome.ok) ∧
      (c.time_synced = false → ts = Payload.text "TIME_NOT_SYNCED") ∧
      (c.time_synced = true → ∃ t, ts = Payload.datetime t) := by
  unfold publishErrorStatus
  have key : ∀ status : String,
      ∃ (o1 o2 : PublishOutcome) (ts : Payload),
        (publishLastUpdate env (publishStatus env p c w status).pub
            (publishStatus env p c w status).conn
            (publishStatus env p c w status).world).world.log = w.log ++
          [Event.publish p.topics_.status (Payload.text status) true o1,
           Event.publish p.topics_.last_update ts true o2] ∧
        (((publishStatus env p c w status).ok &&
          (publishLastUpdate env (publishStatus env p c w status).pub
            (publishStatus env p c w status).conn
            (publishStatus env p c w status).world).ok) = true ↔
          o1 = PublishOutcome.ok ∧ o2 = PublishOutcome.ok) ∧
        (c.time_synced = false → ts = Payload.text "TIME_NOT_SYNCED") ∧
        (c.time_synced = true → ∃ t, ts = Payload.datetime t) := by
    intro status
    obtain ⟨o1, a1, a2, a3, a4⟩ := publishStatus_spec env p c w status
    generalize publishStatus env p c w status = r1 at *
    obtain ⟨o2, ts, b1, b2, _, _, b5, b6⟩ := publishLastUpdate_spec env r1.pub r1.conn r1.world
    generalize publishLastUpdate env r1.pub r1.conn r1.world = r2 at *
    refine ⟨o1, o2, ts, ?_, ?_, ?_, ?_⟩
    · simp [b1, a1, a4]
    · simp [Bool.and_eq_true, a2, b2]
    · intro h; exact b5 (a3.trans h)
    · intro h; exact b6 (a3.trans h)
  by_cases hl : car_connection_lost = true
  · simpa [hl] using key "No Car Connection"
  · by_cases he : error_message.length > 0
    · simpa [hl, he] using key error_message
    · simpa [hl, he] using key "UNKNOWN_ERROR"

end DataPublisher

namespace SystemController

theorem handleDataPublishing_timeout (env : Env) (s : SystemController)
    (ht : usub (env.millis s.world.calls % WORD) s.state_start_time > PUBLISHING_TIMEOUT) :
    handleDataPublishing env s =
      setState env ({ s with world := s.world.tick }.setError "Data publishing timeout")
        SystemState.ERROR_HANDLING := by
  unfold handleDataPublishing
  simp only [World.millis, ht, if_true]

theorem handleDataPublishing_lost (env : Env) (s : SystemController)
    (ht : usub (env.millis s.world.calls % WORD) s.state_start_time ≤ PUBLISHING_TIMEOUT)
    (hl : s.obd_manager_.hasConnectionLost = true) :
    ∃ (o1 o2 : PublishOutcome) (ts : Payload),
      (handleDataPublishing env s).world.log = s.world.log ++
        [Event.publish s.data_publisher_.topics_.status
           (Payload.text "No Car Connection") true o1,
         Event.publish s.data_publisher_.topics_.last_update ts true o2] ∧
      ((handleDataPublishing env s).cycle_successful = true ↔
        o1 = PublishOutcome.ok ∧ o2 = PublishOutcome.ok) ∧
      (s.connectivity_manager_.time_synced = false → ts = Payload.text "TIME_NOT_SYNCED") ∧
      (s.connectivity_manager_.time_synced = true → ∃ t, ts = Payload.datetime t) ∧
      (handleDataPublishing env s).current_state = SystemState.COMPLETE_CYCLE := by
  have ht2 : ¬ usub (env.millis s.world.calls % WORD) s.state_start_time > PUBLISHING_TIMEOUT :=
    Nat.not_lt.mpr ht
  unfold handleDataPublishing
  simp only [World.millis, ht2, if_false, hl, if_true, setState_log, setState_current_state,
    (setState_frame _ _ _).2.2.2.2.2.2.2.1, Bool.true_and, absorb]
  obtain ⟨o1, a1, a2, a3, a4⟩ := DataPublisher.publishStatus_spec env s.data_publisher_
    s.connectivity_manager_ s.world.tick "No Car Connection"
  generalize DataPublisher.publishStatus env s.data_publisher_
    s.connectivity_manager_ s.world.tick "No Car Connection" = r1 at *
  obtain ⟨o2, ts, b1, b2, _, _, b5, b6⟩ := DataPublisher.publishLastUpdate_spec env
    r1.pub r1.conn r1.world
  refine ⟨o1, o2, ts, ?_, ?_, ?_, ?_, trivial⟩
  · split <;> simp [b1, a1, a4, World.tick]
  · by_cases h1 : r1.ok = true <;> by_cases h2 :
      (DataPublisher.publishLastUpdate env r1.pub r1.conn r1.world).ok = true <;>
      simp [absorb, h1, h2, ← a2, ← b2]
  · intro h; exact b5 (a3.trans h)
  · intro h; exact b6 (a3.trans h)

theorem handleDataPublishing_linked (env : Env) (s : SystemController)
    (ht : usub (env.millis s.world.calls % WORD) s.state_start_time ≤ PUBLISHING_TIMEOUT)
    (hl : s.obd_manager_.hasConnectionLost = false)
    (hv : s.obd_manager_.getData.valid = true) :
    ∃ (o1 o2 o3 o4 o5 : PublishOutcome) (ts : Payload),
      (handleDataPublishing env s).world.log = s.world.log ++
        [Event.publish s.data_publisher_.topics_.status (Payload.text "CONNECTED") true o1,
         Event.publish s.data_publisher_.topics_.soc
           (Payload.fixed s.obd_manager_.getData.state_of_charge 2) true o2,
         Event.publish s.data_publisher_.topics_.battery_temp
           (Payload.fixed s.obd_manager_.getData.battery_temperature 1) true o3,
         Event.publish s.data_publisher_.topics_.battery_voltage
           (Payload.fixed s.obd_manager_.getData.battery_voltage 2) true o4,
         Event.publish s.data_publisher_.topics_.last_update ts true o5] ∧
      ((handleDataPublishing env s).cycle_successful = true ↔
        o1 = PublishOutcome.ok ∧ o2 = PublishOutcome.ok ∧ o3 = PublishOutcome.ok ∧
        o4 = PublishOutcome.ok ∧ o5 = PublishOutcome.ok) ∧
      (s.connectivity_manager_.time_synced = false → ts = Payload.text "TIME_NOT_SYNCED") ∧
      (s.connectivity_manager_.time_synced = true → ∃ t, ts = Payload.datetime t) ∧
      (handleDataPublishing env s).current_state = SystemState.COMPLETE_CYCLE := by
  have ht2 : ¬ usub (env.millis s.world.calls % WORD) s.state_start_time > PUBLISHING_TIMEOUT :=
    Nat.not_lt.mpr ht
  unfold handleDataPublishing
  simp only [World.millis, ht2, if_false, hl, Bool.false_eq_true, setState_log,
    setState_current_state, (setState_frame _ _ _).2.2.2.2.2.2.2.1, Bool.true_and, absorb]
  obtain ⟨o1, a1, a2, a3, a4⟩ := DataPublisher.publishStatus_spec env s.data_publisher_
    s.connectivity_manager_ s.world.tick "CONNECTED"
  generalize DataPublisher.publishStatus env s.data_publisher_
    s.connectivity_manager_ s.world.tick "CONNECTED" = r1 at *
  obtain ⟨o2, o3, o4, b1, b2, b3, b4⟩ := DataPublisher.publishOBDData_spec env r1.pub r1.conn
    r1.world s.obd_manager_.getData hv
  generalize DataPublisher.publishOBDData env r1.pub r1.conn
    r1.world s.obd_manager_.getData = r2 at *
  obtain ⟨o5, ts, c1, c2, _, _, c5, c6⟩ := DataPublisher.publishLastUpdate_spec env
    r2.pub r2.conn r2.world
  refine ⟨o1, o2, o3, o4, o5, ts, ?_, ?_, ?_, ?_, trivial⟩
  · split <;> simp [c1, b1, a1, b4, a4, World.tick]
  · by_cases h1 : r1.ok = true <;> by_cases h2 : r2.ok = true <;> by_cases h3 :
      (DataPublisher.publishLastUpdate env r2.pub r2.conn r2.world).ok = true <;>
      simp [h1, h2, h3, ← a2, ← b2, ← c2]
  · intro h; exact c5 (b3.trans (a3.trans h))
  · intro h; exact c6 (b3.trans (a3.trans h))

end SystemController

/-- C6. In `CONNECTIVITY_SETUP`, when the first tick-counter reading of the tick is more
than 30000 ms past the phase entry, `update()` moves to `ERROR_HANDLING` with last error
"Connectivity setup timeout" whatever the pending sub-step: the connectivity manager is
untouched, nothing is issued on any collaborator (the only calls are the two clock
reads) and the sub-step is reset.  With at most 30000 ms elapsed the sub-step runs
instead: network association goes on to time sync or fails with "WiFi connection
failed", time sync always goes on to the broker, the broker step goes on to complete or
fails with "MQTT connection failed", and complete enters `DATA_PUBLISHING`. -/
theorem connectivity_phase_timeout (env : Env) (s : SystemController)
    (hs : s.current_state = SystemState.CONNECTIVITY_SETUP) :
    (usub (env.millis s.world.calls % WORD) s.state_start_time
        > SystemController.CONNECTIVITY_TIMEOUT →
      (SystemController.update env s).current_state = SystemState.ERROR_HANDLING ∧
      (SystemController.update env s).last_error = "Connectivity setup timeout" ∧
      (SystemController.update env s).connectivity_manager_ = s.connectivity_manager_ ∧
      (SystemController.update env s).world.log = s.world.log ∧
      (SystemController.update env s).world.calls = s.world.calls + 2 ∧
      (SystemController.update env s).connectivity_step = ConnectivityStep.SETUP_WIFI) ∧
    (usub (env.millis s.world.calls % WORD) s.state_start_time
        ≤ SystemController.CONNECTIVITY_TIMEOUT →
      match s.connectivity_step with
      | ConnectivityStep.SETUP_WIFI =>
        ((SystemController.update env s).current_state = SystemState.CONNECTIVITY_SETUP ∧
          (SystemController.update env s).connectivity_step = ConnectivityStep.SETUP_NTP) ∨
        ((SystemController.update env s).current_state = SystemState.ERROR_HANDLING ∧
          (SystemController.update env s).last_error = "WiFi connection failed")
      | ConnectivityStep.SETUP_NTP =>
        (SystemController.update env s).current_state = SystemState.CONNECTIVITY_SETUP ∧
        (SystemController.update env s).connectivity_step = ConnectivityStep.SETUP_MQTT
      | ConnectivityStep.SETUP_MQTT =>
        ((SystemController.update env s).current_state = SystemState.CONNECTIVITY_SETUP ∧
          (SystemController.update env s).connectivity_step
            = ConnectivityStep.CONNECTIVITY_COMPLETE) ∨
        ((SystemController.update env s).current_state = SystemState.ERROR_HANDLING ∧
          (SystemController.update env s).last_error = "MQTT connection failed")
      | ConnectivityStep.CONNECTIVITY_COMPLETE =>
        (SystemController.update env s).current_state = SystemState.DATA_PUBLISHING) := by
  have hu : SystemController.update env s = SystemController.handleConnectivitySetup env s := by
    unfold SystemController.update
    rw [hs]
  rw [hu]
  constructor
  · intro ht
    unfold SystemController.handleConnectivitySetup
    simp only [World.millis, ht, if_true]
    refine ⟨SystemController.setState_current_state _ _ _, ?_, ?_, ?_, ?_, trivial⟩
    · rw [(SystemController.setState_frame _ _ _).2.2.2.2.2.2.1]
      show strncpyBuf 128 "Connectivity setup timeout" = _
      decide
    · rw [(SystemController.setState_frame _ _ _).2.2.1]
      rfl
    · rw [SystemController.setState_log]
      rfl
    · simp [SystemController.setState, SystemController.setError, hs, World.millis,
        World.tick]
  · intro ht
    have ht2 : ¬ usub (env.millis s.world.calls % WORD) s.state_start_time
        > SystemController.CONNECTIVITY_TIMEOUT := Nat.not_lt.mpr ht
    unfold SystemController.handleConnectivitySetup
    simp only [World.millis, ht2, if_false]
    cases hstep : s.connectivity_step with
    | SETUP_WIFI =>
      simp only []
      by_cases hr : (s.connectivity_manager_.connectWiFi env s.world.tick).2.2 = true
      · left
        simp [hr, hs]
      · right
        simp only [hr, if_false, Bool.false_eq_true]
        refine ⟨SystemController.setState_current_state _ _ _, ?_⟩
        show (SystemController.setState env _ _).last_error = _
        rw [(SystemController.setState_frame _ _ _).2.2.2.2.2.2.1]
        show strncpyBuf 128 "WiFi connection failed" = _
        decide
    | SETUP_NTP =>
      simp only []
      by_cases hr : (s.connectivity_manager_.syncTime env s.world.tick).2.2 = true
      · simp [hr, hs]
      · simp [hr, hs]
    | SETUP_MQTT =>
      simp only []
      by_cases hr : (s.connectivity_manager_.connectMQTT env s.world.tick).2.2 = true
      · left
        simp [hr, hs]
      · right
        simp only [hr, if_false, Bool.false_eq_true]
        refine ⟨SystemController.setState_current_state _ _ _, ?_⟩
        show (SystemController.setState env _ _).last_error = _
        rw [(SystemController.setState_frame _ _ _).2.2.2.2.2.2.1]
        show strncpyBuf 128 "MQTT connection failed" = _
        decide
    | CONNECTIVITY_COMPLETE =>
      simp only []
      exact SystemController.setState_current_state _ _ _

/-- Witness of C6: a controller in `CONNECTIVITY_SETUP` since tick 0, updated when the
tick counter reads 30001. -/
theorem connectivity_phase_timeout_witness :
    (SystemController.update (Env.ideal 30001)
      { current_state := SystemState.CONNECTIVITY_SETUP }).current_state
        = SystemState.ERROR_HANDLING ∧
    (SystemController.update (Env.ideal 30001)
      { current_state := SystemState.CONNECTIVITY_SETUP }).last_error
        = "Connectivity setup timeout" :=
  ⟨((connectivity_phase_timeout (Env.ideal 30001)
      { current_state := SystemState.CONNECTIVITY_SETUP } rfl).1 (by decide)).1,
   ((connectivity_phase_timeout (Env.ideal 30001)
      { current_state := SystemState.CONNECTIVITY_SETUP } rfl).1 (by decide)).2.1⟩


/-- C8 (counterexample). Fourteen ideal ticks after power-up the controller is in
`DATA_PUBLISHING`, entered at tick-counter value 0; an `update()` at value 15001 moves
it to `ERROR_HANDLING`, not to `COMPLETE_CYCLE`. -/
theorem publishing_can_enter_error_handling :
    SystemController.readyToPublish.current_state = SystemState.DATA_PUBLISHING ∧
    (SystemController.update (Env.ideal 15001) SystemController.readyToPublish).current_state
      = SystemState.ERROR_HANDLING := by
  decide

/-- C8 (amended). From `DATA_PUBLISHING`, one `update()` moves to `COMPLETE_CYCLE`
whenever at most 15000 ms have elapsed since the phase was entered, for every
combination of publish results; when more than 15000 ms have elapsed it moves to
`ERROR_HANDLING` with last error "Data publishing timeout" and publishes nothing. -/
theorem publishing_exit (env : Env) (s : SystemController)
    (hs : s.current_state = SystemState.DATA_PUBLISHING) :
    (usub (env.millis s.world.calls % WORD) s.state_start_time
        ≤ SystemController.PUBLISHING_TIMEOUT →
      (SystemController.update env s).current_state = SystemState.COMPLETE_CYCLE) ∧
    (usub (env.millis s.world.calls % WORD) s.state_start_time
        > SystemController.PUBLISHING_TIMEOUT →
      (SystemController.update env s).current_state = SystemState.ERROR_HANDLING ∧
      (SystemController.update env s).last_error = "Data publishing timeout" ∧
      (SystemController.update env s).world.log = s.world.log) := by
  have hu : SystemController.update env s = SystemController.handleDataPublishing env s := by
    unfold SystemController.update
    rw [hs]
  rw [hu]
  constructor
  · intro ht
    have ht2 : ¬ usub (env.millis s.world.calls % WORD) s.state_start_time
        > SystemController.PUBLISHING_TIMEOUT := Nat.not_lt.mpr ht
    unfold SystemController.handleDataPublishing
    simp only [World.millis, ht2, if_false]
    exact SystemController.setState_current_state _ _ _
  · intro ht
    rw [SystemController.handleDataPublishing_timeout env s ht]
    refine ⟨SystemController.setState_current_state _ _ _, ?_, ?_⟩
    · rw [(SystemController.setState_frame _ _ _).2.2.2.2.2.2.1]
      show strncpyBuf 128 "Data publishing timeout" = _
      decide
    · rw [SystemController.setState_log]
      rfl

/-- Witness of C8 (amended): the controller of the counterexample, updated in time (it
goes to `COMPLETE_CYCLE`). -/
theorem publishing_exit_witness :
    (SystemController.update (Env.ideal 15000) SystemController.readyToPublish).current_state
      = SystemState.COMPLETE_CYCLE :=
  (publishing_exit (Env.ideal 15000) SystemController.readyToPublish (by decide)).1
    (by decide)

/-- C9. In `DATA_PUBLISHING`, within the phase timeout and with valid readings, one
`update()` hands to the broker client exactly: when the link is reported lost, the
status "No Car Connection" and the last-update timestamp; otherwise the status
"CONNECTED", the state of charge with 2 decimals, the battery temperature with 1, the
battery voltage with 2 and the last-update timestamp; each on its configured topic and
in that order, whatever the outcome of each publish.  The timestamp is the literal
TIME_NOT_SYNCED when the clock was never synchronised, a formatted date otherwise. -/
theorem publishing_message_sequence (env : Env) (s : SystemController)
    (hs : s.current_state = SystemState.DATA_PUBLISHING)
    (ht : usub (env.millis s.world.calls % WORD) s.state_start_time
      ≤ SystemController.PUBLISHING_TIMEOUT)
    (hv : s.obd_manager_.getData.valid = true) :
    ∃ ts : Payload,
      (s.connectivity_manager_.isTimeSynced = false → ts = Payload.text "TIME_NOT_SYNCED") ∧
      (s.connectivity_manager_.isTimeSynced = true → ∃ t, ts = Payload.datetime t) ∧
      (s.obd_manager_.hasConnectionLost = true →
        ∃ o1 o2 : PublishOutcome,
          (SystemController.update env s).world.log = s.world.log ++
            [Event.publish s.data_publisher_.topics_.status
               (Payload.text "No Car Connection") true o1,
             Event.publish s.data_publisher_.topics_.last_update ts true o2]) ∧
      (s.obd_manager_.hasConnectionLost = false →
        ∃ o1 o2 o3 o4 o5 : PublishOutcome,
          (SystemController.update env s).world.log = s.world.log ++
            [Event.publish s.data_publisher_.topics_.status (Payload.text "CONNECTED") true o1,
             Event.publish s.data_publisher_.topics_.soc
               (Payload.fixed s.obd_manager_.getData.state_of_charge 2) true o2,
             Event.publish s.data_publisher_.topics_.battery_temp
               (Payload.fixed s.obd_manager_.getData.battery_temperature 1) true o3,
             Event.publish s.data_publisher_.topics_.battery_voltage
               (Payload.fixed s.obd_manager_.getData.battery_voltage 2) true o4,
             Event.publish s.data_publisher_.topics_.last_update ts true o5]) := by
  have hu : SystemController.update env s = SystemController.handleDataPublishing env s := by
    unfold SystemController.update
    rw [hs]
  rw [hu]
  by_cases hl : s.obd_manager_.hasConnectionLost = true
  · obtain ⟨o1, o2, ts, h1, _, h3, h4, _⟩ :=
      SystemController.handleDataPublishing_lost env s ht hl
    refine ⟨ts, h3, h4, fun _ => ⟨o1, o2, h1⟩, fun h => ?_⟩
    rw [hl] at h
    exact absurd h (by decide)
  · have hl2 : s.obd_manager_.hasConnectionLost = false := by
      cases h : s.obd_manager_.hasConnectionLost
      · rfl
      · exact absurd h hl
    obtain ⟨o1, o2, o3, o4, o5, ts, h1, _, h3, h4, _⟩ :=
      SystemController.handleDataPublishing_linked env s ht hl2 hv
    exact ⟨ts, h3, h4, fun h => absurd h hl, fun _ => ⟨o1, o2, o3, o4, o5, h1⟩⟩

/-- Witness of C9: the controller that has just entered `DATA_PUBLISHING` after an
ideal acquisition and connectivity setup. -/
theorem publishing_message_sequence_witness :
    ∃ ts : Payload,
      (SystemController.readyToPublish.connectivity_manager_.isTimeSynced = false →
        ts = Payload.text "TIME_NOT_SYNCED") ∧
      (SystemController.readyToPublish.connectivity_manager_.isTimeSynced = true →
        ∃ t, ts = Payload.datetime t) ∧
      (SystemController.readyToPublish.obd_manager_.hasConnectionLost = true →
        ∃ o1 o2 : PublishOutcome,
          (SystemController.update (Env.ideal 0) SystemController.readyToPublish).world.log =
            SystemController.readyToPublish.world.log ++
            [Event.publish SystemController.readyToPublish.data_publisher_.topics_.status
               (Payload.text "No Car Connection") true o1,
             Event.publish SystemController.readyToPublish.data_publisher_.topics_.last_update
               ts true o2]) ∧
      (SystemController.readyToPublish.obd_manager_.hasConnectionLost = false →
        ∃ o1 o2 o3 o4 o5 : PublishOutcome,
          (SystemController.update (Env.ideal 0) SystemController.readyToPublish).world.log =
            SystemController.readyToPublish.world.log ++
            [Event.publish SystemController.readyToPublish.data_publisher_.topics_.status
               (Payload.text "CONNECTED") true o1,
             Event.publish SystemController.readyToPublish.data_publisher_.topics_.soc
               (Payload.fixed
                 SystemController.readyToPublish.obd_manager_.getData.state_of_charge 2) true o2,
             Event.publish SystemController.readyToPublish.data_publisher_.topics_.battery_temp
               (Payload.fixed
                 SystemController.readyToPublish.obd_manager_.getData.battery_temperature 1)
               true o3,
             Event.publish
               SystemController.readyToPublish.data_publisher_.topics_.battery_voltage
               (Payload.fixed
                 SystemController.readyToPublish.obd_manager_.getData.battery_voltage 2) true o4,
             Event.publish SystemController.readyToPublish.data_publisher_.topics_.last_update
               ts true o5]) :=
  publishing_message_sequence (Env.ideal 0) SystemController.readyToPublish
    (by decide) (by decide) (by decide)


/-- C10. In `DATA_PUBLISHING`, within the phase timeout, with the link reported lost or
the readings valid: whatever each individual publish returns, all publishes are issued
(status and timestamp when the link is lost; status, the three readings and the
timestamp otherwise), and the cycle is marked successful exactly when every one of them
returned true.  `publishErrorStatus` likewise always issues the status and the timestamp
and returns true exactly when both returned true. -/
theorem publish_result_is_conjunction (env : Env) (s : SystemController)
    (hs : s.current_state = SystemState.DATA_PUBLISHING)
    (ht : usub (env.millis s.world.calls % WORD) s.state_start_time
      ≤ SystemController.PUBLISHING_TIMEOUT)
    (hv : s.obd_manager_.hasConnectionLost = true ∨ s.obd_manager_.getData.valid = true) :
    (∃ evs : List Event,
      (SystemController.update env s).world.log = s.world.log ++ evs ∧
      evs.map Event.publishTopic =
        (if s.obd_manager_.hasConnectionLost then
          [some s.data_publisher_.topics_.status, some s.data_publisher_.topics_.last_update]
         else
          [some s.data_publisher_.topics_.status, some s.data_publisher_.topics_.soc,
           some s.data_publisher_.topics_.battery_temp,
           some s.data_publisher_.topics_.battery_voltage,
           some s.data_publisher_.topics_.last_update]) ∧
      ((SystemController.update env s).cycle_successful = true ↔
        ∀ e ∈ evs, e.publishOutcome = some PublishOutcome.ok)) ∧
    (∀ (p : DataPublisher) (c : ConnectivityManager) (w : World) (error_message : String)
        (car_connection_lost : Bool),
      ∃ evs : List Event,
        (p.publishErrorStatus env c w error_message car_connection_lost).world.log
          = w.log ++ evs ∧
        evs.map Event.publishTopic = [some p.topics_.status, some p.topics_.last_update] ∧
        ((p.publishErrorStatus env c w error_message car_connection_lost).ok = true ↔
          ∀ e ∈ evs, e.publishOutcome = some PublishOutcome.ok)) := by
  have hu : SystemController.update env s = SystemController.handleDataPublishing env s := by
    unfold SystemController.update
    rw [hs]
  rw [hu]
  constructor
  · by_cases hl : s.obd_manager_.hasConnectionLost = true
    · obtain ⟨o1, o2, ts, h1, h2, _, _, _⟩ :=
        SystemController.handleDataPublishing_lost env s ht hl
      refine ⟨_, h1, ?_, ?_⟩
      · simp [hl, Event.publishTopic]
      · simp [h2, Event.publishOutcome]
    · have hl2 : s.obd_manager_.hasConnectionLost = false := by
        cases h : s.obd_manager_.hasConnectionLost
        · rfl
        · exact absurd h hl
      have hv2 : s.obd_manager_.getData.valid = true := hv.resolve_left hl
      obtain ⟨o1, o2, o3, o4, o5, ts, h1, h2, _, _, _⟩ :=
        SystemController.handleDataPublishing_linked env s ht hl2 hv2
      refine ⟨_, h1, ?_, ?_⟩
      · simp [hl2, Event.publishTopic]
      · simp [h2, Event.publishOutcome]
  · intro p c w error_message car_connection_lost
    obtain ⟨o1, o2, ts, h1, h2, _, _⟩ :=
      DataPublisher.publishErrorStatus_spec env p c w error_message car_connection_lost
    refine ⟨_, h1, ?_, ?_⟩
    · simp [Event.publishTopic]
    · simp [h2, Event.publishOutcome]

/-- Witness of C10: the controller that has just entered `DATA_PUBLISHING` after an
ideal acquisition and connectivity setup, with a broker that refuses every message. -/
theorem publish_result_is_conjunction_witness :
    ∃ evs : List Event,
      (SystemController.update { Env.ideal 0 with mqttBeginMessage := fun _ => false }
        SystemController.readyToPublish).world.log
          = SystemController.readyToPublish.world.log ++ evs ∧
      evs.map Event.publishTopic =
        (if SystemController.readyToPublish.obd_manager_.hasConnectionLost then
          [some SystemController.readyToPublish.data_publisher_.topics_.status,
           some SystemController.readyToPublish.data_publisher_.topics_.last_update]
         else
          [some SystemController.readyToPublish.data_publisher_.topics_.status,
           some SystemController.readyToPublish.data_publisher_.topics_.soc,
           some SystemController.readyToPublish.data_publisher_.topics_.battery_temp,
           some SystemController.readyToPublish.data_publisher_.topics_.battery_voltage,
           some SystemController.readyToPublish.data_publisher_.topics_.last_update]) ∧
      ((SystemController.update { Env.ideal 0 with mqttBeginMessage := fun _ => false }
        SystemController.readyToPublish).cycle_successful = true ↔
        ∀ e ∈ evs, e.publishOutcome = some PublishOutcome.ok) :=
  (publish_result_is_conjunction { Env.ideal 0 with mqttBeginMessage := fun _ => false }
    SystemController.readyToPublish (by decide) (by decide) (Or.inr (by decide))).1


/-! ## Cycle controller: the edges taken by one tick -/

theorem usub_shift (b d : Nat) (hd : d < WORD) : usub ((b % WORD + d) % WORD) b = d := by
  unfold usub WORD at *
  omega

namespace SystemController

theorem handleInit_state (env : Env) (s : SystemController) :
    (handleInit env s).current_state = SystemState.OBD_READING := by
  unfold handleInit
  simp only [OBDManager.initialise, Bool.not_true, Bool.false_eq_true, if_false]
  exact setState_current_state _ _ _

theorem handleOBDReading_state (env : Env) (s : SystemController) :
    (handleOBDReading env s).current_state =
      match (s.obd_manager_.update env s.world).1.current_state with
      | OBDState.COMPLETE => SystemState.CONNECTIVITY_SETUP
      | OBDState.ERROR => SystemState.ERROR_HANDLING
      | _ => s.current_state := by
  unfold handleOBDReading
  simp only [OBDManager.getCurrentState]
  cases h : (s.obd_manager_.update env s.world).1.current_state <;>
    simp [setState_current_state]

theorem handleConnectivitySetup_state (env : Env) (s : SystemController)
    (hs : s.current_state = SystemState.CONNECTIVITY_SETUP) :
    (handleConnectivitySetup env s).current_state = SystemState.CONNECTIVITY_SETUP ∨
    (handleConnectivitySetup env s).current_state = SystemState.DATA_PUBLISHING ∨
    (handleConnectivitySetup env s).current_state = SystemState.ERROR_HANDLING := by
  unfold handleConnectivitySetup
  simp only []
  split
  · exact Or.inr (Or.inr (setState_current_state _ _ _))
  · cases hstep : s.connectivity_step with
    | SETUP_WIFI =>
      simp only []
      split
      · exact Or.inl hs
      · exact Or.inr (Or.inr (setState_current_state _ _ _))
    | SETUP_NTP =>
      simp only []
      split <;> exact Or.inl hs
    | SETUP_MQTT =>
      simp only []
      split
      · exact Or.inl hs
      · exact Or.inr (Or.inr (setState_current_state _ _ _))
    | CONNECTIVITY_COMPLETE =>
      exact Or.inr (Or.inl (setState_current_state _ _ _))

theorem handleDataPublishing_state (env : Env) (s : SystemController) :
    (handleDataPublishing env s).current_state = SystemState.COMPLETE_CYCLE ∨
    (handleDataPublishing env s).current_state = SystemState.ERROR_HANDLING := by
  unfold handleDataPublishing
  simp only []
  split
  · exact Or.inr (setState_current_state _ _ _)
  · exact Or.inl (setState_current_state _ _ _)

theorem handleErrorHandling_state (env : Env) (s : SystemController) :
    (handleErrorHandling env s).current_state = SystemState.COMPLETE_CYCLE := by
  unfold handleErrorHandling
  exact setState_current_state _ _ _

theorem handleCompleteCycle_state (env : Env) (s : SystemController) :
    (handleCompleteCycle env s).current_state = SystemState.WAITING := by
  unfold handleCompleteCycle
  exact setState_current_state _ _ _

theorem handleWaiting_state (env : Env) (s : SystemController)
    (hs : s.current_state = SystemState.WAITING) :
    (handleWaiting env s).current_state = SystemState.WAITING ∨
    (handleWaiting env s).current_state = SystemState.INIT := by
  unfold handleWaiting
  by_cases hm : s.connectivity_manager_.isMQTTConnected = true
  · simp only [hm, if_true]
    split
    · exact Or.inr (setState_current_state _ _ _)
    · exact Or.inl hs
  · simp only [hm, if_false, Bool.false_eq_true]
    split
    · exact Or.inr (setState_current_state _ _ _)
    · exact Or.inl hs

theorem update_edge (env : Env) (s : SystemController) :
    cycleEdge s.current_state (update env s).current_state = true := by
  unfold update
  cases hs : s.current_state with
  | INIT => simp only []; rw [handleInit_state]; rfl
  | OBD_READING =>
    simp only []
    rw [handleOBDReading_state, hs]
    cases (s.obd_manager_.update env s.world).1.current_state <;> rfl
  | CONNECTIVITY_SETUP =>
    simp only []
    rcases handleConnectivitySetup_state env s hs with h | h | h <;> rw [h] <;> rfl
  | DATA_PUBLISHING =>
    simp only []
    rcases handleDataPublishing_state env s with h | h <;> rw [h] <;> rfl
  | ERROR_HANDLING => simp only []; rw [handleErrorHandling_state]; rfl
  | WAITING =>
    simp only []
    rcases handleWaiting_state env s hs with h | h <;> rw [h] <;> rfl
  | COMPLETE_CYCLE => simp only []; rw [handleCompleteCycle_state]; rfl

end SystemController


/-! ## Every controller state can be left -/

namespace OBDManager

theorem update_ble_refused (env : Env) (m : OBDManager) (w : World)
    (h1 : m.current_state = OBDState.SETUP)
    (h2 : m.setup_substep = SetupSubstep.BLE_CONNECTING)
    (h3 : env.bleConnect w.calls = false) :
    (m.update env w).1.current_state = OBDState.ERROR := by
  unfold update
  simp only [h1, handleSetupStep, h2, h3, Bool.not_false, if_true, handleTimeout_fst]

theorem update_setup_start (env : Env) (m : OBDManager) (w : World)
    (h1 : m.current_state = OBDState.SETUP)
    (h2 : m.setup_substep = SetupSubstep.SETUP_START) :
    (m.update env w).1.current_state = OBDState.SETUP ∧
    (m.update env w).1.setup_substep = SetupSubstep.BLE_CONNECTING := by
  unfold update
  simp [h1, handleSetupStep, h2]

theorem update_init_timeout (env : Env) (m : OBDManager) (w : World)
    (h1 : m.current_state = OBDState.SETUP)
    (h2 : m.setup_substep = SetupSubstep.ELM_INITIALIZING)
    (h3 : env.elmBegin w.calls = false)
    (h4 : usub (env.millis (w.calls + 1) % WORD) m.elm_connection_start_time
      > ELM_INIT_TIMEOUT) :
    (m.update env w).1.current_state = OBDState.ERROR := by
  unfold update
  simp only [h1, handleSetupStep, h2, h3, Bool.not_false, if_true, World.millis, World.tick,
    World.emit, h4, handleTimeout_fst]

theorem update_soc_send (env : Env) (m : OBDManager) (w : World)
    (h1 : m.current_state = OBDState.READ_SOC)
    (h2 : m.soc_query_state = QueryState.SEND_COMMAND) :
    (m.update env w).1.current_state = OBDState.READ_SOC ∧
    (m.update env w).1.soc_query_state = QueryState.WAITING_RESP ∧
    (m.update env w).1.elm_soc_start_time = env.millis w.calls % WORD := by
  unfold update
  simp [h1, handleSOCReading, h2, sendCommand, World.millis, World.emit]

theorem update_soc_timeout (env : Env) (m : OBDManager) (w : World)
    (h1 : m.current_state = OBDState.READ_SOC)
    (h2 : m.soc_query_state = QueryState.WAITING_RESP)
    (h3 : usub (env.millis w.calls % WORD) m.elm_soc_start_time > ELM_SOC_TIMEOUT) :
    (m.update env w).1.current_state = OBDState.ERROR := by
  unfold update
  simp only [h1, handleSOCReading, h2, World.millis, h3, if_true, handleTimeout_fst]

theorem update_temp_send (env : Env) (m : OBDManager) (w : World)
    (h1 : m.current_state = OBDState.READ_BATTERY_TEMP)
    (h2 : m.temp_query_state = QueryState.SEND_COMMAND) :
    (m.update env w).1.current_state = OBDState.READ_BATTERY_TEMP ∧
    (m.update env w).1.temp_query_state = QueryState.WAITING_RESP ∧
    (m.update env w).1.elm_temp_start_time = env.millis w.calls % WORD := by
  unfold update
  simp [h1, handleTempReading, h2, sendCommand, World.millis, World.emit]

theorem update_temp_timeout (env : Env) (m : OBDManager) (w : World)
    (h1 : m.current_state = OBDState.READ_BATTERY_TEMP)
    (h2 : m.temp_query_state = QueryState.WAITING_RESP)
    (h3 : usub (env.millis w.calls % WORD) m.elm_temp_start_time > ELM_TEMP_TIMEOUT) :
    (m.update env w).1.current_state = OBDState.ERROR := by
  unfold update
  simp only [h1, handleTempReading, h2, World.millis, h3, if_true, handleTimeout_fst]

theorem update_voltage_send (env : Env) (m : OBDManager) (w : World)
    (h1 : m.current_state = OBDState.READ_BATTERY_VOLTAGE)
    (h2 : m.voltage_query_state = QueryState.SEND_COMMAND) :
    (m.update env w).1.current_state = OBDState.READ_BATTERY_VOLTAGE ∧
    (m.update env w).1.voltage_query_state = QueryState.WAITING_RESP ∧
    (m.update env w).1.elm_voltage_start_time = env.millis w.calls % WORD := by
  unfold update
  simp [h1, handleVoltageReading, h2, sendCommand, World.millis, World.emit]

theorem update_voltage_timeout (env : Env) (m : OBDManager) (w : World)
    (h1 : m.current_state = OBDState.READ_BATTERY_VOLTAGE)
    (h2 : m.voltage_query_state = QueryState.WAITING_RESP)
    (h3 : usub (env.millis w.calls % WORD) m.elm_voltage_start_time > ELM_VOLTAGE_TIMEOUT) :
    (m.update env w).1.current_state = OBDState.ERROR := by
  unfold update
  simp only [h1, handleVoltageReading, h2, World.millis, h3, if_true, handleTimeout_fst]

end OBDManager


namespace SystemController

theorem handleOBDReading_obd (env : Env) (s : SystemController) :
    (handleOBDReading env s).obd_manager_ = (s.obd_manager_.update env s.world).1 := by
  unfold handleOBDReading
  simp only [OBDManager.getCurrentState]
  cases h : (s.obd_manager_.update env s.world).1.current_state <;>
    simp [(setState_frame _ _ _).2.1, setError]

theorem update_reading (env : Env) (s : SystemController)
    (hs : s.current_state = SystemState.OBD_READING) :
    update env s = handleOBDReading env s := by
  unfold update
  rw [hs]

/-- One tick in `OBD_READING` whose acquisition step ends in `ERROR`. -/
theorem reading_to_error (env : Env) (s : SystemController)
    (hs : s.current_state = SystemState.OBD_READING)
    (he : (s.obd_manager_.update env s.world).1.current_state = OBDState.ERROR) :
    (update env s).current_state = SystemState.ERROR_HANDLING := by
  rw [update_reading env s hs, handleOBDReading_state, he]

/-- One tick in `OBD_READING` whose acquisition step stays in the state `st`. -/
theorem reading_stays (env : Env) (s : SystemController) (st : OBDState)
    (hs : s.current_state = SystemState.OBD_READING)
    (he : (s.obd_manager_.update env s.world).1.current_state = st)
    (h1 : st ≠ OBDState.COMPLETE) (h2 : st ≠ OBDState.ERROR) :
    (update env s).current_state = SystemState.OBD_READING ∧
    (update env s).obd_manager_ = (s.obd_manager_.update env s.world).1 := by
  rw [update_reading env s hs]
  refine ⟨?_, handleOBDReading_obd env s⟩
  rw [handleOBDReading_state, he]
  cases st <;> simp_all

theorem reading_can_be_left (s : SystemController)
    (hs : s.current_state = SystemState.OBD_READING) :
    ∃ envs : List Env, (run envs s).current_state ≠ SystemState.OBD_READING := by
  cases hm : s.obd_manager_.current_state with
  | COMPLETE =>
    refine ⟨[Env.ideal 0], ?_⟩
    simp only [run]
    rw [update_reading _ s hs, handleOBDReading_state]
    simp [OBDManager.update, hm]
  | ERROR =>
    refine ⟨[Env.ideal 0], ?_⟩
    simp only [run]
    rw [update_reading _ s hs, handleOBDReading_state]
    simp [OBDManager.update, hm]
  | SETUP =>
    cases hsub : s.obd_manager_.setup_substep with
    | BLE_CONNECTING =>
      refine ⟨[Env.carDown 0], ?_⟩
      simp only [run]
      rw [reading_to_error _ s hs (OBDManager.update_ble_refused _ _ _ hm hsub rfl)]
      decide
    | SETUP_START =>
      refine ⟨[Env.carDown 0, Env.carDown 0], ?_⟩
      simp only [run]
      obtain ⟨a1, a2⟩ := OBDManager.update_setup_start (Env.carDown 0) _ s.world hm hsub
      obtain ⟨b1, b2⟩ := reading_stays (Env.carDown 0) s _ hs a1 (by decide) (by decide)
      rw [reading_to_error _ _ b1
        (OBDManager.update_ble_refused _ _ _ (by rw [b2]; exact a1) (by rw [b2]; exact a2) rfl)]
      decide
    | ELM_INITIALIZING =>
      refine ⟨[Env.carDown (s.obd_manager_.elm_connection_start_time % WORD + 15001)], ?_⟩
      simp only [run]
      rw [reading_to_error _ s hs (OBDManager.update_init_timeout _ _ _ hm hsub rfl ?_)]
      · decide
      · show usub ((s.obd_manager_.elm_connection_start_time % WORD + 15001) % WORD) _ > _
        rw [usub_shift _ _ (by decide)]
        decide
  | READ_SOC =>
    cases hq : s.obd_manager_.soc_query_state with
    | SEND_COMMAND =>
      refine ⟨[Env.ideal 0, Env.ideal 10001], ?_⟩
      simp only [run]
      obtain ⟨a1, a2, a3⟩ := OBDManager.update_soc_send (Env.ideal 0) _ s.world hm hq
      obtain ⟨b1, b2⟩ := reading_stays (Env.ideal 0) s _ hs a1 (by decide) (by decide)
      rw [reading_to_error _ _ b1 (OBDManager.update_soc_timeout _ _ _
        (by rw [b2]; exact a1) (by rw [b2]; exact a2) (by rw [b2, a3]; show usub (10001 % WORD) (0 % WORD) > _; decide))]
      decide
    | WAITING_RESP =>
      refine ⟨[Env.ideal (s.obd_manager_.elm_soc_start_time % WORD + 10001)], ?_⟩
      simp only [run]
      rw [reading_to_error _ s hs (OBDManager.update_soc_timeout _ _ _ hm hq ?_)]
      · decide
      · show usub ((s.obd_manager_.elm_soc_start_time % WORD + 10001) % WORD) _ > _
        rw [usub_shift _ _ (by decide)]
        decide
  | READ_BATTERY_TEMP =>
    cases hq : s.obd_manager_.temp_query_state with
    | SEND_COMMAND =>
      refine ⟨[Env.ideal 0, Env.ideal 10001], ?_⟩
      simp only [run]
      obtain ⟨a1, a2, a3⟩ := OBDManager.update_temp_send (Env.ideal 0) _ s.world hm hq
      obtain ⟨b1, b2⟩ := reading_stays (Env.ideal 0) s _ hs a1 (by decide) (by decide)
      rw [reading_to_error _ _ b1 (OBDManager.update_temp_timeout _ _ _
        (by rw [b2]; exact a1) (by rw [b2]; exact a2) (by rw [b2, a3]; show usub (10001 % WORD) (0 % WORD) > _; decide))]
      decide
    | WAITING_RESP =>
      refine ⟨[Env.ideal (s.obd_manager_.elm_temp_start_time % WORD + 10001)], ?_⟩
      simp only [run]
      rw [reading_to_error _ s hs (OBDManager.update_temp_timeout _ _ _ hm hq ?_)]
      · decide
      · show usub ((s.obd_manager_.elm_temp_start_time % WORD + 10001) % WORD) _ > _
        rw [usub_shift _ _ (by decide)]
        decide
  | READ_BATTERY_VOLTAGE =>
    cases hq : s.obd_manager_.voltage_query_state with
    | SEND_COMMAND =>
      refine ⟨[Env.ideal 0, Env.ideal 10001], ?_⟩
      simp only [run]
      obtain ⟨a1, a2, a3⟩ := OBDManager.update_voltage_send (Env.ideal 0) _ s.world hm hq
      obtain ⟨b1, b2⟩ := reading_stays (Env.ideal 0) s _ hs a1 (by decide) (by decide)
      rw [reading_to_error _ _ b1 (OBDManager.update_voltage_timeout _ _ _
        (by rw [b2]; exact a1) (by rw [b2]; exact a2) (by rw [b2, a3]; show usub (10001 % WORD) (0 % WORD) > _; decide))]
      decide
    | WAITING_RESP =>
      refine ⟨[Env.ideal (s.obd_manager_.elm_voltage_start_time % WORD + 10001)], ?_⟩
      simp only [run]
      rw [reading_to_error _ s hs (OBDManager.update_voltage_timeout _ _ _ hm hq ?_)]
      · decide
      · show usub ((s.obd_manager_.elm_voltage_start_time % WORD + 10001) % WORD) _ > _
        rw [usub_shift _ _ (by decide)]
        decide

end SystemController


namespace SystemController

theorem connectivity_can_be_left (s : SystemController)
    (hs : s.current_state = SystemState.CONNECTIVITY_SETUP) :
    (update (Env.ideal (s.state_start_time % WORD + 30001)) s).current_state
      = SystemState.ERROR_HANDLING := by
  have ht : usub ((s.state_start_time % WORD + 30001) % WORD) s.state_start_time
      > CONNECTIVITY_TIMEOUT := by
    rw [usub_shift _ _ (by decide)]
    decide
  unfold update
  rw [hs]
  simp only []
  unfold handleConnectivitySetup
  simp only [World.millis, Env.ideal, ht, if_true]
  exact setState_current_state _ _ _

theorem waiting_can_be_left (s : SystemController)
    (hs : s.current_state = SystemState.WAITING) (hi : s.current_cycle_interval < WORD) :
    (update (Env.ideal (s.last_update_time % WORD + s.current_cycle_interval)) s).current_state
      = SystemState.INIT := by
  have ht : usub ((s.last_update_time % WORD + s.current_cycle_interval) % WORD)
      s.last_update_time ≥ s.current_cycle_interval := by
    rw [usub_shift _ _ hi]
  unfold update
  rw [hs]
  simp only []
  unfold handleWaiting
  by_cases hm : s.connectivity_manager_.isMQTTConnected = true
  · simp only [hm, if_true, World.millis, Env.ideal, ht]
    exact setState_current_state _ _ _
  · simp only [hm, if_false, Bool.false_eq_true, World.millis, Env.ideal, ht, if_true]
    exact setState_current_state _ _ _

end SystemController

/-- C7. Every `update()` takes the controller along an edge of the cycle graph (so from
`ERROR_HANDLING` always to `COMPLETE_CYCLE` and from `COMPLETE_CYCLE` always to
`WAITING`), and no state is terminal: from every state (with an idle interval that fits
the 32-bit tick counter) some behaviour of the collaborators makes the controller leave
it. -/
theorem update_follows_cycle_graph (env : Env) (s : SystemController) :
    cycleEdge s.current_state (SystemController.update env s).current_state = true ∧
    (s.current_cycle_interval < WORD →
      ∃ envs : List Env, (SystemController.run envs s).current_state ≠ s.current_state) := by
  refine ⟨SystemController.update_edge env s, fun hi => ?_⟩
  have one : ∀ e : Env, (SystemController.update e s).current_state ≠ s.current_state →
      ∃ envs : List Env, (SystemController.run envs s).current_state ≠ s.current_state :=
    fun e h => ⟨[e], h⟩
  have loopless : ∀ a b : SystemState, cycleEdge a b = true →
      a ≠ SystemState.OBD_READING → a ≠ SystemState.CONNECTIVITY_SETUP →
      a ≠ SystemState.WAITING → b ≠ a := by
    intro a b
    cases a <;> cases b <;> simp [cycleEdge]
  cases hs : s.current_state with
  | OBD_READING =>
    obtain ⟨envs, h⟩ := SystemController.reading_can_be_left s hs
    exact ⟨envs, h⟩
  | CONNECTIVITY_SETUP =>
    rw [← hs]
    apply one (Env.ideal (s.state_start_time % WORD + 30001))
    rw [SystemController.connectivity_can_be_left s hs, hs]
    decide
  | WAITING =>
    rw [← hs]
    apply one (Env.ideal (s.last_update_time % WORD + s.current_cycle_interval))
    rw [SystemController.waiting_can_be_left s hs hi, hs]
    decide
  | INIT =>
    rw [← hs]
    exact one env (loopless _ _ (SystemController.update_edge env s)
      (by rw [hs]; decide) (by rw [hs]; decide) (by rw [hs]; decide))
  | DATA_PUBLISHING =>
    rw [← hs]
    exact one env (loopless _ _ (SystemController.update_edge env s)
      (by rw [hs]; decide) (by rw [hs]; decide) (by rw [hs]; decide))
  | ERROR_HANDLING =>
    rw [← hs]
    exact one env (loopless _ _ (SystemController.update_edge env s)
      (by rw [hs]; decide) (by rw [hs]; decide) (by rw [hs]; decide))
  | COMPLETE_CYCLE =>
    rw [← hs]
    exact one env (loopless _ _ (SystemController.update_edge env s)
      (by rw [hs]; decide) (by rw [hs]; decide) (by rw [hs]; decide))

/-- Witness of C7: the controller as constructed, whose idle interval is 0. -/
theorem update_follows_cycle_graph_witness :
    cycleEdge (SystemController.new {}).current_state
      (SystemController.update (Env.ideal 0) (SystemController.new {})).current_state = true ∧
    ∃ envs : List Env,
      (SystemController.run envs (SystemController.new {})).current_state
        ≠ (SystemController.new {}).current_state :=
  ⟨(update_follows_cycle_graph (Env.ideal 0) (SystemController.new {})).1,
   (update_follows_cycle_graph (Env.ideal 0) (SystemController.new {})).2 (by decide)⟩


/-! ## What holds in every reachable state -/

namespace OBDManager

theorem handleTimeout_streakInv (m : OBDManager) (w : World) (e : String)
    (h : m.StreakInv) : (m.handleTimeout w e).1.StreakInv := by
  rw [handleTimeout_fst]
  obtain ⟨h1, _, _⟩ := h
  refine ⟨?_, ?_, ?_⟩
  · by_cases hb : isBluetoothTimeoutError e = true
    · simp only [hb, if_true, MAX_CONSECUTIVE_BT_TIMEOUTS]
      split
      · intro _; omega
      · intro hl; have := h1 hl; omega
    · simp [hb]
  · simp
  · simp

theorem streakInv_of_eq (m n : OBDManager) (h : m.StreakInv)
    (h1 : n.car_connection_lost = m.car_connection_lost)
    (h2 : n.consecutive_bt_timeouts = m.consecutive_bt_timeouts)
    (h3 : n.current_state = m.current_state)
    (h4 : n.data.valid = m.data.valid) : n.StreakInv := by
  unfold StreakInv at *
  rw [h1, h2, h3, h4]
  exact h

theorem streakInv_of_early (m n : OBDManager) (h : m.StreakInv)
    (h1 : n.car_connection_lost = m.car_connection_lost)
    (h2 : n.consecutive_bt_timeouts = m.consecutive_bt_timeouts)
    (h3 : n.current_state = OBDState.SETUP ∨ n.current_state = OBDState.READ_SOC ∨
      n.current_state = OBDState.ERROR) : n.StreakInv := by
  unfold StreakInv at *
  rw [h1, h2]
  refine ⟨h.1, ?_, ?_⟩
  · rcases h3 with h3 | h3 | h3 <;> simp [h3]
  · rcases h3 with h3 | h3 | h3 <;> simp [h3]

theorem handleSetupStep_streakInv (env : Env) (m : OBDManager) (w : World)
    (h : m.StreakInv) :
    (m.handleSetupStep env w).1.StreakInv := by
  unfold handleSetupStep
  cases m.setup_substep <;> simp only []
  · exact streakInv_of_eq m _ h rfl rfl rfl rfl
  · split
    · exact streakInv_of_eq _ _ (handleTimeout_streakInv m _ _ h) rfl rfl rfl rfl
    · exact streakInv_of_eq m _ h rfl rfl rfl rfl
  · split
    · split
      · exact streakInv_of_eq _ _ (handleTimeout_streakInv m _ _ h) rfl rfl rfl rfl
      · exact h
    · exact streakInv_of_early m _ h rfl rfl (Or.inr (Or.inl rfl))

theorem resetTimeoutCounter_streak (m : OBDManager)
    (h : m.car_connection_lost = true → 2 ≤ m.consecutive_bt_timeouts) :
    m.resetTimeoutCounter.consecutive_bt_timeouts = 0 ∧
    m.resetTimeoutCounter.car_connection_lost = false ∧
    m.resetTimeoutCounter.data = m.data := by
  unfold resetTimeoutCounter
  split
  · exact ⟨rfl, rfl, rfl⟩
  · next hz =>
    have h0 : m.consecutive_bt_timeouts = 0 := by omega
    refine ⟨h0, ?_, rfl⟩
    cases hl : m.car_connection_lost
    · rfl
    · have := h hl
      omega

theorem handleSOCReading_streakInv (env : Env) (m : OBDManager) (w : World)
    (h : m.StreakInv) :
    (m.handleSOCReading env w).1.StreakInv := by
  unfold handleSOCReading
  cases m.soc_query_state <;> simp only []
  · exact streakInv_of_eq m _ h rfl rfl rfl rfl
  · split
    · exact handleTimeout_streakInv m _ _ h
    · split
      · obtain ⟨a, b, _⟩ := resetTimeoutCounter_streak
          { (m.get_response env (w.millis env).2).1 with
            data := { (m.get_response env (w.millis env).2).1.data with
              state_of_charge :=
                (((m.get_response env (w.millis env).2).1.hexPair 11 +
                  (m.get_response env (w.millis env).2).1.hexPair 13 * 256 : Nat) : ℚ) / 100 } }
          h.1
        refine ⟨?_, ?_, ?_⟩
        · intro hl
          rw [show _ = false from b] at hl
          exact absurd hl (by decide)
        · intro _
          exact a
        · intro hc
          exact OBDState.noConfusion hc
      · split
        · exact handleTimeout_streakInv _ _ _ (streakInv_of_eq m _ h rfl rfl rfl rfl)
        · exact streakInv_of_eq m _ h rfl rfl rfl rfl


theorem handleTempReading_streakInv (env : Env) (m : OBDManager) (w : World)
    (h : m.StreakInv) (hs : m.current_state = OBDState.READ_BATTERY_TEMP) :
    (m.handleTempReading env w).1.StreakInv := by
  have h0 : m.consecutive_bt_timeouts = 0 := h.2.1 (Or.inl hs)
  unfold handleTempReading
  cases m.temp_query_state <;> simp only []
  · exact streakInv_of_eq m _ h rfl rfl rfl rfl
  · split
    · exact handleTimeout_streakInv m _ _ h
    · split
      · exact ⟨h.1, fun _ => h0, fun hc => OBDState.noConfusion hc⟩
      · split
        · exact handleTimeout_streakInv _ _ _ (streakInv_of_eq m _ h rfl rfl rfl rfl)
        · exact streakInv_of_eq m _ h rfl rfl rfl rfl

theorem handleVoltageReading_streakInv (env : Env) (m : OBDManager) (w : World)
    (h : m.StreakInv) (hs : m.current_state = OBDState.READ_BATTERY_VOLTAGE) :
    (m.handleVoltageReading env w).1.StreakInv := by
  have h0 : m.consecutive_bt_timeouts = 0 := h.2.1 (Or.inr (Or.inl hs))
  unfold handleVoltageReading
  cases m.voltage_query_state <;> simp only []
  · exact streakInv_of_eq m _ h rfl rfl rfl rfl
  · split
    · exact handleTimeout_streakInv m _ _ h
    · split
      · exact ⟨h.1, fun _ => h0, fun _ => rfl⟩
      · split
        · exact handleTimeout_streakInv _ _ _ (streakInv_of_eq m _ h rfl rfl rfl rfl)
        · exact streakInv_of_eq m _ h rfl rfl rfl rfl

theorem update_streakInv (env : Env) (m : OBDManager) (w : World)
    (h : m.StreakInv) : (m.update env w).1.StreakInv := by
  unfold update
  cases hs : m.current_state <;> simp only []
  · exact handleSetupStep_streakInv env m w h
  · exact handleSOCReading_streakInv env m w h
  · exact handleTempReading_streakInv env m w h hs
  · exact handleVoltageReading_streakInv env m w h hs
  · exact h
  · exact h

theorem initialise_streakInv (m : OBDManager) (h : m.StreakInv) :
    m.initialise.1.StreakInv :=
  streakInv_of_early m _ h rfl rfl (Or.inl rfl)

theorem disconnect_streakInv (m : OBDManager) (w : World) (h : m.StreakInv) :
    (m.disconnect w).1.StreakInv := by
  rw [disconnect_fst]
  exact streakInv_of_eq m _ h rfl rfl rfl rfl

end OBDManager

namespace SystemController

@[simp] theorem setState_config (env : Env) (s : SystemController) (st : SystemState) :
    (setState env s st).config_ = s.config_ := (setState_frame env s st).1

@[simp] theorem setState_obd (env : Env) (s : SystemController) (st : SystemState) :
    (setState env s st).obd_manager_ = s.obd_manager_ := (setState_frame env s st).2.1

@[simp] theorem setState_conn (env : Env) (s : SystemController) (st : SystemState) :
    (setState env s st).connectivity_manager_ = s.connectivity_manager_ :=
  (setState_frame env s st).2.2.1

@[simp] theorem setState_pub (env : Env) (s : SystemController) (st : SystemState) :
    (setState env s st).data_publisher_ = s.data_publisher_ := (setState_frame env s st).2.2.2.1

@[simp] theorem setState_interval (env : Env) (s : SystemController) (st : SystemState) :
    (setState env s st).current_cycle_interval = s.current_cycle_interval :=
  (setState_frame env s st).2.2.2.2.2.1

@[simp] theorem setState_last_error (env : Env) (s : SystemController) (st : SystemState) :
    (setState env s st).last_error = s.last_error := (setState_frame env s st).2.2.2.2.2.2.1

@[simp] theorem setState_success (env : Env) (s : SystemController) (st : SystemState) :
    (setState env s st).cycle_successful = s.cycle_successful :=
  (setState_frame env s st).2.2.2.2.2.2.2.1

@[simp] theorem setState_step (env : Env) (s : SystemController) (st : SystemState) :
    (setState env s st).connectivity_step = s.connectivity_step :=
  (setState_frame env s st).2.2.2.2.2.2.2.2

theorem handleInit_frame (env : Env) (s : SystemController) :
    (handleInit env s).obd_manager_ = s.obd_manager_.initialise.1 ∧
    (handleInit env s).cycle_successful = false ∧
    (handleInit env s).connectivity_step = s.connectivity_step ∧
    (handleInit env s).connectivity_manager_ = s.connectivity_manager_ ∧
    (handleInit env s).data_publisher_ = s.data_publisher_ ∧
    (handleInit env s).config_ = s.config_ := by
  unfold handleInit
  simp [OBDManager.initialise]

theorem handleOBDReading_frame (env : Env) (s : SystemController) :
    (handleOBDReading env s).cycle_successful = s.cycle_successful ∧
    (handleOBDReading env s).connectivity_step = s.connectivity_step ∧
    (handleOBDReading env s).connectivity_manager_ = s.connectivity_manager_ ∧
    (handleOBDReading env s).data_publisher_ = s.data_publisher_ ∧
    (handleOBDReading env s).config_ = s.config_ := by
  unfold handleOBDReading
  simp only [OBDManager.getCurrentState]
  cases h : (s.obd_manager_.update env s.world).1.current_state <;> simp [setError]

theorem handleConnectivitySetup_frame (env : Env) (s : SystemController)
    (hs : s.current_state = SystemState.CONNECTIVITY_SETUP) :
    (handleConnectivitySetup env s).obd_manager_ = s.obd_manager_ ∧
    (handleConnectivitySetup env s).cycle_successful = s.cycle_successful ∧
    (handleConnectivitySetup env s).data_publisher_ = s.data_publisher_ ∧
    (handleConnectivitySetup env s).config_ = s.config_ ∧
    ((handleConnectivitySetup env s).current_state ≠ SystemState.CONNECTIVITY_SETUP →
      (handleConnectivitySetup env s).connectivity_step = ConnectivityStep.SETUP_WIFI) := by
  unfold handleConnectivitySetup
  simp only []
  split
  · simp [setError]
  · cases hstep : s.connectivity_step with
    | SETUP_WIFI =>
      simp only []
      split
      · simp [hs]
      · simp [setError]
    | SETUP_NTP =>
      simp only []
      split <;> simp [hs]
    | SETUP_MQTT =>
      simp only []
      split
      · simp [hs]
      · simp [setError]
    | CONNECTIVITY_COMPLETE => simp

theorem handleDataPublishing_frame (env : Env) (s : SystemController) :
    (handleDataPublishing env s).obd_manager_ = s.obd_manager_ ∧
    (handleDataPublishing env s).connectivity_step = s.connectivity_step ∧
    (handleDataPublishing env s).config_ = s.config_ ∧
    ((handleDataPublishing env s).current_state = SystemState.ERROR_HANDLING →
      (handleDataPublishing env s).cycle_successful = s.cycle_successful) := by
  unfold handleDataPublishing
  simp only []
  split
  · simp [setError]
  · refine ⟨?_, ?_, ?_, ?_⟩
    · simp only [setState_obd]
      split <;> split <;> rfl
    · simp only [setState_step]
      split <;> split <;> rfl
    · simp only [setState_config]
      split <;> split <;> rfl
    · intro h
      rw [setState_current_state] at h
      exact SystemState.noConfusion h

theorem handleErrorHandling_frame (env : Env) (s : SystemController) :
    (handleErrorHandling env s).obd_manager_ = s.obd_manager_ ∧
    (handleErrorHandling env s).connectivity_step = s.connectivity_step ∧
    (handleErrorHandling env s).cycle_successful = s.cycle_successful ∧
    (handleErrorHandling env s).config_ = s.config_ ∧
    (handleErrorHandling env s).last_error = s.last_error := by
  unfold handleErrorHandling
  simp only [setState_obd, setState_step, setState_success, setState_config,
    setState_last_error]
  refine ⟨?_, ?_, ?_, ?_, ?_⟩ <;>
  · split <;> split <;> split <;> (try split) <;> rfl

theorem handleCompleteCycle_frame (env : Env) (s : SystemController) :
    (handleCompleteCycle env s).obd_manager_ = (s.obd_manager_.disconnect
      ((s.connectivity_manager_.disconnectMQTT s.world).1.disconnectWiFi
        (s.connectivity_manager_.disconnectMQTT s.world).2).2).1 ∧
    (handleCompleteCycle env s).connectivity_step = s.connectivity_step ∧
    (handleCompleteCycle env s).config_ = s.config_ := by
  unfold handleCompleteCycle
  simp only [setState_obd, setState_step, setState_config]
  refine ⟨?_, ?_, ?_⟩ <;>
  · split <;> (try split) <;> rfl

theorem handleWaiting_frame (env : Env) (s : SystemController) :
    (handleWaiting env s).obd_manager_ = s.obd_manager_ ∧
    (handleWaiting env s).connectivity_step = s.connectivity_step ∧
    (handleWaiting env s).cycle_successful = s.cycle_successful ∧
    (handleWaiting env s).config_ = s.config_ := by
  unfold handleWaiting
  by_cases hm : s.connectivity_manager_.isMQTTConnected = true
  · simp only [hm, if_true]
    split <;> simp
  · simp only [hm, if_false, Bool.false_eq_true]
    split <;> simp

end SystemController


namespace SystemController

theorem new_cycleInv (config : Config) : (new config).CycleInv := by
  refine ⟨⟨?_, ?_, ?_⟩, ?_, ?_⟩
  · intro h; exact Bool.noConfusion h
  · intro _; rfl
  · intro h; exact OBDState.noConfusion h
  · intro _; rfl
  · intro _; rfl

theorem update_cycleInv (env : Env) (s : SystemController) (h : s.CycleInv) :
    (update env s).CycleInv := by
  obtain ⟨h1, h2, h3⟩ := h
  unfold update
  cases hs : s.current_state with
  | INIT =>
    simp only []
    obtain ⟨a, b, c, _⟩ := handleInit_frame env s
    refine ⟨?_, fun _ => b, fun _ => ?_⟩
    · rw [a]; exact OBDManager.initialise_streakInv _ h1
    · rw [c]; exact h3 (by rw [hs]; decide)
  | OBD_READING =>
    simp only []
    obtain ⟨b, c, _⟩ := handleOBDReading_frame env s
    refine ⟨?_, fun _ => ?_, fun _ => ?_⟩
    · rw [handleOBDReading_obd]; exact OBDManager.update_streakInv _ _ _ h1
    · rw [b]; exact h2 (Or.inl hs)
    · rw [c]; exact h3 (by rw [hs]; decide)
  | CONNECTIVITY_SETUP =>
    simp only []
    obtain ⟨a, b, _, _, e⟩ := handleConnectivitySetup_frame env s hs
    refine ⟨?_, fun _ => ?_, e⟩
    · rw [a]; exact h1
    · rw [b]; exact h2 (Or.inr (Or.inl hs))
  | DATA_PUBLISHING =>
    simp only []
    obtain ⟨a, b, _, d⟩ := handleDataPublishing_frame env s
    refine ⟨?_, fun hx => ?_, fun _ => ?_⟩
    · rw [a]; exact h1
    · rcases handleDataPublishing_state env s with hc | hc
      · rw [hc] at hx
        rcases hx with hx | hx | hx | hx <;> exact SystemState.noConfusion hx
      · rw [d hc]; exact h2 (Or.inr (Or.inr (Or.inl hs)))
    · rw [b]; exact h3 (by rw [hs]; decide)
  | ERROR_HANDLING =>
    simp only []
    obtain ⟨a, b, c, _⟩ := handleErrorHandling_frame env s
    refine ⟨?_, fun _ => ?_, fun _ => ?_⟩
    · rw [a]; exact h1
    · rw [c]; exact h2 (Or.inr (Or.inr (Or.inr hs)))
    · rw [b]; exact h3 (by rw [hs]; decide)
  | WAITING =>
    simp only []
    obtain ⟨a, b, _, _⟩ := handleWaiting_frame env s
    refine ⟨?_, fun hx => ?_, fun _ => ?_⟩
    · rw [a]; exact h1
    · rcases handleWaiting_state env s hs with hc | hc <;> rw [hc] at hx <;>
        rcases hx with hx | hx | hx | hx <;> exact SystemState.noConfusion hx
    · rw [b]; exact h3 (by rw [hs]; decide)
  | COMPLETE_CYCLE =>
    simp only []
    obtain ⟨a, b, _⟩ := handleCompleteCycle_frame env s
    refine ⟨?_, fun hx => ?_, fun _ => ?_⟩
    · rw [a]; exact OBDManager.disconnect_streakInv _ _ h1
    · rw [handleCompleteCycle_state] at hx
      rcases hx with hx | hx | hx | hx <;> exact SystemState.noConfusion hx
    · rw [b]; exact h3 (by rw [hs]; decide)

theorem reachable_cycleInv (s : SystemController) (h : Reachable s) : s.CycleInv := by
  induction h with
  | power_up config => exact new_cycleInv config
  | started env config =>
    have hn := new_cycleInv config
    unfold initialise setCycleInterval
    exact ⟨by simpa using hn.1, by simpa [setState_success] using hn.2.1,
      by simpa [setState_step] using hn.2.2⟩
  | update env s _ ih => exact update_cycleInv env s ih

theorem reachable_runSeq (envs : Nat → Env) (n : Nat) (s : SystemController)
    (h : Reachable s) : Reachable (runSeq envs n s) := by
  induction n with
  | zero => exact h
  | succ n ih => exact Reachable.update _ _ ih

theorem reachable_run (envs : List Env) (s : SystemController)
    (h : Reachable s) : Reachable (run envs s) := by
  induction envs generalizing s with
  | nil => exact h
  | cons e rest ih => exact ih _ (Reachable.update e s h)

end SystemController


/-! ## Error handling: what gets published -/

theorem publishedMessages_append (a b : List Event) :
    publishedMessages (a ++ b) = publishedMessages a ++ publishedMessages b := by
  unfold publishedMessages
  exact List.filterMap_append _ _ _

namespace ConnectivityManager

theorem wifiWait_published (env : Env) (n : Nat) (w : World) :
    publishedMessages (wifiWait env n w).log = publishedMessages w.log := by
  induction n generalizing w with
  | zero => rfl
  | succ n ih =>
    unfold wifiWait
    split
    · rfl
    · rw [ih]
      simp [World.emit, World.tick, publishedMessages_append, publishedMessages]

theorem connectWiFi_published (env : Env) (c : ConnectivityManager) (w : World) :
    publishedMessages (c.connectWiFi env w).2.1.log = publishedMessages w.log := by
  unfold connectWiFi
  split
  · rfl
  · simp only []
    split <;>
    · simp only [World.tick]
      rw [wifiWait_published]
      simp [World.emit, publishedMessages_append, publishedMessages]

theorem syncWait_published (env : Env) (start : Nat) (n : Nat) (year : Int) (w : World) :
    publishedMessages (syncWait env start n year w).2.log = publishedMessages w.log := by
  induction n generalizing w year with
  | zero => rfl
  | succ n ih =>
    unfold syncWait
    split
    · simp only []
      split
      · rfl
      · rw [ih]
        simp [World.emit, World.tick, World.millis, publishedMessages_append, publishedMessages]
    · rfl

theorem syncTime_published (env : Env) (c : ConnectivityManager) (w : World) :
    publishedMessages (c.syncTime env w).2.1.log = publishedMessages w.log := by
  unfold syncTime
  split
  · rfl
  · split
    · rfl
    · simp only []
      split
      · simp only []
        rw [syncWait_published]
        simp [World.emit, World.millis, World.tick, publishedMessages_append, publishedMessages]
      · split <;>
        · simp only []
          rw [syncWait_published]
          simp [World.emit, World.millis, World.tick, publishedMessages_append,
            publishedMessages]

theorem connectMQTT_published (env : Env) (c : ConnectivityManager) (w : World) :
    publishedMessages (c.connectMQTT env w).2.1.log = publishedMessages w.log := by
  unfold connectMQTT
  simp only []
  split_ifs <;>
    simp [World.emit, World.millis, World.tick, publishedMessages_append, publishedMessages]

end ConnectivityManager

namespace DataPublisher

theorem publishErrorStatus_link (env : Env) (p : DataPublisher) (c : ConnectivityManager)
    (w : World) (error_message : String) (car_connection_lost : Bool) :
    (publishErrorStatus env p c w error_message car_connection_lost).conn.mqtt_connected
      = c.mqtt_connected := by
  have key : ∀ status : String,
      (publishLastUpdate env (publishStatus env p c w status).pub
        (publishStatus env p c w status).conn
        (publishStatus env p c w status).world).conn.mqtt_connected = c.mqtt_connected := by
    intro status
    obtain ⟨_, _, _, _, a, _, _⟩ := publishOrError_spec env p c w p.topics_.status
      (Payload.text status) "Failed to publish status"
    unfold publishLastUpdate
    obtain ⟨_, _, _, _, b, _, _⟩ := publishOrError_spec env (publishStatus env p c w status).pub
      (publishStatus env p c w status).conn
      ((publishStatus env p c w status).conn.getCurrentTimeString env
        (publishStatus env p c w status).world 64).2
      (publishStatus env p c w status).pub.topics_.last_update
      ((publishStatus env p c w status).conn.getCurrentTimeString env
        (publishStatus env p c w status).world 64).1 "Failed to publish last update time"
    exact b.trans a
  unfold publishErrorStatus
  by_cases hl : car_connection_lost = true
  · simpa [hl] using key "No Car Connection"
  · by_cases he : error_message.length > 0
    · simpa [hl, he] using key error_message
    · simpa [hl, he] using key "UNKNOWN_ERROR"

end DataPublisher

namespace SystemController

/-- The status text `publishErrorStatus` is asked to publish. -/
theorem handleErrorHandling_published (env : Env) (s : SystemController) :
    ((handleErrorHandling env s).connectivity_manager_.isMQTTConnected = true →
      ∃ ts : Payload, (ts = Payload.text "TIME_NOT_SYNCED" ∨ ∃ t, ts = Payload.datetime t) ∧
        publishedMessages (handleErrorHandling env s).world.log =
          publishedMessages s.world.log ++
            [(s.data_publisher_.topics_.status,
              Payload.text (if s.obd_manager_.hasConnectionLost then "No Car Connection"
                            else if s.last_error.length > 0 then s.last_error
                            else "UNKNOWN_ERROR")),
             (s.data_publisher_.topics_.last_update, ts)]) ∧
    ((handleErrorHandling env s).connectivity_manager_.isMQTTConnected = false →
      publishedMessages (handleErrorHandling env s).world.log
        = publishedMessages s.world.log) := by
  unfold handleErrorHandling
  simp only [setState_conn, setState_log]
  generalize hs1 : (if (!s.connectivity_manager_.isWiFiConnected) = true then
      if (s.connectivity_manager_.connectWiFi env s.world).2.2 = true then
        { s with
          connectivity_manager_ := ((s.connectivity_manager_.connectWiFi env s.world).1.syncTime
            env (s.connectivity_manager_.connectWiFi env s.world).2.1).1
          world := ((s.connectivity_manager_.connectWiFi env s.world).1.syncTime
            env (s.connectivity_manager_.connectWiFi env s.world).2.1).2.1 }
      else
        { s with
          connectivity_manager_ := (s.connectivity_manager_.connectWiFi env s.world).1
          world := (s.connectivity_manager_.connectWiFi env s.world).2.1 }
    else s) = s1
  have f1 : publishedMessages s1.world.log = publishedMessages s.world.log ∧
      s1.data_publisher_ = s.data_publisher_ ∧ s1.last_error = s.last_error ∧
      s1.obd_manager_ = s.obd_manager_ := by
    rw [← hs1]
    split
    · split
      · refine ⟨?_, rfl, rfl, rfl⟩
        simp only []
        rw [ConnectivityManager.syncTime_published, ConnectivityManager.connectWiFi_published]
      · exact ⟨ConnectivityManager.connectWiFi_published _ _ _, rfl, rfl, rfl⟩
    · exact ⟨rfl, rfl, rfl, rfl⟩
  generalize hs2 : (if (s1.connectivity_manager_.isWiFiConnected &&
      !s1.connectivity_manager_.isMQTTConnected) = true then
        { s1 with
          connectivity_manager_ := (s1.connectivity_manager_.connectMQTT env s1.world).1
          world := (s1.connectivity_manager_.connectMQTT env s1.world).2.1 }
    else s1) = s2
  have f2 : publishedMessages s2.world.log = publishedMessages s.world.log ∧
      s2.data_publisher_ = s.data_publisher_ ∧ s2.last_error = s.last_error ∧
      s2.obd_manager_ = s.obd_manager_ := by
    rw [← hs2]
    split
    · refine ⟨?_, f1.2.1, f1.2.2.1, f1.2.2.2⟩
      simp only []
      rw [ConnectivityManager.connectMQTT_published, f1.1]
    · exact f1
  obtain ⟨g1, g2, g3, g4⟩ := f2
  by_cases hm : s2.connectivity_manager_.isMQTTConnected = true
  · simp only [hm, if_true, absorb]
    obtain ⟨o1, o2, ts, a1, _, a3, a4⟩ := DataPublisher.publishErrorStatus_spec env
      s2.data_publisher_ s2.connectivity_manager_ s2.world s2.last_error
      s2.obd_manager_.hasConnectionLost
    have a5 := DataPublisher.publishErrorStatus_link env
      s2.data_publisher_ s2.connectivity_manager_ s2.world s2.last_error
      s2.obd_manager_.hasConnectionLost
    constructor
    · intro _
      refine ⟨ts, ?_, ?_⟩
      · cases hts : s2.connectivity_manager_.time_synced
        · exact Or.inl (a3 hts)
        · exact Or.inr (a4 hts)
      · rw [a1, publishedMessages_append, g1, g2, g3, g4]
        simp [publishedMessages]
    · intro hx
      unfold ConnectivityManager.isMQTTConnected at hx hm
      rw [a5, hm] at hx
      exact Bool.noConfusion hx
  · simp only [hm, if_false, Bool.false_eq_true]
    constructor
    · intro hx
      exact False.elim hx
    · intro _
      exact g1

end SystemController


/-! ## A voltage read that times out -/

namespace OBDManager

theorem disconnect_published (m : OBDManager) (w : World) :
    publishedMessages (m.disconnect w).2.log = publishedMessages w.log := by
  unfold disconnect
  split
  · simp [sendCommand_Blocking, World.emit, publishedMessages_append, publishedMessages]
  · rfl

theorem handleTimeout_published (m : OBDManager) (w : World) (e : String) :
    publishedMessages (m.handleTimeout w e).2.log = publishedMessages w.log := by
  unfold handleTimeout
  exact disconnect_published _ _

/-- The acquisition step on which the awaited voltage response has timed out. -/
theorem update_voltage_timed_out (env : Env) (m : OBDManager) (w : World)
    (h1 : m.current_state = OBDState.READ_BATTERY_VOLTAGE)
    (h2 : m.voltage_query_state = QueryState.WAITING_RESP)
    (h3 : usub (env.millis w.calls % WORD) m.elm_voltage_start_time > ELM_VOLTAGE_TIMEOUT) :
    (m.update env w).1.consecutive_bt_timeouts = m.consecutive_bt_timeouts + 1 ∧
    (m.update env w).1.car_connection_lost =
      (if m.consecutive_bt_timeouts + 1 ≥ MAX_CONSECUTIVE_BT_TIMEOUTS then true
       else m.car_connection_lost) ∧
    (m.update env w).1.last_error = "VOLTAGE_READ_TIMEOUT" ∧
    (m.update env w).1.current_state = OBDState.ERROR ∧
    publishedMessages (m.update env w).2.log = publishedMessages w.log := by
  have hb : isBluetoothTimeoutError "VOLTAGE_READ_TIMEOUT" = true := by decide
  unfold update
  simp only [h1, handleVoltageReading, h2, World.millis, h3, if_true, handleTimeout_fst, hb,
    handleTimeout_published]
  simp [World.tick]

end OBDManager

namespace SystemController

theorem update_init (env : Env) (s : SystemController)
    (hs : s.current_state = SystemState.INIT) : update env s = handleInit env s := by
  unfold update
  rw [hs]

theorem update_connectivity (env : Env) (s : SystemController)
    (hs : s.current_state = SystemState.CONNECTIVITY_SETUP) :
    update env s = handleConnectivitySetup env s := by
  unfold update
  rw [hs]

theorem update_publishing (env : Env) (s : SystemController)
    (hs : s.current_state = SystemState.DATA_PUBLISHING) :
    update env s = handleDataPublishing env s := by
  unfold update
  rw [hs]

theorem update_error (env : Env) (s : SystemController)
    (hs : s.current_state = SystemState.ERROR_HANDLING) :
    update env s = handleErrorHandling env s := by
  unfold update
  rw [hs]

theorem update_complete (env : Env) (s : SystemController)
    (hs : s.current_state = SystemState.COMPLETE_CYCLE) :
    update env s = handleCompleteCycle env s := by
  unfold update
  rw [hs]

theorem update_waiting (env : Env) (s : SystemController)
    (hs : s.current_state = SystemState.WAITING) : update env s = handleWaiting env s := by
  unfold update
  rw [hs]

theorem handleOBDReading_world (env : Env) (s : SystemController) :
    (handleOBDReading env s).world.log = (s.obd_manager_.update env s.world).2.log := by
  unfold handleOBDReading
  simp only [OBDManager.getCurrentState]
  cases h : (s.obd_manager_.update env s.world).1.current_state <;>
    simp [setState_log, setError]

theorem handleOBDReading_error (env : Env) (s : SystemController)
    (he : (s.obd_manager_.update env s.world).1.current_state = OBDState.ERROR) :
    (handleOBDReading env s).last_error
      = strncpyBuf 128 (s.obd_manager_.update env s.world).1.last_error := by
  unfold handleOBDReading
  simp only [OBDManager.getCurrentState, he, setState_last_error, setError,
    OBDManager.getLastError]

theorem handleCompleteCycle_published (env : Env) (s : SystemController) :
    publishedMessages (handleCompleteCycle env s).world.log = publishedMessages s.world.log ∧
    (handleCompleteCycle env s).obd_manager_.hasConnectionLost
      = s.obd_manager_.hasConnectionLost := by
  have hw : publishedMessages s.cleanupConnections.world.log = publishedMessages s.world.log := by
    unfold cleanupConnections
    simp only []
    rw [OBDManager.disconnect_published]
    unfold ConnectivityManager.disconnectWiFi ConnectivityManager.disconnectMQTT
    split <;> split <;>
      simp [World.emit, publishedMessages_append, publishedMessages]
  refine ⟨?_, ?_⟩
  · unfold handleCompleteCycle
    simp only [setState_log]
    split
    · exact hw
    · split <;> exact hw
  · rw [(handleCompleteCycle_frame env s).1, OBDManager.disconnect_fst]
    rfl

end SystemController

/-- C4 (counterexample). Two consecutive cycles from power-up in which everything
succeeds at once except the voltage read, which times out.  Right after the second
timeout the streak is 1 and `hasConnectionLost()` is false; both cycles published the
status "VOLTAGE_READ_TIMEOUT" and the timestamp, never "No Car Connection"; and the
interval chosen is the retry interval (45000 ms when configured so, the error interval
staying at 60000 ms). -/
theorem second_voltage_timeout_keeps_link :
    (SystemController.secondVoltageTimeout {} 10).current_state = SystemState.ERROR_HANDLING ∧
    (SystemController.secondVoltageTimeout {} 10).obd_manager_.consecutive_bt_timeouts = 1 ∧
    (SystemController.secondVoltageTimeout {} 10).obd_manager_.hasConnectionLost = false ∧
    publishedMessages (SystemController.secondVoltageTimeout {} 12).world.log =
      [("bydseal/status", Payload.text "VOLTAGE_READ_TIMEOUT"),
       ("bydseal/last_update", Payload.datetime 1750000000),
       ("bydseal/status", Payload.text "VOLTAGE_READ_TIMEOUT"),
       ("bydseal/last_update", Payload.datetime 1750000000)] ∧
    (SystemController.secondVoltageTimeout {} 12).current_state = SystemState.WAITING ∧
    (SystemController.secondVoltageTimeout {} 12).current_cycle_interval = 60000 ∧
    (SystemController.secondVoltageTimeout
      { retry_cycle_interval := 45000 } 12).current_cycle_interval = 45000 := by
  decide

/-- C4 (amended). In every reachable state in which the voltage response is awaited, a
tick on which that read times out leaves the streak at 1 and `hasConnectionLost()` false
(the state-of-charge success earlier in the same cycle reset the streak), with last
error "VOLTAGE_READ_TIMEOUT" and the controller in `ERROR_HANDLING`.  The error-handling
tick then publishes exactly the status "VOLTAGE_READ_TIMEOUT" followed by the
last-update timestamp when the broker session comes up, and nothing when it does not;
no other tick of the three publishes anything; and cycle completion chooses the retry
interval and goes to `WAITING`. -/
theorem voltage_timeout_cycle (s : SystemController) (e1 e2 e3 : Env)
    (hr : Reachable s)
    (hs : s.current_state = SystemState.OBD_READING)
    (hv : s.obd_manager_.current_state = OBDState.READ_BATTERY_VOLTAGE)
    (hq : s.obd_manager_.voltage_query_state = QueryState.WAITING_RESP)
    (ht : usub (e1.millis s.world.calls % WORD) s.obd_manager_.elm_voltage_start_time
      > OBDManager.ELM_VOLTAGE_TIMEOUT) :
    (SystemController.update e1 s).obd_manager_.consecutive_bt_timeouts = 1 ∧
    (SystemController.update e1 s).obd_manager_.hasConnectionLost = false ∧
    (SystemController.update e1 s).current_state = SystemState.ERROR_HANDLING ∧
    (SystemController.update e1 s).last_error = "VOLTAGE_READ_TIMEOUT" ∧
    publishedMessages (SystemController.update e1 s).world.log
      = publishedMessages s.world.log ∧
    ((SystemController.update e2
        (SystemController.update e1 s)).connectivity_manager_.isMQTTConnected = true →
      ∃ ts : Payload, (ts = Payload.text "TIME_NOT_SYNCED" ∨ ∃ t, ts = Payload.datetime t) ∧
        publishedMessages
            (SystemController.update e2 (SystemController.update e1 s)).world.log =
          publishedMessages s.world.log ++
            [(s.data_publisher_.topics_.status, Payload.text "VOLTAGE_READ_TIMEOUT"),
             (s.data_publisher_.topics_.last_update, ts)]) ∧
    ((SystemController.update e2
        (SystemController.update e1 s)).connectivity_manager_.isMQTTConnected = false →
      publishedMessages (SystemController.update e2 (SystemController.update e1 s)).world.log
        = publishedMessages s.world.log) ∧
    publishedMessages (SystemController.update e3
        (SystemController.update e2 (SystemController.update e1 s))).world.log =
      publishedMessages (SystemController.update e2 (SystemController.update e1 s)).world.log ∧
    (SystemController.update e3
        (SystemController.update e2 (SystemController.update e1 s))).current_state
      = SystemState.WAITING ∧
    (SystemController.update e3
        (SystemController.update e2 (SystemController.update e1 s))).current_cycle_interval
      = s.config_.retry_cycle_interval ∧
    (SystemController.update e3 (SystemController.update e2
        (SystemController.update e1 s))).obd_manager_.hasConnectionLost = false := by
  obtain ⟨⟨i1, i2, _⟩, i4, _⟩ := SystemController.reachable_cycleInv s hr
  have z : s.obd_manager_.consecutive_bt_timeouts = 0 := i2 (Or.inr (Or.inl hv))
  have nl : s.obd_manager_.car_connection_lost = false := by
    cases hl : s.obd_manager_.car_connection_lost
    · rfl
    · have := i1 hl
      omega
  have cs : s.cycle_successful = false := i4 (Or.inl hs)
  obtain ⟨a1, a2, a3, a4, a5⟩ :=
    OBDManager.update_voltage_timed_out e1 s.obd_manager_ s.world hv hq ht
  -- the tick of the timeout
  have u1 : SystemController.update e1 s = SystemController.handleOBDReading e1 s :=
    SystemController.update_reading e1 s hs
  have b1 : (SystemController.update e1 s).obd_manager_.consecutive_bt_timeouts = 1 := by
    rw [u1, SystemController.handleOBDReading_obd, a1, z]
  have b2 : (SystemController.update e1 s).obd_manager_.hasConnectionLost = false := by
    rw [u1, SystemController.handleOBDReading_obd]
    show (s.obd_manager_.update e1 s.world).1.car_connection_lost = false
    rw [a2, z, nl]
    decide
  have b3 : (SystemController.update e1 s).current_state = SystemState.ERROR_HANDLING :=
    SystemController.reading_to_error e1 s hs a4
  have b4 : (SystemController.update e1 s).last_error = "VOLTAGE_READ_TIMEOUT" := by
    rw [u1, SystemController.handleOBDReading_error e1 s a4, a3]
    decide
  have b5 : publishedMessages (SystemController.update e1 s).world.log
      = publishedMessages s.world.log := by
    rw [u1, SystemController.handleOBDReading_world, a5]
  obtain ⟨b6, _, _, b7, b8⟩ := SystemController.handleOBDReading_frame e1 s
  rw [← u1] at b6 b7 b8
  -- the error-handling tick
  have u2 : SystemController.update e2 (SystemController.update e1 s)
      = SystemController.handleErrorHandling e2 (SystemController.update e1 s) :=
    SystemController.update_error e2 _ b3
  obtain ⟨c1, c2⟩ :=
    SystemController.handleErrorHandling_published e2 (SystemController.update e1 s)
  obtain ⟨c3, _, c5, c6, _⟩ :=
    SystemController.handleErrorHandling_frame e2 (SystemController.update e1 s)
  have c7 := SystemController.handleErrorHandling_state e2 (SystemController.update e1 s)
  rw [← u2] at c1 c2 c3 c5 c6 c7
  rw [b2, b4, b5, b7] at c1
  rw [b5] at c2
  -- cycle completion
  have u3 : SystemController.update e3
      (SystemController.update e2 (SystemController.update e1 s))
      = SystemController.handleCompleteCycle e3
        (SystemController.update e2 (SystemController.update e1 s)) :=
    SystemController.update_complete e3 _ c7
  obtain ⟨d1, d2⟩ := SystemController.handleCompleteCycle_published e3
    (SystemController.update e2 (SystemController.update e1 s))
  have d3 := SystemController.handleCompleteCycle_interval e3
    (SystemController.update e2 (SystemController.update e1 s))
  have d4 := SystemController.handleCompleteCycle_state e3
    (SystemController.update e2 (SystemController.update e1 s))
  rw [← u3] at d1 d2 d3 d4
  rw [c3, b2] at d2
  rw [c5, b6, cs, c3, b2, c6, b8] at d3
  refine ⟨b1, b2, b3, b4, b5, ?_, c2, d1, d4, ?_, d2⟩
  · intro hm
    obtain ⟨ts, t1, t2⟩ := c1 hm
    exact ⟨ts, t1, by simpa using t2⟩
  · simpa using d3

/-- Witness of C4 (amended): the second of two consecutive cycles whose voltage read
times out, from the tick on which the response is awaited. -/
theorem voltage_timeout_cycle_witness :
    (SystemController.update (Env.ideal 90001)
      (SystemController.secondVoltageTimeout {} 9)).obd_manager_.consecutive_bt_timeouts = 1 ∧
    (SystemController.update (Env.ideal 90001)
      (SystemController.secondVoltageTimeout {} 9)).obd_manager_.hasConnectionLost = false :=
  ⟨(voltage_timeout_cycle (SystemController.secondVoltageTimeout {} 9)
      (Env.ideal 90001) (Env.ideal 90001) (Env.ideal 90001)
      (SystemController.reachable_run _ _ (Reachable.power_up {}))
      (by decide) (by decide) (by decide) (by decide)).1,
   (voltage_timeout_cycle (SystemController.secondVoltageTimeout {} 9)
      (Env.ideal 90001) (Env.ideal 90001) (Env.ideal 90001)
      (SystemController.reachable_run _ _ (Reachable.power_up {}))
      (by decide) (by decide) (by decide) (by decide)).2.1⟩


/-! ## A cycle in which everything succeeds -/

namespace ConnectivityManager

theorem connectWiFi_refused (env : Env) (c : ConnectivityManager) (w : World)
    (h : (c.connectWiFi env w).2.2 = false) :
    (c.connectWiFi env w).1.wifi_connected = false := by
  unfold connectWiFi at h ⊢
  split
  · next hc => simp [hc] at h
  · next hc =>
    simp only [hc, if_false, Bool.false_eq_true] at h
    simp only []
    split
    · next hw => simp [hw] at h
    · simpa [setError] using hc

theorem connectMQTT_refused (env : Env) (c : ConnectivityManager) (w : World)
    (h : (c.connectMQTT env w).2.2 = false) :
    (c.connectMQTT env w).1.mqtt_connected = false := by
  unfold connectMQTT at h ⊢
  by_cases hc : c.mqtt_connected = true
  · simp [hc] at h
  · simp only [hc, if_false, Bool.false_eq_true] at h ⊢
    revert h
    split_ifs <;> simp_all [setError]

end ConnectivityManager

namespace SystemController

theorem connectivity_wifi_step (env : Env) (s : SystemController)
    (hs : s.current_state = SystemState.CONNECTIVITY_SETUP)
    (hstep : s.connectivity_step = ConnectivityStep.SETUP_WIFI)
    (ht : usub (env.millis s.world.calls % WORD) s.state_start_time ≤ CONNECTIVITY_TIMEOUT)
    (hw : (update env s).connectivity_manager_.isWiFiConnected = true) :
    (update env s).current_state = SystemState.CONNECTIVITY_SETUP ∧
    (update env s).connectivity_step = ConnectivityStep.SETUP_NTP := by
  have ht2 : ¬ usub (env.millis s.world.calls % WORD) s.state_start_time
      > CONNECTIVITY_TIMEOUT := Nat.not_lt.mpr ht
  rw [update_connectivity env s hs] at hw ⊢
  unfold handleConnectivitySetup at hw ⊢
  simp only [World.millis, ht2, if_false, hstep] at hw ⊢
  by_cases hr : (s.connectivity_manager_.connectWiFi env s.world.tick).2.2 = true
  · simp [hr, hs]
  · have hr2 : (s.connectivity_manager_.connectWiFi env s.world.tick).2.2 = false := by
      simpa using hr
    have := ConnectivityManager.connectWiFi_refused env _ _ hr2
    simp [hr2, ConnectivityManager.isWiFiConnected, this, setError] at hw

theorem connectivity_ntp_step (env : Env) (s : SystemController)
    (hs : s.current_state = SystemState.CONNECTIVITY_SETUP)
    (hstep : s.connectivity_step = ConnectivityStep.SETUP_NTP)
    (ht : usub (env.millis s.world.calls % WORD) s.state_start_time ≤ CONNECTIVITY_TIMEOUT) :
    (update env s).current_state = SystemState.CONNECTIVITY_SETUP ∧
    (update env s).connectivity_step = ConnectivityStep.SETUP_MQTT := by
  have ht2 : ¬ usub (env.millis s.world.calls % WORD) s.state_start_time
      > CONNECTIVITY_TIMEOUT := Nat.not_lt.mpr ht
  rw [update_connectivity env s hs]
  unfold handleConnectivitySetup
  simp only [World.millis, ht2, if_false, hstep]
  split <;> exact ⟨hs, rfl⟩

theorem connectivity_mqtt_step (env : Env) (s : SystemController)
    (hs : s.current_state = SystemState.CONNECTIVITY_SETUP)
    (hstep : s.connectivity_step = ConnectivityStep.SETUP_MQTT)
    (ht : usub (env.millis s.world.calls % WORD) s.state_start_time ≤ CONNECTIVITY_TIMEOUT)
    (hw : (update env s).connectivity_manager_.isMQTTConnected = true) :
    (update env s).current_state = SystemState.CONNECTIVITY_SETUP ∧
    (update env s).connectivity_step = ConnectivityStep.CONNECTIVITY_COMPLETE := by
  have ht2 : ¬ usub (env.millis s.world.calls % WORD) s.state_start_time
      > CONNECTIVITY_TIMEOUT := Nat.not_lt.mpr ht
  rw [update_connectivity env s hs] at hw ⊢
  unfold handleConnectivitySetup at hw ⊢
  simp only [World.millis, ht2, if_false, hstep] at hw ⊢
  by_cases hr : (s.connectivity_manager_.connectMQTT env s.world.tick).2.2 = true
  · simp [hr, hs]
  · have hr2 : (s.connectivity_manager_.connectMQTT env s.world.tick).2.2 = false := by
      simpa using hr
    have := ConnectivityManager.connectMQTT_refused env _ _ hr2
    simp [hr2, ConnectivityManager.isMQTTConnected, this, setError] at hw

theorem connectivity_complete_step (env : Env) (s : SystemController)
    (hs : s.current_state = SystemState.CONNECTIVITY_SETUP)
    (hstep : s.connectivity_step = ConnectivityStep.CONNECTIVITY_COMPLETE)
    (ht : usub (env.millis s.world.calls % WORD) s.state_start_time ≤ CONNECTIVITY_TIMEOUT) :
    (update env s).current_state = SystemState.DATA_PUBLISHING := by
  have ht2 : ¬ usub (env.millis s.world.calls % WORD) s.state_start_time
      > CONNECTIVITY_TIMEOUT := Nat.not_lt.mpr ht
  rw [update_connectivity env s hs]
  unfold handleConnectivitySetup
  simp only [World.millis, ht2, if_false, hstep]
  exact setState_current_state _ _ _

theorem update_config (env : Env) (s : SystemController) :
    (update env s).config_ = s.config_ := by
  cases hs : s.current_state with
  | INIT => rw [update_init env s hs]; exact (handleInit_frame env s).2.2.2.2.2
  | OBD_READING => rw [update_reading env s hs]; exact (handleOBDReading_frame env s).2.2.2.2
  | CONNECTIVITY_SETUP =>
    rw [update_connectivity env s hs]; exact (handleConnectivitySetup_frame env s hs).2.2.2.1
  | DATA_PUBLISHING =>
    rw [update_publishing env s hs]; exact (handleDataPublishing_frame env s).2.2.1
  | ERROR_HANDLING =>
    rw [update_error env s hs]; exact (handleErrorHandling_frame env s).2.2.2.1
  | WAITING => rw [update_waiting env s hs]; exact (handleWaiting_frame env s).2.2.2
  | COMPLETE_CYCLE =>
    rw [update_complete env s hs]; exact (handleCompleteCycle_frame env s).2.2

theorem runSeq_config (envs : Nat → Env) (n : Nat) (s : SystemController) :
    (runSeq envs n s).config_ = s.config_ := by
  induction n with
  | zero => rfl
  | succ n ih => exact (update_config _ _).trans ih

theorem handleCompleteCycle_success (env : Env) (s : SystemController) :
    (handleCompleteCycle env s).cycle_successful = s.cycle_successful := by
  unfold handleCompleteCycle
  simp only [setState_success]
  split
  · rfl
  · split <;> rfl

end SystemController

/-- C5. Take any reachable controller in `INIT` and any behaviour of the collaborators
tick by tick.  Suppose the acquisition never fails and completes on tick `k + 1` (link
setup and every read succeed), the four connectivity ticks stay within the phase
timeout with the network up after the first and the broker session up after the third
(time sync may go either way), and the publishing tick stays within its timeout with
every publish returning true.  Then the controller goes Init, Acquiring (`k` ticks),
ConnectivitySetup (4 ticks), Publishing, CycleComplete, Waiting and never enters
ErrorHandling; the publishing tick hands over the status "CONNECTED", the three
readings and the timestamp; the cycle is marked successful; and the interval chosen is
`normal_cycle_interval` (300000 ms in the default configuration). -/
theorem successful_cycle (envs : Nat → Env) (s0 : SystemController) (k : Nat)
    (hr : Reachable s0)
    (h0 : s0.current_state = SystemState.INIT)
    (hacq : ∀ i, 1 ≤ i → i ≤ k →
      (SystemController.runSeq envs i s0).obd_manager_.getCurrentState ≠ OBDState.ERROR ∧
      (SystemController.runSeq envs i s0).obd_manager_.getCurrentState ≠ OBDState.COMPLETE)
    (hdone : (SystemController.runSeq envs (k + 1) s0).obd_manager_.getCurrentState
      = OBDState.COMPLETE)
    (hto : ∀ i, k + 1 ≤ i → i ≤ k + 4 →
      usub ((envs i).millis (SystemController.runSeq envs i s0).world.calls % WORD)
        (SystemController.runSeq envs i s0).state_start_time
        ≤ SystemController.CONNECTIVITY_TIMEOUT)
    (hwifi : (SystemController.runSeq envs (k + 2) s0).isWiFiConnected = true)
    (hmqtt : (SystemController.runSeq envs (k + 4) s0).isMQTTConnected = true)
    (hpto : usub ((envs (k + 5)).millis
        (SystemController.runSeq envs (k + 5) s0).world.calls % WORD)
        (SystemController.runSeq envs (k + 5) s0).state_start_time
        ≤ SystemController.PUBLISHING_TIMEOUT)
    (hpub : ∀ e ∈ (SystemController.runSeq envs (k + 6) s0).world.log.drop
        (SystemController.runSeq envs (k + 5) s0).world.log.length,
      e.publishOutcome = some PublishOutcome.ok) :
    (∀ i, i ≤ k + 7 → (SystemController.runSeq envs i s0).current_state = successPath k i) ∧
    (∃ ts : Payload,
      (SystemController.runSeq envs (k + 6) s0).world.log =
        (SystemController.runSeq envs (k + 5) s0).world.log ++
        [Event.publish (SystemController.runSeq envs (k + 5) s0).data_publisher_.topics_.status
           (Payload.text "CONNECTED") true PublishOutcome.ok,
         Event.publish (SystemController.runSeq envs (k + 5) s0).data_publisher_.topics_.soc
           (Payload.fixed
             (SystemController.runSeq envs (k + 5) s0).obd_manager_.getData.state_of_charge 2)
           true PublishOutcome.ok,
         Event.publish
           (SystemController.runSeq envs (k + 5) s0).data_publisher_.topics_.battery_temp
           (Payload.fixed
             (SystemController.runSeq envs (k + 5) s0).obd_manager_.getData.battery_temperature
             1) true PublishOutcome.ok,
         Event.publish
           (SystemController.runSeq envs (k + 5) s0).data_publisher_.topics_.battery_voltage
           (Payload.fixed
             (SystemController.runSeq envs (k + 5) s0).obd_manager_.getData.battery_voltage 2)
           true PublishOutcome.ok,
         Event.publish
           (SystemController.runSeq envs (k + 5) s0).data_publisher_.topics_.last_update
           ts true PublishOutcome.ok]) ∧
    (SystemController.runSeq envs (k + 6) s0).cycle_successful = true ∧
    (SystemController.runSeq envs (k + 7) s0).cycle_successful = true ∧
    (SystemController.runSeq envs (k + 7) s0).current_cycle_interval
      = s0.config_.normal_cycle_interval ∧
    ({} : Config).normal_cycle_interval = 300000 := by
  have reach : ∀ i, Reachable (SystemController.runSeq envs i s0) :=
    fun i => SystemController.reachable_runSeq envs i s0 hr
  have step : ∀ i, SystemController.runSeq envs (i + 1) s0
      = SystemController.update (envs i) (SystemController.runSeq envs i s0) := fun _ => rfl
  -- acquisition
  have hA : ∀ i, 1 ≤ i → i ≤ k →
      (SystemController.runSeq envs i s0).current_state = SystemState.OBD_READING := by
    intro i
    induction i with
    | zero => intro h; omega
    | succ n ih =>
      intro _ hle
      by_cases hn : n = 0
      · subst hn
        rw [step]
        show (SystemController.update (envs 0) s0).current_state = _
        rw [SystemController.update_init _ _ h0]
        exact SystemController.handleInit_state _ _
      · have hprev := ih (by omega) (by omega)
        have ha := hacq (n + 1) (by omega) hle
        have hobd : (SystemController.runSeq envs (n + 1) s0).obd_manager_ =
            ((SystemController.runSeq envs n s0).obd_manager_.update (envs n)
              (SystemController.runSeq envs n s0).world).1 := by
          rw [step, SystemController.update_reading _ _ hprev]
          exact SystemController.handleOBDReading_obd _ _
        rw [hobd] at ha
        rw [step]
        exact (SystemController.reading_stays (envs n) _ _ hprev rfl ha.2 ha.1).1
  have hk : 1 ≤ k := by
    by_contra hlt
    have hz : k = 0 := by omega
    subst hz
    have : (SystemController.runSeq envs 1 s0).obd_manager_.current_state = OBDState.SETUP := by
      rw [step]
      show (SystemController.update (envs 0) s0).obd_manager_.current_state = _
      rw [SystemController.update_init _ _ h0, (SystemController.handleInit_frame _ _).1]
      rfl
    rw [show (SystemController.runSeq envs (0 + 1) s0).obd_manager_.getCurrentState
      = OBDState.SETUP from this] at hdone
    exact OBDState.noConfusion hdone
  have sk := hA k hk (Nat.le_refl k)
  have hobd1 : (SystemController.runSeq envs (k + 1) s0).obd_manager_ =
      ((SystemController.runSeq envs k s0).obd_manager_.update (envs k)
        (SystemController.runSeq envs k s0).world).1 := by
    rw [step, SystemController.update_reading _ _ sk]
    exact SystemController.handleOBDReading_obd _ _
  have s1 : (SystemController.runSeq envs (k + 1) s0).current_state
      = SystemState.CONNECTIVITY_SETUP := by
    have hd : ((SystemController.runSeq envs k s0).obd_manager_.update (envs k)
        (SystemController.runSeq envs k s0).world).1.current_state = OBDState.COMPLETE := by
      rw [← hobd1]; exact hdone
    rw [step, SystemController.update_reading _ _ sk, SystemController.handleOBDReading_state,
      hd]
  have w1 : (SystemController.runSeq envs (k + 1) s0).connectivity_step
      = ConnectivityStep.SETUP_WIFI := by
    rw [step, SystemController.update_reading _ _ sk,
      (SystemController.handleOBDReading_frame _ _).2.1]
    exact (SystemController.reachable_cycleInv _ (reach k)).2.2 (by rw [sk]; decide)
  obtain ⟨⟨j1, j2, j3⟩, j4, _⟩ := SystemController.reachable_cycleInv _ (reach (k + 1))
  have z1 : (SystemController.runSeq envs (k + 1) s0).obd_manager_.car_connection_lost
      = false := by
    have hz := j2 (Or.inr (Or.inr hdone))
    cases hl : (SystemController.runSeq envs (k + 1) s0).obd_manager_.car_connection_lost
    · rfl
    · have := j1 hl
      omega
  have v1 : (SystemController.runSeq envs (k + 1) s0).obd_manager_.data.valid = true :=
    j3 hdone
  -- connectivity
  have frame : ∀ i, (SystemController.runSeq envs i s0).current_state
      = SystemState.CONNECTIVITY_SETUP →
      (SystemController.runSeq envs (i + 1) s0).obd_manager_
        = (SystemController.runSeq envs i s0).obd_manager_ := by
    intro i hi
    rw [step, SystemController.update_connectivity _ _ hi]
    exact (SystemController.handleConnectivitySetup_frame (envs i) _ hi).1
  have t2 : (SystemController.runSeq envs (k + 2) s0).current_state
        = SystemState.CONNECTIVITY_SETUP ∧
      (SystemController.runSeq envs (k + 2) s0).connectivity_step
        = ConnectivityStep.SETUP_NTP :=
    SystemController.connectivity_wifi_step (envs (k + 1)) _ s1 w1
      (hto (k + 1) (by omega) (by omega)) hwifi
  obtain ⟨s2, w2⟩ := t2
  have t3 : (SystemController.runSeq envs (k + 3) s0).current_state
        = SystemState.CONNECTIVITY_SETUP ∧
      (SystemController.runSeq envs (k + 3) s0).connectivity_step
        = ConnectivityStep.SETUP_MQTT :=
    SystemController.connectivity_ntp_step (envs (k + 2)) _ s2 w2
      (hto (k + 2) (by omega) (by omega))
  obtain ⟨s3, w3⟩ := t3
  have t4 : (SystemController.runSeq envs (k + 4) s0).current_state
        = SystemState.CONNECTIVITY_SETUP ∧
      (SystemController.runSeq envs (k + 4) s0).connectivity_step
        = ConnectivityStep.CONNECTIVITY_COMPLETE :=
    SystemController.connectivity_mqtt_step (envs (k + 3)) _ s3 w3
      (hto (k + 3) (by omega) (by omega)) hmqtt
  obtain ⟨s4, w4⟩ := t4
  have s5 : (SystemController.runSeq envs (k + 5) s0).current_state
      = SystemState.DATA_PUBLISHING :=
    SystemController.connectivity_complete_step (envs (k + 4)) _ s4 w4
      (hto (k + 4) (by omega) (by omega))
  have o5 : (SystemController.runSeq envs (k + 5) s0).obd_manager_
      = (SystemController.runSeq envs (k + 1) s0).obd_manager_ :=
    (frame (k + 4) s4).trans ((frame (k + 3) s3).trans ((frame (k + 2) s2).trans
      (frame (k + 1) s1)))
  -- publishing
  obtain ⟨o1, o2, o3, o4, o5', ts, p1, p2, _, _, p5⟩ :=
    SystemController.handleDataPublishing_linked (envs (k + 5))
      (SystemController.runSeq envs (k + 5) s0) hpto (by rw [o5]; exact z1)
      (by rw [o5]; exact v1)
  rw [← SystemController.update_publishing _ _ s5] at p1 p2 p5
  change (SystemController.runSeq envs (k + 6) s0).world.log = _ at p1
  change (SystemController.runSeq envs (k + 6) s0).cycle_successful = true ↔ _ at p2
  change (SystemController.runSeq envs (k + 6) s0).current_state = _ at p5
  have hall : o1 = PublishOutcome.ok ∧ o2 = PublishOutcome.ok ∧ o3 = PublishOutcome.ok ∧
      o4 = PublishOutcome.ok ∧ o5' = PublishOutcome.ok := by
    have hp := hpub
    rw [p1, List.drop_left] at hp
    simpa [Event.publishOutcome] using hp
  obtain ⟨q1, q2, q3, q4, q5⟩ := hall
  subst q1 q2 q3 q4 q5
  have c6 : (SystemController.runSeq envs (k + 6) s0).cycle_successful = true :=
    p2.mpr ⟨rfl, rfl, rfl, rfl, rfl⟩
  -- completion
  have s7 : (SystemController.runSeq envs (k + 7) s0).current_state = SystemState.WAITING := by
    rw [step, SystemController.update_complete _ _ p5]
    exact SystemController.handleCompleteCycle_state _ _
  have c7 : (SystemController.runSeq envs (k + 7) s0).cycle_successful = true := by
    rw [step, SystemController.update_complete _ _ p5,
      SystemController.handleCompleteCycle_success]
    exact c6
  have i7 : (SystemController.runSeq envs (k + 7) s0).current_cycle_interval
      = s0.config_.normal_cycle_interval := by
    rw [step, SystemController.update_complete _ _ p5,
      SystemController.handleCompleteCycle_interval, c6]
    simp [SystemController.runSeq_config]
  refine ⟨?_, ⟨ts, p1⟩, c6, c7, i7, rfl⟩
  intro i hi
  unfold successPath
  split_ifs with a b c d e
  · subst a; exact h0
  · exact hA i (by omega) b
  · have : i = k + 1 ∨ i = k + 2 ∨ i = k + 3 ∨ i = k + 4 := by omega
    rcases this with h | h | h | h <;> subst h
    · exact s1
    · exact s2
    · exact s3
    · exact s4
  · subst d; exact s5
  · subst e; exact p5
  · have : i = k + 7 := by omega
    subst this; exact s7

/-- Witness of C5: sixteen ticks from power-up with ideal collaborators (the acquisition
takes nine ticks after `INIT` and completes on the tenth). -/
theorem successful_cycle_witness :
    (SystemController.runSeq (fun _ => Env.ideal 0) 16 (SystemController.new {})).current_state
      = SystemState.WAITING ∧
    (SystemController.runSeq (fun _ => Env.ideal 0) 16
      (SystemController.new {})).cycle_successful = true ∧
    (SystemController.runSeq (fun _ => Env.ideal 0) 16
      (SystemController.new {})).current_cycle_interval = 300000 :=
  have h := successful_cycle (fun _ => Env.ideal 0) (SystemController.new {}) 9
    (Reachable.power_up {}) rfl
    (by intro i h1 h2; interval_cases i <;> decide)
    (by decide)
    (by intro i h1 h2; interval_cases i <;> decide)
    (by decide) (by decide) (by decide) (by decide)
  ⟨h.1 16 (by decide), h.2.2.2.1, h.2.2.2.2.1⟩


/-! ## Decoding of the responses -/

theorem shiftLeft_four_or (a b : Nat) (ha : a ≤ 15) (hb : b ≤ 15) :
    (a <<< 4) ||| b = 16 * a + b := by
  interval_cases a <;> interval_cases b <;> rfl

namespace OBDManager

theorem ctoi_le (value : Nat) : ctoi value ≤ 15 := by
  unfold ctoi
  simp only []
  split_ifs <;> omega

theorem hexPair_eq (m : OBDManager) (i : Nat) :
    m.hexPair i = 16 * ctoi (m.payloadAt i) + ctoi (m.payloadAt (i + 1)) := by
  unfold hexPair
  exact shiftLeft_four_or _ _ (ctoi_le _) (ctoi_le _)

/-- What a temperature step that returns true has stored. -/
theorem handleTempReading_success (env : Env) (m : OBDManager) (w : World)
    (h : (m.handleTempReading env w).2.2 = true) :
    (m.handleTempReading env w).1.data.battery_temperature =
      (((m.handleTempReading env w).1.hexPair 11 : Nat) : ℚ) - 40 ∧
    (m.handleTempReading env w).1.current_state = OBDState.READ_BATTERY_VOLTAGE ∧
    (m.handleTempReading env w).1.consecutive_bt_timeouts = m.consecutive_bt_timeouts ∧
    (m.handleTempReading env w).1.car_connection_lost = m.car_connection_lost := by
  unfold handleTempReading at h ⊢
  cases hq : m.temp_query_state
  · simp [hq] at h
  · simp only [hq] at h ⊢
    split_ifs at h ⊢
    exact ⟨rfl, rfl, rfl, rfl⟩

/-- What a state-of-charge step that returns true has stored. -/
theorem handleSOCReading_success (env : Env) (m : OBDManager) (w : World)
    (h : (m.handleSOCReading env w).2.2 = true) :
    (m.handleSOCReading env w).1.data.state_of_charge =
      ((((m.handleSOCReading env w).1.hexPair 11 +
        (m.handleSOCReading env w).1.hexPair 13 * 256 : Nat) : ℚ)) / 100 ∧
    (m.handleSOCReading env w).1.current_state = OBDState.READ_BATTERY_TEMP := by
  unfold handleSOCReading at h ⊢
  cases hq : m.soc_query_state
  · simp [hq] at h
  · simp only [hq] at h ⊢
    split_ifs at h ⊢
    refine ⟨?_, rfl⟩
    simp only [resetTimeoutCounter]
    split <;> rfl

/-- What a voltage step that returns true has stored. -/
theorem handleVoltageReading_success (env : Env) (m : OBDManager) (w : World)
    (h : (m.handleVoltageReading env w).2.2 = true) :
    (m.handleVoltageReading env w).1.data.battery_voltage =
      (((m.handleVoltageReading env w).1.hexPair 11 +
        (m.handleVoltageReading env w).1.hexPair 13 * 256 : Nat) : ℚ) ∧
    (m.handleVoltageReading env w).1.current_state = OBDState.COMPLETE ∧
    (m.handleVoltageReading env w).1.consecutive_bt_timeouts = m.consecutive_bt_timeouts ∧
    (m.handleVoltageReading env w).1.car_connection_lost = m.car_connection_lost := by
  unfold handleVoltageReading at h ⊢
  cases hq : m.voltage_query_state
  · simp [hq] at h
  · simp only [hq] at h ⊢
    split_ifs at h ⊢
    exact ⟨rfl, rfl, rfl, rfl⟩

end OBDManager

namespace Legacy.OBDManager

theorem charToInt_le (value : Nat) : charToInt value ≤ 15 := by
  unfold charToInt
  simp only []
  split_ifs <;> omega

theorem hexPair_sum (m : OBDManager) (i : Nat) :
    m.hexPair i = 16 * charToInt (m.payload.getD i 0) + charToInt (m.payload.getD (i + 1) 0) := by
  unfold hexPair
  exact shiftLeft_four_or _ _ (charToInt_le _) (charToInt_le _)

theorem awaitResponse_frame (env : Env) (startTime : Nat) (fuel : Nat) (m : OBDManager)
    (w : World) (b : Bool) (m2 : OBDManager) (w2 : World)
    (h : awaitResponse env startTime fuel m w = some (b, m2, w2)) :
    m2.connected = m.connected ∧ m2.consecutiveTimeouts = m.consecutiveTimeouts ∧
    m2.carConnectionLost = m.carConnectionLost ∧
    (b = false → m2.nb_rx_state ≠ RxState.ELM_GETTING_MSG) ∧
    (b = true → m2.nb_rx_state = RxState.ELM_GETTING_MSG) := by
  induction fuel generalizing m w with
  | zero => simp [awaitResponse] at h
  | succ n ih =>
    unfold awaitResponse at h
    by_cases h1 : m.nb_rx_state = RxState.ELM_GETTING_MSG
    · simp only [h1, if_true] at h
      by_cases h2 : usub (w.millis env).1 startTime > Timeouts.ELM_COMMAND
      · simp only [h2, if_true, Option.some.injEq, Prod.mk.injEq] at h
        obtain ⟨rfl, rfl, _⟩ := h
        exact ⟨rfl, rfl, rfl, by simp, fun _ => h1⟩
      · simp only [h2, if_false] at h
        obtain ⟨a1, a2, a3, a4, a5⟩ := ih _ _ h
        exact ⟨a1, a2, a3, a4, a5⟩
    · simp only [h1, if_false, Option.some.injEq, Prod.mk.injEq] at h
      obtain ⟨rfl, rfl, _⟩ := h
      exact ⟨rfl, rfl, rfl, fun _ => h1, by simp⟩

/-- The three ways a read of a connected manager ends: its wait timed out and
`handleTimeout(timeoutMsg)` ran; the response was a success and was decoded; or the
response was a failure and `handleTimeout(failedMsg)` ran. -/
theorem readWith_cases (cmd timeoutMsg failedMsg : String) (decode : OBDManager → ℚ)
    (resets : Bool) (env : Env) (fuel : Nat) (m : OBDManager) (w : World) (out : ℚ)
    (r : ReadResult) (hc : m.connected = true)
    (h : readWith cmd timeoutMsg failedMsg decode resets env fuel m w out = some r) :
    ∃ (m2 : OBDManager),
      m2.connected = m.connected ∧
      m2.consecutiveTimeouts = m.consecutiveTimeouts ∧
      m2.carConnectionLost = m.carConnectionLost ∧
      ((m2.nb_rx_state = RxState.ELM_GETTING_MSG ∧ r.ok = false ∧
          r.mgr = m2.handleTimeout timeoutMsg) ∨
       (m2.nb_rx_state = RxState.ELM_SUCCESS ∧ r.ok = true ∧
          r.value = decode m2 ∧ r.mgr = (if resets then m2.resetTimeoutCounter else m2)) ∨
       (m2.nb_rx_state ≠ RxState.ELM_SUCCESS ∧
          m2.nb_rx_state ≠ RxState.ELM_GETTING_MSG ∧ r.ok = false ∧
          r.mgr = m2.handleTimeout failedMsg)) := by
  unfold readWith at h
  have hn : (!m.connected) = false := by simp [hc]
  rw [hn] at h
  simp only [Bool.false_eq_true, if_false] at h
  split at h
  · simp at h
  · next m2 w2 heq =>
    obtain ⟨f1, f2, f3, _, f5⟩ := awaitResponse_frame env _ fuel _ _ _ m2 w2 heq
    simp only [Option.some.injEq] at h
    subst h
    exact ⟨m2, f1, f2, f3, Or.inl ⟨f5 rfl, rfl, rfl⟩⟩
  · next m2 w2 heq =>
    obtain ⟨f1, f2, f3, f4, _⟩ := awaitResponse_frame env _ fuel _ _ _ m2 w2 heq
    by_cases hs : m2.nb_rx_state = RxState.ELM_SUCCESS
    · rw [if_pos hs] at h
      simp only [Option.some.injEq] at h
      subst h
      exact ⟨m2, f1, f2, f3, Or.inr (Or.inl ⟨hs, rfl, rfl, rfl⟩)⟩
    · rw [if_neg hs] at h
      simp only [Option.some.injEq] at h
      subst h
      exact ⟨m2, f1, f2, f3, Or.inr (Or.inr ⟨hs, f4 rfl, rfl, rfl⟩)⟩

theorem readWith_disconnected (cmd timeoutMsg failedMsg : String) (decode : OBDManager → ℚ)
    (resets : Bool) (env : Env) (fuel : Nat) (m : OBDManager) (w : World) (out : ℚ)
    (hc : m.connected = false) :
    readWith cmd timeoutMsg failedMsg decode resets env fuel m w out
      = some { mgr := m, world := w, ok := false, value := out } := by
  unfold readWith
  simp [hc]

end Legacy.OBDManager

/-! ## Temperature decoding (C12) -/

/-- C12. A temperature step of the polled manager that succeeds stores
`16·h(payload[11]) + h(payload[12]) − 40`, with `h` the hex-digit value of `ctoi`; two
successful steps whose payloads agree at positions 11 and 12 store the same value; the
characters `'0'` (48) and `'5'` (53) give −35; and a successful `readBatteryTemperature` of
the blocking manager returns the same formula with `charToInt`. -/
theorem temperature_decoding (env : Env) (m : OBDManager) (w : World)
    (h : (m.handleTempReading env w).2.2 = true) :
    (m.handleTempReading env w).1.data.battery_temperature =
      ((16 * OBDManager.ctoi ((m.handleTempReading env w).1.payloadAt 11) +
        OBDManager.ctoi ((m.handleTempReading env w).1.payloadAt 12) : Nat) : ℚ) - 40 ∧
    ((m.handleTempReading env w).1.payloadAt 11 = 48 →
      (m.handleTempReading env w).1.payloadAt 12 = 53 →
      (m.handleTempReading env w).1.data.battery_temperature = -35) ∧
    (∀ (env2 : Env) (m2 : OBDManager) (w2 : World),
      (m2.handleTempReading env2 w2).2.2 = true →
      (m2.handleTempReading env2 w2).1.payloadAt 11 =
        (m.handleTempReading env w).1.payloadAt 11 →
      (m2.handleTempReading env2 w2).1.payloadAt 12 =
        (m.handleTempReading env w).1.payloadAt 12 →
      (m2.handleTempReading env2 w2).1.data.battery_temperature =
        (m.handleTempReading env w).1.data.battery_temperature) ∧
    (∀ (envL : Env) (fuel : Nat) (mL : Legacy.OBDManager) (wL : World) (out : ℚ)
        (r : Legacy.ReadResult),
      Legacy.OBDManager.readBatteryTemperature envL fuel mL wL out = some r →
      r.ok = true →
      r.value =
        ((16 * Legacy.OBDManager.charToInt (r.mgr.payload.getD 11 0) +
          Legacy.OBDManager.charToInt (r.mgr.payload.getD 12 0) : Nat) : ℚ) - 40) := by
  have key : ∀ (env : Env) (m : OBDManager) (w : World),
      (m.handleTempReading env w).2.2 = true →
      (m.handleTempReading env w).1.data.battery_temperature =
        ((16 * OBDManager.ctoi ((m.handleTempReading env w).1.payloadAt 11) +
          OBDManager.ctoi ((m.handleTempReading env w).1.payloadAt 12) : Nat) : ℚ) - 40 := by
    intro env m w h
    rw [(OBDManager.handleTempReading_success env m w h).1, OBDManager.hexPair_eq]
  refine ⟨key env m w h, ?_, ?_, ?_⟩
  · intro h11 h12
    rw [key env m w h, h11, h12]
    have e1 : OBDManager.ctoi 48 = 0 := by decide
    have e2 : OBDManager.ctoi 53 = 5 := by decide
    rw [e1, e2]
    norm_num
  · intro env2 m2 w2 h2 h11 h12
    rw [key env m w h, key env2 m2 w2 h2, h11, h12]
  · intro envL fuel mL wL out r hr hok
    cases hc : mL.connected
    · have hd := Legacy.OBDManager.readWith_disconnected OBD.CMD_TEMP
        ErrorMessages.TEMP_TIMEOUT ErrorMessages.TEMP_FAILED
        (fun m => ((m.hexPair 11 : Nat) : ℚ) - 40) false envL fuel mL wL out hc
      unfold Legacy.OBDManager.readBatteryTemperature at hr
      rw [hd] at hr
      simp only [Option.some.injEq] at hr
      subst hr
      exact absurd hok (by simp)
    · obtain ⟨m2, _, _, _, hcase⟩ := Legacy.OBDManager.readWith_cases OBD.CMD_TEMP
        ErrorMessages.TEMP_TIMEOUT ErrorMessages.TEMP_FAILED
        (fun m => ((m.hexPair 11 : Nat) : ℚ) - 40) false envL fuel mL wL out r hc hr
      rcases hcase with ⟨_, hf, _⟩ | ⟨_, _, hv, hm⟩ | ⟨_, _, hf, _⟩
      · rw [hf] at hok
        exact absurd hok (by simp)
      · simp only [Bool.false_eq_true, if_false] at hm
        rw [hv, hm, Legacy.OBDManager.hexPair_sum]
      · rw [hf] at hok
        exact absurd hok (by simp)

/-- Witness of C12: the polled manager awaiting the temperature response, the adapter
answering `7EF0462003205` (characters `0`, `5` at positions 11 and 12); the connected
blocking manager reads −35 from the same answer. -/
theorem temperature_decoding_witness :
    ((OBDManager.awaiting OBDState.READ_BATTERY_TEMP).handleTempReading
        (Env.answering coldPayload 0) {}).2.2 = true ∧
    ((OBDManager.awaiting OBDState.READ_BATTERY_TEMP).handleTempReading
        (Env.answering coldPayload 0) {}).1.data.battery_temperature = -35 ∧
    (Legacy.OBDManager.readBatteryTemperature (Env.answering coldPayload 0) 2
        { connected := true } {} 0).map (fun r => (r.ok, r.value)) = some (true, -35) :=
  ⟨by decide,
   (temperature_decoding (Env.answering coldPayload 0)
      (OBDManager.awaiting OBDState.READ_BATTERY_TEMP) {} (by decide)).2.1
      (by decide) (by decide),
   by decide!⟩

/-! ## Two-byte decoding (C13) -/

/-- A blocking read that returns true has decoded the payload it leaves behind. -/
theorem Legacy.OBDManager.readWith_ok (cmd timeoutMsg failedMsg : String)
    (decode : Legacy.OBDManager → ℚ) (resets : Bool) (env : Env) (fuel : Nat)
    (m : Legacy.OBDManager) (w : World) (out : ℚ) (r : Legacy.ReadResult)
    (h : Legacy.OBDManager.readWith cmd timeoutMsg failedMsg decode resets env fuel m w out
      = some r)
    (hok : r.ok = true) :
    ∃ m2 : Legacy.OBDManager, r.value = decode m2 ∧ r.mgr.payload = m2.payload ∧
      m2.nb_rx_state = RxState.ELM_SUCCESS ∧
      r.mgr = (if resets then m2.resetTimeoutCounter else m2) := by
  cases hc : m.connected
  · rw [Legacy.OBDManager.readWith_disconnected cmd timeoutMsg failedMsg decode resets env
      fuel m w out hc] at h
    simp only [Option.some.injEq] at h
    subst h
    exact absurd hok (by simp)
  · obtain ⟨m2, _, _, _, hcase⟩ := Legacy.OBDManager.readWith_cases cmd timeoutMsg failedMsg
      decode resets env fuel m w out r hc h
    rcases hcase with ⟨_, hf, _⟩ | ⟨hs, _, hv, hm⟩ | ⟨_, _, hf, _⟩
    · rw [hf] at hok
      exact absurd hok (by simp)
    · refine ⟨m2, hv, ?_, hs, hm⟩
      rw [hm]
      cases resets
      · rfl
      · simp only [if_true, Legacy.OBDManager.resetTimeoutCounter]
        split <;> rfl
    · rw [hf] at hok
      exact absurd hok (by simp)

/-- Refutation of C13 as stated: the adapter answers `7EF056200081027`, whose first hex
pair is `10` (A = 16) and whose second is `27` (B = 39).  The stored state of charge is
100 = (16 + 256·39)/100 and the stored voltage is 10000, not the big-endian
(256·16 + 39)/100 = 41.35 and 4135; the blocking manager's charge counter is 10000 too. -/
theorem big_endian_decoding_refuted :
    ((OBDManager.awaiting OBDState.READ_SOC).handleSOCReading
        (Env.answering twoBytePayload 0) {}).2.2 = true ∧
    ((OBDManager.awaiting OBDState.READ_SOC).handleSOCReading
        (Env.answering twoBytePayload 0) {}).1.hexPair 11 = 16 ∧
    ((OBDManager.awaiting OBDState.READ_SOC).handleSOCReading
        (Env.answering twoBytePayload 0) {}).1.hexPair 13 = 39 ∧
    ((OBDManager.awaiting OBDState.READ_SOC).handleSOCReading
        (Env.answering twoBytePayload 0) {}).1.data.state_of_charge = 100 ∧
    ((OBDManager.awaiting OBDState.READ_SOC).handleSOCReading
        (Env.answering twoBytePayload 0) {}).1.data.state_of_charge
      ≠ ((256 * 16 + 39 : Nat) : ℚ) / 100 ∧
    ((OBDManager.awaiting OBDState.READ_BATTERY_VOLTAGE).handleVoltageReading
        (Env.answering twoBytePayload 0) {}).2.2 = true ∧
    ((OBDManager.awaiting OBDState.READ_BATTERY_VOLTAGE).handleVoltageReading
        (Env.answering twoBytePayload 0) {}).1.data.battery_voltage = 10000 ∧
    ((OBDManager.awaiting OBDState.READ_BATTERY_VOLTAGE).handleVoltageReading
        (Env.answering twoBytePayload 0) {}).1.data.battery_voltage
      ≠ ((256 * 16 + 39 : Nat) : ℚ) ∧
    (Legacy.OBDManager.readTotalCharges (Env.answering twoBytePayload 0) 2
        { connected := true } {} 0).map (fun r => (r.ok, r.value)) = some (true, 10000) := by
  refine ⟨by decide, by decide, by decide, by decide!, by decide!, by decide, by decide!,
    by decide!, by decide!⟩


theorem Legacy.OBDManager.hexPair_congr (m1 m2 : Legacy.OBDManager) (i : Nat)
    (h : m1.payload = m2.payload) : m1.hexPair i = m2.hexPair i := by
  unfold Legacy.OBDManager.hexPair
  rw [h]

/-- C13 (amended). The two payload bytes are combined little-endian.  With `A` the byte
decoded from payload[11..12] (`hexPair 11`) and `B` the byte decoded from payload[13..14]
(`hexPair 13`), the raw value is `A + 256·B`: a successful state-of-charge step stores
raw/100 and a successful voltage step stores raw (polled manager); a successful
`readStateOfCharge` returns raw/100 and successful `readBatteryVoltage`,
`readTotalCharges`, `readTotalKwhCharged`, `readTotalKwhDischarged` return raw (blocking
manager).  `hexPair i` is `16·h(payload[i]) + h(payload[i+1])`. -/
theorem little_endian_decoding (env : Env) (m : OBDManager) (w : World)
    (h : (m.handleSOCReading env w).2.2 = true) :
    (m.handleSOCReading env w).1.data.state_of_charge =
      (((m.handleSOCReading env w).1.hexPair 11 +
        256 * (m.handleSOCReading env w).1.hexPair 13 : Nat) : ℚ) / 100 ∧
    (∀ (env2 : Env) (m2 : OBDManager) (w2 : World),
      (m2.handleVoltageReading env2 w2).2.2 = true →
      (m2.handleVoltageReading env2 w2).1.data.battery_voltage =
        (((m2.handleVoltageReading env2 w2).1.hexPair 11 +
          256 * (m2.handleVoltageReading env2 w2).1.hexPair 13 : Nat) : ℚ)) ∧
    (∀ (envL : Env) (fuel : Nat) (mL : Legacy.OBDManager) (wL : World) (out : ℚ)
        (r : Legacy.ReadResult), r.ok = true →
      (Legacy.OBDManager.readStateOfCharge envL fuel mL wL out = some r →
        r.value = ((r.mgr.hexPair 11 + 256 * r.mgr.hexPair 13 : Nat) : ℚ) / 100) ∧
      (Legacy.OBDManager.readBatteryVoltage envL fuel mL wL out = some r →
        r.value = ((r.mgr.hexPair 11 + 256 * r.mgr.hexPair 13 : Nat) : ℚ)) ∧
      (Legacy.OBDManager.readTotalCharges envL fuel mL wL out = some r →
        r.value = ((r.mgr.hexPair 11 + 256 * r.mgr.hexPair 13 : Nat) : ℚ)) ∧
      (Legacy.OBDManager.readTotalKwhCharged envL fuel mL wL out = some r →
        r.value = ((r.mgr.hexPair 11 + 256 * r.mgr.hexPair 13 : Nat) : ℚ)) ∧
      (Legacy.OBDManager.readTotalKwhDischarged envL fuel mL wL out = some r →
        r.value = ((r.mgr.hexPair 11 + 256 * r.mgr.hexPair 13 : Nat) : ℚ))) ∧
    (∀ (m3 : OBDManager) (i : Nat),
      m3.hexPair i = 16 * OBDManager.ctoi (m3.payloadAt i) +
        OBDManager.ctoi (m3.payloadAt (i + 1))) ∧
    (∀ (m4 : Legacy.OBDManager) (i : Nat),
      m4.hexPair i = 16 * Legacy.OBDManager.charToInt (m4.payload.getD i 0) +
        Legacy.OBDManager.charToInt (m4.payload.getD (i + 1) 0)) := by
  have L : ∀ (cmd t f : String) (resets : Bool) (envL : Env) (fuel : Nat)
      (mL : Legacy.OBDManager) (wL : World) (out : ℚ) (r : Legacy.ReadResult),
      Legacy.OBDManager.readWith cmd t f
        (fun m => ((m.hexPair 11 + m.hexPair 13 * 256 : Nat) : ℚ)) resets envL fuel mL wL out
        = some r → r.ok = true →
      r.value = ((r.mgr.hexPair 11 + 256 * r.mgr.hexPair 13 : Nat) : ℚ) := by
    intro cmd t f resets envL fuel mL wL out r hr hok
    obtain ⟨m2, hv, hp, _, _⟩ := Legacy.OBDManager.readWith_ok cmd t f _ resets envL fuel mL
      wL out r hr hok
    rw [hv, Legacy.OBDManager.hexPair_congr r.mgr m2 11 hp,
      Legacy.OBDManager.hexPair_congr r.mgr m2 13 hp, Nat.mul_comm]
  refine ⟨?_, ?_, ?_, OBDManager.hexPair_eq, Legacy.OBDManager.hexPair_sum⟩
  · rw [(OBDManager.handleSOCReading_success env m w h).1, Nat.mul_comm]
  · intro env2 m2 w2 h2
    rw [(OBDManager.handleVoltageReading_success env2 m2 w2 h2).1, Nat.mul_comm]
  · intro envL fuel mL wL out r hok
    refine ⟨?_, fun hr => L _ _ _ _ envL fuel mL wL out r hr hok,
      fun hr => L _ _ _ _ envL fuel mL wL out r hr hok,
      fun hr => L _ _ _ _ envL fuel mL wL out r hr hok,
      fun hr => L _ _ _ _ envL fuel mL wL out r hr hok⟩
    intro hr
    obtain ⟨m2, hv, hp, _, _⟩ := Legacy.OBDManager.readWith_ok _ _ _ _ _ envL fuel mL
      wL out r hr hok
    rw [hv, Legacy.OBDManager.hexPair_congr r.mgr m2 11 hp,
      Legacy.OBDManager.hexPair_congr r.mgr m2 13 hp, Nat.mul_comm]

/-- Witness of C13 (amended): the polled manager awaiting the state-of-charge response,
the adapter answering `7EF056200081027`. -/
theorem little_endian_decoding_witness :
    ((OBDManager.awaiting OBDState.READ_SOC).handleSOCReading
        (Env.answering twoBytePayload 0) {}).2.2 = true ∧
    ((OBDManager.awaiting OBDState.READ_SOC).handleSOCReading
        (Env.answering twoBytePayload 0) {}).1.data.state_of_charge =
      ((((OBDManager.awaiting OBDState.READ_SOC).handleSOCReading
          (Env.answering twoBytePayload 0) {}).1.hexPair 11 +
        256 * ((OBDManager.awaiting OBDState.READ_SOC).handleSOCReading
          (Env.answering twoBytePayload 0) {}).1.hexPair 13 : Nat) : ℚ) / 100 :=
  ⟨by decide,
   (little_endian_decoding (Env.answering twoBytePayload 0)
      (OBDManager.awaiting OBDState.READ_SOC) {} (by decide)).1⟩

/-! ## The streak invariant of the acquisition manager (C14) -/

theorem OBDManager.resetTimeoutCounter_streakInv (m : OBDManager) (h : m.StreakInv) :
    m.resetTimeoutCounter.StreakInv := by
  unfold OBDManager.StreakInv at *
  unfold OBDManager.resetTimeoutCounter
  split
  · exact ⟨fun hl => absurd hl (by simp), fun _ => rfl, h.2.2⟩
  · exact h

theorem OBDManager.reach_streakInv (m : OBDManager) (h : m.Reach) : m.StreakInv := by
  induction h with
  | constructed =>
    unfold OBDManager.StreakInv
    exact ⟨fun hl => absurd hl (by decide), fun _ => rfl, fun hc => absurd hc (by decide)⟩
  | initialise m _ ih => exact OBDManager.initialise_streakInv m ih
  | update env w m _ ih => exact OBDManager.update_streakInv env m w ih
  | disconnect w m _ ih => exact OBDManager.disconnect_streakInv m w ih
  | resetTimeoutCounter m _ ih => exact OBDManager.resetTimeoutCounter_streakInv m ih

/-- C14. In every state of the polled acquisition manager reachable from construction by
`initialize()`, `update()`, `disconnect()` and `resetTimeoutCounter()`, under any adapter
responses and clock values, `hasConnectionLost()` implies a streak of at least
`MAX_CONSECUTIVE_BT_TIMEOUTS` = 2.  The two operations of the blocking manager that write
the pair, `handleTimeout` and `resetTimeoutCounter`, preserve the same implication. -/
theorem lost_implies_threshold (m : OBDManager) (hr : m.Reach)
    (hl : m.hasConnectionLost = true) :
    OBDManager.MAX_CONSECUTIVE_BT_TIMEOUTS ≤ m.consecutive_bt_timeouts ∧
    OBDManager.MAX_CONSECUTIVE_BT_TIMEOUTS = 2 ∧
    (∀ (l : Legacy.OBDManager) (msg : String),
      (l.carConnectionLost = true → OBD.MAX_BT_TIMEOUTS ≤ l.consecutiveTimeouts) →
      ((l.handleTimeout msg).carConnectionLost = true →
        OBD.MAX_BT_TIMEOUTS ≤ (l.handleTimeout msg).consecutiveTimeouts) ∧
      (l.resetTimeoutCounter.carConnectionLost = true →
        OBD.MAX_BT_TIMEOUTS ≤ l.resetTimeoutCounter.consecutiveTimeouts)) := by
  refine ⟨(OBDManager.reach_streakInv m hr).1 hl, rfl, ?_⟩
  intro l msg hinv
  constructor
  · unfold Legacy.OBDManager.handleTimeout
    by_cases h1 : strstr msg "TIMEOUT" = true
    · simp only [h1, if_true]
      by_cases h2 : l.consecutiveTimeouts + 1 ≥ OBD.MAX_BT_TIMEOUTS
      · rw [if_pos h2]
        intro _
        exact h2
      · rw [if_neg h2]
        intro h
        exact absurd (Nat.le_succ_of_le (hinv h)) h2
    · simp only [h1, if_false]
      exact hinv
  · unfold Legacy.OBDManager.resetTimeoutCounter
    split_ifs with h1
    · intro h
      exact absurd h (by simp)
    · exact hinv

/-- Witness of C14: two acquisition attempts in a row with the BLE connect refused. -/
theorem lost_implies_threshold_witness :
    (((((({} : OBDManager).initialise.1.update (Env.bleDown 0) {}).1.update
      (Env.bleDown 0) {}).1.initialise.1.update (Env.bleDown 0) {}).1.update
      (Env.bleDown 0) {}).1).hasConnectionLost = true ∧
    OBDManager.MAX_CONSECUTIVE_BT_TIMEOUTS ≤
      (((((({} : OBDManager).initialise.1.update (Env.bleDown 0) {}).1.update
        (Env.bleDown 0) {}).1.initialise.1.update (Env.bleDown 0) {}).1.update
        (Env.bleDown 0) {}).1).consecutive_bt_timeouts :=
  ⟨by decide,
   (lost_implies_threshold _
      (OBDManager.Reach.update _ _ _ (OBDManager.Reach.update _ _ _
        (OBDManager.Reach.initialise _ (OBDManager.Reach.update _ _ _
          (OBDManager.Reach.update _ _ _
            (OBDManager.Reach.initialise _ OBDManager.Reach.constructed))))))
      (by decide)).1⟩

/-! ## What changes the failure streak (C15) -/

namespace OBDManager

theorem handleTimeout_transport (m : OBDManager) (w : World) (e : String)
    (hb : isBluetoothTimeoutError e = true) :
    (m.handleTimeout w e).1.current_state = OBDState.ERROR ∧
    (m.handleTimeout w e).1.last_error = e ∧
    (m.handleTimeout w e).1.consecutive_bt_timeouts = m.consecutive_bt_timeouts + 1 ∧
    (m.handleTimeout w e).1.car_connection_lost =
      (decide (MAX_CONSECUTIVE_BT_TIMEOUTS ≤ m.consecutive_bt_timeouts + 1)
        || m.car_connection_lost) ∧
    (m.handleTimeout w e).1.obd_connected = false := by
  rw [handleTimeout_fst]
  refine ⟨rfl, rfl, ?_, ?_, rfl⟩
  · simp [hb]
  · by_cases hc : MAX_CONSECUTIVE_BT_TIMEOUTS ≤ m.consecutive_bt_timeouts + 1
    · simp [hb, hc]
    · simp [hb, hc]

theorem handleTimeout_protocol (m : OBDManager) (w : World) (e : String)
    (hb : isBluetoothTimeoutError e = false) :
    (m.handleTimeout w e).1.current_state = OBDState.ERROR ∧
    (m.handleTimeout w e).1.last_error = e ∧
    (m.handleTimeout w e).1.consecutive_bt_timeouts = 0 ∧
    (m.handleTimeout w e).1.car_connection_lost = false ∧
    (m.handleTimeout w e).1.obd_connected = false := by
  rw [handleTimeout_fst]
  refine ⟨rfl, rfl, ?_, ?_, rfl⟩
  · simp [hb]
  · simp [hb]

theorem streakStep_transport (m m0 : OBDManager) (w : World) (e : String)
    (hb : isBluetoothTimeoutError e = true)
    (h1 : m0.consecutive_bt_timeouts = m.consecutive_bt_timeouts)
    (h2 : m0.car_connection_lost = m.car_connection_lost)
    (n : OBDManager)
    (hn1 : n.current_state = (m0.handleTimeout w e).1.current_state)
    (hn2 : n.last_error = (m0.handleTimeout w e).1.last_error)
    (hn3 : n.consecutive_bt_timeouts = (m0.handleTimeout w e).1.consecutive_bt_timeouts)
    (hn4 : n.car_connection_lost = (m0.handleTimeout w e).1.car_connection_lost) :
    StreakStep m n := by
  obtain ⟨a, b, c, d, _⟩ := handleTimeout_transport m0 w e hb
  refine Or.inr (Or.inl ⟨?_, ?_, ?_, ?_⟩)
  · rw [hn1, a]
  · rw [hn2, b, hb]
  · rw [hn3, c, h1]
  · rw [hn4, d, h1, h2]

theorem streakStep_protocol (m m0 : OBDManager) (w : World) (e : String)
    (hb : isBluetoothTimeoutError e = false)
    (he : e = "SOC_READ_FAILED" ∨ e = "TEMP_READ_FAILED" ∨ e = "VOLTAGE_READ_FAILED") :
    StreakStep m (m0.handleTimeout w e).1 := by
  obtain ⟨a, b, c, d, _⟩ := handleTimeout_protocol m0 w e hb
  refine Or.inr (Or.inr (Or.inr ⟨a, ?_, c, d⟩))
  rw [b]
  exact he

theorem handleSetupStep_streakStep (env : Env) (m : OBDManager) (w : World) :
    StreakStep m (m.handleSetupStep env w).1 := by
  unfold handleSetupStep
  cases m.setup_substep <;> simp only []
  · exact Or.inl ⟨rfl, rfl⟩
  · split
    · exact streakStep_transport m m _ "ELM_BLE_CONNECTION_TIMEOUT" (by decide) rfl rfl _
        rfl rfl rfl rfl
    · exact Or.inl ⟨rfl, rfl⟩
  · split
    · split
      · exact streakStep_transport m m _ "ELM_INIT_TIMEOUT" (by decide) rfl rfl _
          rfl rfl rfl rfl
      · exact Or.inl ⟨rfl, rfl⟩
    · exact Or.inl ⟨rfl, rfl⟩

theorem handleSOCReading_streakStep (env : Env) (m : OBDManager) (w : World)
    (h : m.StreakInv) (hs : m.current_state = OBDState.READ_SOC) :
    StreakStep m (m.handleSOCReading env w).1 := by
  unfold handleSOCReading
  cases m.soc_query_state <;> simp only []
  · exact Or.inl ⟨rfl, rfl⟩
  · split
    · exact streakStep_transport m m _ "SOC_READ_TIMEOUT" (by decide) rfl rfl _
        rfl rfl rfl rfl
    · split
      · obtain ⟨a, b, _⟩ := resetTimeoutCounter_streak
          { (m.get_response env (w.millis env).2).1 with
            data := { (m.get_response env (w.millis env).2).1.data with
              state_of_charge :=
                (((m.get_response env (w.millis env).2).1.hexPair 11 +
                  (m.get_response env (w.millis env).2).1.hexPair 13 * 256 : Nat) : ℚ) / 100 } }
          h.1
        exact Or.inr (Or.inr (Or.inl ⟨hs, rfl, a, b⟩))
      · split
        · exact streakStep_protocol m _ _ "SOC_READ_FAILED" (by decide) (Or.inl rfl)
        · exact Or.inl ⟨rfl, rfl⟩

theorem handleTempReading_streakStep (env : Env) (m : OBDManager) (w : World) :
    StreakStep m (m.handleTempReading env w).1 := by
  unfold handleTempReading
  cases m.temp_query_state <;> simp only []
  · exact Or.inl ⟨rfl, rfl⟩
  · split
    · exact streakStep_transport m m _ "TEMP_READ_TIMEOUT" (by decide) rfl rfl _
        rfl rfl rfl rfl
    · split
      · exact Or.inl ⟨rfl, rfl⟩
      · split
        · exact streakStep_protocol m _ _ "TEMP_READ_FAILED" (by decide) (Or.inr (Or.inl rfl))
        · exact Or.inl ⟨rfl, rfl⟩

theorem handleVoltageReading_streakStep (env : Env) (m : OBDManager) (w : World) :
    StreakStep m (m.handleVoltageReading env w).1 := by
  unfold handleVoltageReading
  cases m.voltage_query_state <;> simp only []
  · exact Or.inl ⟨rfl, rfl⟩
  · split
    · exact streakStep_transport m m _ "VOLTAGE_READ_TIMEOUT" (by decide) rfl rfl _
        rfl rfl rfl rfl
    · split
      · exact Or.inl ⟨rfl, rfl⟩
      · split
        · exact streakStep_protocol m _ _ "VOLTAGE_READ_FAILED" (by decide)
            (Or.inr (Or.inr rfl))
        · exact Or.inl ⟨rfl, rfl⟩

theorem update_streakStep (env : Env) (m : OBDManager) (w : World) (h : m.StreakInv) :
    StreakStep m (m.update env w).1 := by
  unfold update
  cases hs : m.current_state <;> simp only []
  · exact handleSetupStep_streakStep env m w
  · exact handleSOCReading_streakStep env m w h hs
  · exact handleTempReading_streakStep env m w
  · exact handleVoltageReading_streakStep env m w
  · exact Or.inl ⟨rfl, rfl⟩
  · exact Or.inl ⟨rfl, rfl⟩

end OBDManager


theorem OBDManager.reach_run (envs : List Env) (m : OBDManager) (w : World) (h : m.Reach) :
    (OBDManager.run envs m w).1.Reach := by
  unfold OBDManager.run
  induction envs generalizing m w with
  | nil => exact h
  | cons env rest ih =>
    rw [List.foldl_cons]
    exact ih _ _ (OBDManager.Reach.update env w m h)

theorem OBDManager.lostThenAwaitingSOC_reach : OBDManager.lostThenAwaitingSOC.1.Reach :=
  OBDManager.reach_run _ _ _ (OBDManager.Reach.initialise _
    (OBDManager.reach_run _ _ _ (OBDManager.Reach.initialise _
      (OBDManager.reach_run _ _ _
        (OBDManager.Reach.initialise _ OBDManager.Reach.constructed)))))

/-- Refutation of C15 as stated: the polled manager, after two refused BLE attempts
(streak 2, link reported lost), reaches the state-of-charge query in a third attempt and
the adapter answers with an error response.  The step classifies it as
`SOC_READ_FAILED`, and the streak is 0 and the link no longer reported lost, although no
read has succeeded. -/
theorem protocol_error_clears_streak :
    OBDManager.lostThenAwaitingSOC.1.getCurrentState = OBDState.READ_SOC ∧
    OBDManager.lostThenAwaitingSOC.1.consecutive_bt_timeouts = 2 ∧
    OBDManager.lostThenAwaitingSOC.1.hasConnectionLost = true ∧
    OBDManager.lostThenAwaitingSOC.1.getData.valid = false ∧
    (OBDManager.lostThenAwaitingSOC.1.update (Env.protocolError 0)
      OBDManager.lostThenAwaitingSOC.2).1.getCurrentState = OBDState.ERROR ∧
    (OBDManager.lostThenAwaitingSOC.1.update (Env.protocolError 0)
      OBDManager.lostThenAwaitingSOC.2).1.getLastError = "SOC_READ_FAILED" ∧
    (OBDManager.lostThenAwaitingSOC.1.update (Env.protocolError 0)
      OBDManager.lostThenAwaitingSOC.2).1.consecutive_bt_timeouts = 0 ∧
    (OBDManager.lostThenAwaitingSOC.1.update (Env.protocolError 0)
      OBDManager.lostThenAwaitingSOC.2).1.hasConnectionLost = false := by
  decide

/-- C15 (amended). In every reachable state of the polled manager one `update()` changes
the streak and the lost-link flag in one of four ways only: not at all; by a transport
timeout (state ERROR, timeout-named last error, streak + 1, flag set once the streak
reaches 2 and otherwise kept); by a state-of-charge success (streak 0, flag cleared); or
by a protocol error (state ERROR, last error `SOC_/TEMP_/VOLTAGE_READ_FAILED`), which
resets the streak to 0 and clears the flag as well.  So a flag that is set is cleared
only by a state-of-charge success or by a protocol error.  `handleTimeout` with any of
the three `*_READ_FAILED` names gives streak 0 and flag false whatever they were; in the
blocking manager `handleTimeout` with these names changes nothing. -/
theorem streak_changes (env : Env) (m : OBDManager) (w : World) (hr : m.Reach) :
    (((m.update env w).1.consecutive_bt_timeouts = m.consecutive_bt_timeouts ∧
        (m.update env w).1.car_connection_lost = m.car_connection_lost) ∨
      ((m.update env w).1.current_state = OBDState.ERROR ∧
        OBDManager.isBluetoothTimeoutError (m.update env w).1.last_error = true ∧
        (m.update env w).1.consecutive_bt_timeouts = m.consecutive_bt_timeouts + 1 ∧
        (m.update env w).1.car_connection_lost =
          (decide (OBDManager.MAX_CONSECUTIVE_BT_TIMEOUTS ≤ m.consecutive_bt_timeouts + 1)
            || m.car_connection_lost)) ∨
      (m.current_state = OBDState.READ_SOC ∧
        (m.update env w).1.current_state = OBDState.READ_BATTERY_TEMP ∧
        (m.update env w).1.consecutive_bt_timeouts = 0 ∧
        (m.update env w).1.car_connection_lost = false) ∨
      ((m.update env w).1.current_state = OBDState.ERROR ∧
        ((m.update env w).1.last_error = "SOC_READ_FAILED" ∨
          (m.update env w).1.last_error = "TEMP_READ_FAILED" ∨
          (m.update env w).1.last_error = "VOLTAGE_READ_FAILED") ∧
        (m.update env w).1.consecutive_bt_timeouts = 0 ∧
        (m.update env w).1.car_connection_lost = false)) ∧
    (m.hasConnectionLost = true → (m.update env w).1.hasConnectionLost = false →
      (m.current_state = OBDState.READ_SOC ∧
        (m.update env w).1.current_state = OBDState.READ_BATTERY_TEMP) ∨
      ((m.update env w).1.current_state = OBDState.ERROR ∧
        ((m.update env w).1.last_error = "SOC_READ_FAILED" ∨
          (m.update env w).1.last_error = "TEMP_READ_FAILED" ∨
          (m.update env w).1.last_error = "VOLTAGE_READ_FAILED"))) ∧
    (∀ (m2 : OBDManager) (w2 : World) (e : String),
      e = "SOC_READ_FAILED" ∨ e = "TEMP_READ_FAILED" ∨ e = "VOLTAGE_READ_FAILED" →
      (m2.handleTimeout w2 e).1.consecutive_bt_timeouts = 0 ∧
      (m2.handleTimeout w2 e).1.car_connection_lost = false) ∧
    (∀ (l : Legacy.OBDManager) (e : String),
      e = ErrorMessages.SOC_FAILED ∨ e = ErrorMessages.TEMP_FAILED ∨
        e = ErrorMessages.VOLTAGE_FAILED →
      l.handleTimeout e = l) := by
  have step : OBDManager.StreakStep m (m.update env w).1 :=
    OBDManager.update_streakStep env m w (OBDManager.reach_streakInv m hr)
  refine ⟨step, ?_, ?_, ?_⟩
  · intro hl hn
    unfold OBDManager.hasConnectionLost at hl hn
    rcases step with ⟨_, b⟩ | ⟨_, _, _, d⟩ | ⟨a, b, _, _⟩ | ⟨a, b, _, _⟩
    · rw [b, hl] at hn
      exact Bool.noConfusion hn
    · rw [d, hl, Bool.or_true] at hn
      exact Bool.noConfusion hn
    · exact Or.inl ⟨a, b⟩
    · exact Or.inr ⟨a, b⟩
  · intro m2 w2 e he
    have hb : OBDManager.isBluetoothTimeoutError e = false := by
      rcases he with rfl | rfl | rfl <;> decide
    obtain ⟨_, _, c, d, _⟩ := OBDManager.handleTimeout_protocol m2 w2 e hb
    exact ⟨c, d⟩
  · intro l e he
    have hb : strstr e "TIMEOUT" = false := by
      rcases he with rfl | rfl | rfl <;> decide
    unfold Legacy.OBDManager.handleTimeout
    simp [hb]

/-- Witness of C15 (amended): the reachable manager of the refutation. -/
theorem streak_changes_witness :
    OBDManager.lostThenAwaitingSOC.1.Reach ∧
    OBDManager.StreakStep OBDManager.lostThenAwaitingSOC.1
      (OBDManager.lostThenAwaitingSOC.1.update (Env.protocolError 0)
        OBDManager.lostThenAwaitingSOC.2).1 :=
  ⟨OBDManager.lostThenAwaitingSOC_reach,
   (streak_changes (Env.protocolError 0) OBDManager.lostThenAwaitingSOC.1
      OBDManager.lostThenAwaitingSOC.2 OBDManager.lostThenAwaitingSOC_reach).1⟩

/-! ## Transport failures of the polled manager (C16) -/

/-- C16. In the polled manager each transport failure seen by `update()` — the BLE
connect refused; the adapter still not ready more than 15000 ms after the initialisation
began; a state-of-charge, temperature or voltage response still awaited more than
10000 ms after its command was sent — increases the streak by exactly 1, sets the last
error to the matching name, leaves `isConnected()` false and puts the machine in ERROR. -/
theorem transport_failure_effects (env : Env) (m : OBDManager) (w : World) :
    (m.current_state = OBDState.SETUP → m.setup_substep = SetupSubstep.BLE_CONNECTING →
      env.bleConnect w.calls = false →
      (m.update env w).1.consecutive_bt_timeouts = m.consecutive_bt_timeouts + 1 ∧
      (m.update env w).1.getLastError = "ELM_BLE_CONNECTION_TIMEOUT" ∧
      (m.update env w).1.isConnected = false ∧
      (m.update env w).1.getCurrentState = OBDState.ERROR) ∧
    (m.current_state = OBDState.SETUP → m.setup_substep = SetupSubstep.ELM_INITIALIZING →
      env.elmBegin w.calls = false →
      usub (env.millis (w.calls + 1) % WORD) m.elm_connection_start_time > 15000 →
      (m.update env w).1.consecutive_bt_timeouts = m.consecutive_bt_timeouts + 1 ∧
      (m.update env w).1.getLastError = "ELM_INIT_TIMEOUT" ∧
      (m.update env w).1.isConnected = false ∧
      (m.update env w).1.getCurrentState = OBDState.ERROR) ∧
    (m.current_state = OBDState.READ_SOC → m.soc_query_state = QueryState.WAITING_RESP →
      usub (env.millis w.calls % WORD) m.elm_soc_start_time > 10000 →
      (m.update env w).1.consecutive_bt_timeouts = m.consecutive_bt_timeouts + 1 ∧
      (m.update env w).1.getLastError = "SOC_READ_TIMEOUT" ∧
      (m.update env w).1.isConnected = false ∧
      (m.update env w).1.getCurrentState = OBDState.ERROR) ∧
    (m.current_state = OBDState.READ_BATTERY_TEMP →
      m.temp_query_state = QueryState.WAITING_RESP →
      usub (env.millis w.calls % WORD) m.elm_temp_start_time > 10000 →
      (m.update env w).1.consecutive_bt_timeouts = m.consecutive_bt_timeouts + 1 ∧
      (m.update env w).1.getLastError = "TEMP_READ_TIMEOUT" ∧
      (m.update env w).1.isConnected = false ∧
      (m.update env w).1.getCurrentState = OBDState.ERROR) ∧
    (m.current_state = OBDState.READ_BATTERY_VOLTAGE →
      m.voltage_query_state = QueryState.WAITING_RESP →
      usub (env.millis w.calls % WORD) m.elm_voltage_start_time > 10000 →
      (m.update env w).1.consecutive_bt_timeouts = m.consecutive_bt_timeouts + 1 ∧
      (m.update env w).1.getLastError = "VOLTAGE_READ_TIMEOUT" ∧
      (m.update env w).1.isConnected = false ∧
      (m.update env w).1.getCurrentState = OBDState.ERROR) := by
  have b1 : OBDManager.isBluetoothTimeoutError "ELM_BLE_CONNECTION_TIMEOUT" = true := by
    decide
  have b2 : OBDManager.isBluetoothTimeoutError "ELM_INIT_TIMEOUT" = true := by decide
  have b3 : OBDManager.isBluetoothTimeoutError "SOC_READ_TIMEOUT" = true := by decide
  have b4 : OBDManager.isBluetoothTimeoutError "TEMP_READ_TIMEOUT" = true := by decide
  have b5 : OBDManager.isBluetoothTimeoutError "VOLTAGE_READ_TIMEOUT" = true := by decide
  refine ⟨?_, ?_, ?_, ?_, ?_⟩
  · intro h1 h2 h3
    unfold OBDManager.update
    simp only [h1, OBDManager.handleSetupStep, h2, h3, Bool.not_false, if_true,
      OBDManager.handleTimeout_fst, b1, OBDManager.getLastError, OBDManager.isConnected,
      OBDManager.getCurrentState]
    refine ⟨?_, ?_, ?_, ?_⟩ <;> first | rfl | trivial
  · intro h1 h2 h3 h4
    have h4b : usub (env.millis (w.calls + 1) % WORD) m.elm_connection_start_time
        > OBDManager.ELM_INIT_TIMEOUT := h4
    unfold OBDManager.update
    simp only [h1, OBDManager.handleSetupStep, h2, h3, Bool.not_false, if_true,
      World.millis, World.tick, World.emit, h4b,
      OBDManager.handleTimeout_fst, b2, OBDManager.getLastError, OBDManager.isConnected,
      OBDManager.getCurrentState]
    refine ⟨?_, ?_, ?_, ?_⟩ <;> first | rfl | trivial
  · intro h1 h2 h3
    have h3b : usub (env.millis w.calls % WORD) m.elm_soc_start_time
        > OBDManager.ELM_SOC_TIMEOUT := h3
    unfold OBDManager.update
    simp only [h1, OBDManager.handleSOCReading, h2, World.millis, h3b, if_true,
      OBDManager.handleTimeout_fst, b3, OBDManager.getLastError, OBDManager.isConnected,
      OBDManager.getCurrentState]
    refine ⟨?_, ?_, ?_, ?_⟩ <;> first | rfl | trivial
  · intro h1 h2 h3
    have h3b : usub (env.millis w.calls % WORD) m.elm_temp_start_time
        > OBDManager.ELM_TEMP_TIMEOUT := h3
    unfold OBDManager.update
    simp only [h1, OBDManager.handleTempReading, h2, World.millis, h3b, if_true,
      OBDManager.handleTimeout_fst, b4, OBDManager.getLastError, OBDManager.isConnected,
      OBDManager.getCurrentState]
    refine ⟨?_, ?_, ?_, ?_⟩ <;> first | rfl | trivial
  · intro h1 h2 h3
    have h3b : usub (env.millis w.calls % WORD) m.elm_voltage_start_time
        > OBDManager.ELM_VOLTAGE_TIMEOUT := h3
    unfold OBDManager.update
    simp only [h1, OBDManager.handleVoltageReading, h2, World.millis, h3b, if_true,
      OBDManager.handleTimeout_fst, b5, OBDManager.getLastError, OBDManager.isConnected,
      OBDManager.getCurrentState]
    refine ⟨?_, ?_, ?_, ?_⟩ <;> first | rfl | trivial

/-- Witness of C16: the voltage response is awaited since tick 0 and the clock reads
10001. -/
theorem transport_failure_effects_witness :
    ((OBDManager.awaiting OBDState.READ_BATTERY_VOLTAGE).update (Env.ideal 10001)
        {}).1.consecutive_bt_timeouts
      = (OBDManager.awaiting OBDState.READ_BATTERY_VOLTAGE).consecutive_bt_timeouts + 1 ∧
    ((OBDManager.awaiting OBDState.READ_BATTERY_VOLTAGE).update (Env.ideal 10001)
        {}).1.getLastError = "VOLTAGE_READ_TIMEOUT" ∧
    ((OBDManager.awaiting OBDState.READ_BATTERY_VOLTAGE).update (Env.ideal 10001)
        {}).1.isConnected = false ∧
    ((OBDManager.awaiting OBDState.READ_BATTERY_VOLTAGE).update (Env.ideal 10001)
        {}).1.getCurrentState = OBDState.ERROR :=
  (transport_failure_effects (Env.ideal 10001)
    (OBDManager.awaiting OBDState.READ_BATTERY_VOLTAGE) {}).2.2.2.2
    (by decide) (by decide) (by decide)

/-! ## Response timeouts of the blocking manager (C17) -/

/-- A read of the blocking manager whose two error names both lack the substring
`TIMEOUT`, when it fails for any reason (timeout included), leaves the streak and the
lost-link flag as they were. -/
theorem Legacy.OBDManager.readWith_unnamed_timeout (cmd timeoutMsg failedMsg : String)
    (decode : Legacy.OBDManager → ℚ) (resets : Bool) (env : Env) (fuel : Nat)
    (m : Legacy.OBDManager) (w : World) (out : ℚ) (r : Legacy.ReadResult)
    (h1 : strstr timeoutMsg "TIMEOUT" = false) (h2 : strstr failedMsg "TIMEOUT" = false)
    (h : Legacy.OBDManager.readWith cmd timeoutMsg failedMsg decode resets env fuel m w out
      = some r)
    (hok : r.ok = false) :
    r.mgr.consecutiveTimeouts = m.consecutiveTimeouts ∧
    r.mgr.carConnectionLost = m.carConnectionLost := by
  have idle : ∀ (l : Legacy.OBDManager) (e : String), strstr e "TIMEOUT" = false →
      l.handleTimeout e = l := by
    intro l e he
    unfold Legacy.OBDManager.handleTimeout
    simp [he]
  cases hc : m.connected
  · rw [Legacy.OBDManager.readWith_disconnected cmd timeoutMsg failedMsg decode resets env
      fuel m w out hc] at h
    simp only [Option.some.injEq] at h
    subst h
    exact ⟨rfl, rfl⟩
  · obtain ⟨m2, _, f2, f3, hcase⟩ := Legacy.OBDManager.readWith_cases cmd timeoutMsg
      failedMsg decode resets env fuel m w out r hc h
    rcases hcase with ⟨_, _, hm⟩ | ⟨_, ht, _, _⟩ | ⟨_, _, _, hm⟩
    · rw [hm, idle m2 timeoutMsg h1]
      exact ⟨f2, f3⟩
    · rw [ht] at hok
      exact absurd hok (by simp)
    · rw [hm, idle m2 failedMsg h2]
      exact ⟨f2, f3⟩

/-- C17 (the code at the failing input). The blocking manager connects and then queries
an adapter that never answers, the clock advancing by 6000 ms per reading, so that the
wait is left through its timeout test after one poll.  `readTotalCharges`,
`readTotalKwhCharged` and `readTotalKwhDischarged` return false with the response still
pending and the streak still 0; `readStateOfCharge`, `readBatteryTemperature` and
`readBatteryVoltage` in the same situation return false with a streak of 1. -/
theorem counter_timeout_keeps_streak :
    (Legacy.OBDManager.connect Env.silent 1 {} {}).map
        (fun c => (c.2.2, c.1.isConnected, c.1.consecutiveTimeouts)) = some (true, true, 0) ∧
    ((Legacy.OBDManager.connect Env.silent 1 {} {}).bind fun c =>
      (Legacy.OBDManager.readTotalCharges Env.silent 3 c.1 c.2.1 0).map
        fun r => (r.ok, r.mgr.nb_rx_state, r.mgr.consecutiveTimeouts))
      = some (false, RxState.ELM_GETTING_MSG, 0) ∧
    ((Legacy.OBDManager.connect Env.silent 1 {} {}).bind fun c =>
      (Legacy.OBDManager.readTotalKwhCharged Env.silent 3 c.1 c.2.1 0).map
        fun r => (r.ok, r.mgr.nb_rx_state, r.mgr.consecutiveTimeouts))
      = some (false, RxState.ELM_GETTING_MSG, 0) ∧
    ((Legacy.OBDManager.connect Env.silent 1 {} {}).bind fun c =>
      (Legacy.OBDManager.readTotalKwhDischarged Env.silent 3 c.1 c.2.1 0).map
        fun r => (r.ok, r.mgr.nb_rx_state, r.mgr.consecutiveTimeouts))
      = some (false, RxState.ELM_GETTING_MSG, 0) ∧
    ((Legacy.OBDManager.connect Env.silent 1 {} {}).bind fun c =>
      (Legacy.OBDManager.readStateOfCharge Env.silent 3 c.1 c.2.1 0).map
        fun r => (r.ok, r.mgr.nb_rx_state, r.mgr.consecutiveTimeouts))
      = some (false, RxState.ELM_GETTING_MSG, 1) ∧
    ((Legacy.OBDManager.connect Env.silent 1 {} {}).bind fun c =>
      (Legacy.OBDManager.readBatteryTemperature Env.silent 3 c.1 c.2.1 0).map
        fun r => (r.ok, r.mgr.nb_rx_state, r.mgr.consecutiveTimeouts))
      = some (false, RxState.ELM_GETTING_MSG, 1) ∧
    ((Legacy.OBDManager.connect Env.silent 1 {} {}).bind fun c =>
      (Legacy.OBDManager.readBatteryVoltage Env.silent 3 c.1 c.2.1 0).map
        fun r => (r.ok, r.mgr.nb_rx_state, r.mgr.consecutiveTimeouts))
      = some (false, RxState.ELM_GETTING_MSG, 1) := by
  decide

/-! ## The moves of the acquisition machine (C18) -/

namespace OBDManager

theorem handleTimeout_state (m : OBDManager) (w : World) (e : String) :
    (m.handleTimeout w e).1.current_state = OBDState.ERROR := by
  rw [handleTimeout_fst]

theorem handleSetupStep_next (env : Env) (m : OBDManager) (w : World) :
    (m.handleSetupStep env w).1.current_state = m.current_state ∨
    (m.handleSetupStep env w).1.current_state = OBDState.READ_SOC ∨
    (m.handleSetupStep env w).1.current_state = OBDState.ERROR := by
  unfold handleSetupStep
  cases m.setup_substep
  · exact Or.inl rfl
  · simp only []
    split_ifs <;> simp [handleTimeout_fst]
  · simp only []
    split_ifs <;> simp [handleTimeout_fst]

theorem handleSOCReading_next (env : Env) (m : OBDManager) (w : World) :
    (m.handleSOCReading env w).1.current_state = m.current_state ∨
    (m.handleSOCReading env w).1.current_state = OBDState.READ_BATTERY_TEMP ∨
    (m.handleSOCReading env w).1.current_state = OBDState.ERROR := by
  unfold handleSOCReading
  cases m.soc_query_state <;> simp only []
  · exact Or.inl rfl
  · split
    · exact Or.inr (Or.inr (handleTimeout_state _ _ _))
    · split
      · exact Or.inr (Or.inl rfl)
      · split
        · exact Or.inr (Or.inr (handleTimeout_state _ _ _))
        · exact Or.inl rfl

theorem handleTempReading_next (env : Env) (m : OBDManager) (w : World) :
    (m.handleTempReading env w).1.current_state = m.current_state ∨
    (m.handleTempReading env w).1.current_state = OBDState.READ_BATTERY_VOLTAGE ∨
    (m.handleTempReading env w).1.current_state = OBDState.ERROR := by
  unfold handleTempReading
  cases m.temp_query_state <;> simp only []
  · exact Or.inl rfl
  · split
    · exact Or.inr (Or.inr (handleTimeout_state _ _ _))
    · split
      · exact Or.inr (Or.inl rfl)
      · split
        · exact Or.inr (Or.inr (handleTimeout_state _ _ _))
        · exact Or.inl rfl

theorem handleVoltageReading_next (env : Env) (m : OBDManager) (w : World) :
    (m.handleVoltageReading env w).1.current_state = m.current_state ∨
    (m.handleVoltageReading env w).1.current_state = OBDState.COMPLETE ∨
    (m.handleVoltageReading env w).1.current_state = OBDState.ERROR := by
  unfold handleVoltageReading
  cases m.voltage_query_state <;> simp only []
  · exact Or.inl rfl
  · split
    · exact Or.inr (Or.inr (handleTimeout_state _ _ _))
    · split
      · exact Or.inr (Or.inl rfl)
      · split
        · exact Or.inr (Or.inr (handleTimeout_state _ _ _))
        · exact Or.inl rfl

theorem update_obdEdge (env : Env) (m : OBDManager) (w : World) :
    obdEdge m.current_state (m.update env w).1.current_state = true := by
  unfold update
  cases hs : m.current_state <;> simp only []
  · rcases handleSetupStep_next env m w with h | h | h
    · rw [h, hs]; rfl
    · rw [h]; rfl
    · rw [h]; rfl
  · rcases handleSOCReading_next env m w with h | h | h
    · rw [h, hs]; rfl
    · rw [h]; rfl
    · rw [h]; rfl
  · rcases handleTempReading_next env m w with h | h | h
    · rw [h, hs]; rfl
    · rw [h]; rfl
    · rw [h]; rfl
  · rcases handleVoltageReading_next env m w with h | h | h
    · rw [h, hs]; rfl
    · rw [h]; rfl
    · rw [h]; rfl
  · rw [hs]; rfl
  · rw [hs]; rfl

theorem update_terminal (env : Env) (m : OBDManager) (w : World)
    (h : m.current_state = OBDState.COMPLETE ∨ m.current_state = OBDState.ERROR) :
    m.update env w = (m, w) := by
  unfold update
  rcases h with h | h <;> rw [h]

end OBDManager

/-- C18. One `update()` of the polled manager leaves the acquisition state where it is,
moves it one step forward along SETUP, READ_SOC, READ_BATTERY_TEMP,
READ_BATTERY_VOLTAGE, COMPLETE, or moves it to ERROR (`obdEdge`); in COMPLETE and in
ERROR it changes nothing at all, neither the manager (state, readings, streak, last
error) nor the collaborators, for any number of calls; `initialize()` puts the state back
to SETUP. -/
theorem update_moves_forward (env : Env) (m : OBDManager) (w : World) :
    obdEdge m.current_state (m.update env w).1.current_state = true ∧
    (m.current_state = OBDState.COMPLETE ∨ m.current_state = OBDState.ERROR →
      m.update env w = (m, w) ∧
      ∀ envs : List Env, OBDManager.run envs m w = (m, w)) ∧
    m.initialise.1.current_state = OBDState.SETUP ∧
    (∀ a b : OBDState, obdEdge a b = true →
      a = b ∨ b = OBDState.ERROR ∨
      (a = OBDState.SETUP ∧ b = OBDState.READ_SOC) ∨
      (a = OBDState.READ_SOC ∧ b = OBDState.READ_BATTERY_TEMP) ∨
      (a = OBDState.READ_BATTERY_TEMP ∧ b = OBDState.READ_BATTERY_VOLTAGE) ∨
      (a = OBDState.READ_BATTERY_VOLTAGE ∧ b = OBDState.COMPLETE)) := by
  refine ⟨OBDManager.update_obdEdge env m w, ?_, rfl,
    fun a b => by cases a <;> cases b <;> decide⟩
  intro h
  refine ⟨OBDManager.update_terminal env m w h, ?_⟩
  intro envs
  unfold OBDManager.run
  induction envs with
  | nil => rfl
  | cons e rest ih =>
    rw [List.foldl_cons]
    show List.foldl _ (m.update e w) rest = (m, w)
    rw [OBDManager.update_terminal e m w h]
    exact ih

/-- Witness of C18: the manager after a complete acquisition with ideal collaborators. -/
theorem update_moves_forward_witness :
    (OBDManager.run (List.replicate 9 (Env.ideal 0)) ({} : OBDManager).initialise.1
        {}).1.current_state = OBDState.COMPLETE ∧
    (OBDManager.run (List.replicate 9 (Env.ideal 0)) ({} : OBDManager).initialise.1
        {}).1.update (Env.ideal 0)
        (OBDManager.run (List.replicate 9 (Env.ideal 0)) ({} : OBDManager).initialise.1 {}).2
      = ((OBDManager.run (List.replicate 9 (Env.ideal 0)) ({} : OBDManager).initialise.1
          {}).1,
         (OBDManager.run (List.replicate 9 (Env.ideal 0)) ({} : OBDManager).initialise.1
          {}).2) :=
  ⟨by decide,
   ((update_moves_forward (Env.ideal 0)
      (OBDManager.run (List.replicate 9 (Env.ideal 0)) ({} : OBDManager).initialise.1 {}).1
      (OBDManager.run (List.replicate 9 (Env.ideal 0)) ({} : OBDManager).initialise.1 {}).2).2.1
      (Or.inl (by decide))).1⟩

/-! ## Teardown of the diagnostic link (C19) -/

/-- The teardown `disconnect()` does nothing while `isConnected()` is false. -/
theorem OBDManager.disconnect_idle (m : OBDManager) (w : World)
    (h : m.isConnected = false) : m.disconnect w = (m, w) := by
  unfold OBDManager.isConnected at h
  unfold OBDManager.disconnect
  simp [h]

/-- C19 (the code at the failing input). From power-up: BLE connects, the adapter is
still not ready 15001 ms later, and the acquisition fails with `ELM_INIT_TIMEOUT`
(tick 4); the cycle runs through error handling and teardown into the idle period
(tick 6); the next cycle starts and calls `ble_serial.begin` again (tick 9).  The calls
on the BLE port over the whole execution are `begin`, a successful `connect`, `begin`:
no `end` lies between the successful connect and the next `begin`, because
`disconnect()` acts only when `obd_connected` is set, which happens only after the
adapter initialisation has succeeded. -/
theorem init_timeout_skips_ble_end :
    (SystemController.run (initTimeoutEnvs.take 4) (SystemController.new {})).current_state
      = SystemState.ERROR_HANDLING ∧
    (SystemController.run (initTimeoutEnvs.take 4)
      (SystemController.new {})).obd_manager_.getLastError = "ELM_INIT_TIMEOUT" ∧
    bleOps (SystemController.run (initTimeoutEnvs.take 4) (SystemController.new {})).world.log
      = [Event.bleBegin "OBDLink CX", Event.bleConnect 15000 true] ∧
    (SystemController.run (initTimeoutEnvs.take 6) (SystemController.new {})).current_state
      = SystemState.WAITING ∧
    (SystemController.run (initTimeoutEnvs.take 7) (SystemController.new {})).current_state
      = SystemState.INIT ∧
    (SystemController.run initTimeoutEnvs (SystemController.new {})).current_state
      = SystemState.OBD_READING ∧
    bleOps (SystemController.run initTimeoutEnvs (SystemController.new {})).world.log
      = [Event.bleBegin "OBDLink CX", Event.bleConnect 15000 true,
         Event.bleBegin "OBDLink CX"] := by
  decide

/-! ## Connectivity status after the teardown (C20) -/

theorem ConnectivityManager.disconnect_both (c : ConnectivityManager) (w : World) :
    ((c.disconnectMQTT w).1.disconnectWiFi (c.disconnectMQTT w).2).1.wifi_connected = false ∧
    ((c.disconnectMQTT w).1.disconnectWiFi (c.disconnectMQTT w).2).1.mqtt_connected = false ∧
    ((c.disconnectMQTT w).1.disconnectWiFi (c.disconnectMQTT w).2).1.time_synced
      = c.time_synced := by
  unfold ConnectivityManager.disconnectWiFi ConnectivityManager.disconnectMQTT
  cases hm : c.mqtt_connected <;> cases hw : c.wifi_connected <;> simp [hm, hw]

theorem SystemController.handleCompleteCycle_conn (env : Env) (s : SystemController) :
    (SystemController.handleCompleteCycle env s).connectivity_manager_ =
      ((s.connectivity_manager_.disconnectMQTT s.world).1.disconnectWiFi
        (s.connectivity_manager_.disconnectMQTT s.world).2).1 := by
  unfold SystemController.handleCompleteCycle
  simp only [SystemController.setState_conn]
  split
  · rfl
  · split <;> rfl

/-- Refutation of C20 as stated: a fully successful cycle with ideal collaborators.
After 15 ticks the controller stands in `COMPLETE_CYCLE` with WiFi, clock and broker all
up; the teardown tick leaves it in `WAITING` with WiFi and broker down and
`isTimeSynced()` still true. -/
theorem time_synced_survives_teardown :
    (SystemController.run (List.replicate 15 (Env.ideal 0))
      (SystemController.new {})).getCurrentState = SystemState.COMPLETE_CYCLE ∧
    (SystemController.run (List.replicate 15 (Env.ideal 0))
      (SystemController.new {})).isWiFiConnected = true ∧
    (SystemController.run (List.replicate 15 (Env.ideal 0))
      (SystemController.new {})).isTimeSynced = true ∧
    (SystemController.run (List.replicate 15 (Env.ideal 0))
      (SystemController.new {})).isMQTTConnected = true ∧
    (SystemController.run (List.replicate 16 (Env.ideal 0))
      (SystemController.new {})).getCurrentState = SystemState.WAITING ∧
    (SystemController.run (List.replicate 16 (Env.ideal 0))
      (SystemController.new {})).isWiFiConnected = false ∧
    (SystemController.run (List.replicate 16 (Env.ideal 0))
      (SystemController.new {})).isMQTTConnected = false ∧
    (SystemController.run (List.replicate 16 (Env.ideal 0))
      (SystemController.new {})).isTimeSynced = true := by
  decide

/-- C20 (amended). After the teardown performed in `COMPLETE_CYCLE`, `isWiFiConnected()`
and `isMQTTConnected()` are false whatever they were before, and `isTimeSynced()` is what
it was before; the same holds of `cleanupConnections()` itself. -/
theorem teardown_status (env : Env) (s : SystemController)
    (hs : s.current_state = SystemState.COMPLETE_CYCLE) :
    (SystemController.update env s).isWiFiConnected = false ∧
    (SystemController.update env s).isMQTTConnected = false ∧
    (SystemController.update env s).isTimeSynced = s.isTimeSynced ∧
    s.cleanupConnections.isWiFiConnected = false ∧
    s.cleanupConnections.isMQTTConnected = false ∧
    s.cleanupConnections.isTimeSynced = s.isTimeSynced := by
  obtain ⟨a, b, c⟩ := ConnectivityManager.disconnect_both s.connectivity_manager_ s.world
  rw [SystemController.update_complete env s hs]
  unfold SystemController.isWiFiConnected SystemController.isMQTTConnected
    SystemController.isTimeSynced ConnectivityManager.isWiFiConnected
    ConnectivityManager.isMQTTConnected ConnectivityManager.isTimeSynced
  rw [SystemController.handleCompleteCycle_conn]
  exact ⟨a, b, c, a, b, c⟩

/-- Witness of C20 (amended): the controller of the refutation before its teardown tick. -/
theorem teardown_status_witness :
    (SystemController.update (Env.ideal 0)
      (SystemController.run (List.replicate 15 (Env.ideal 0))
        (SystemController.new {}))).isWiFiConnected = false ∧
    (SystemController.update (Env.ideal 0)
      (SystemController.run (List.replicate 15 (Env.ideal 0))
        (SystemController.new {}))).isMQTTConnected = false ∧
    (SystemController.update (Env.ideal 0)
      (SystemController.run (List.replicate 15 (Env.ideal 0))
        (SystemController.new {}))).isTimeSynced
      = (SystemController.run (List.replicate 15 (Env.ideal 0))
        (SystemController.new {})).isTimeSynced :=
  ⟨(teardown_status (Env.ideal 0) (SystemController.run (List.replicate 15 (Env.ideal 0))
      (SystemController.new {})) (by decide)).1,
   (teardown_status (Env.ideal 0) (SystemController.run (List.replicate 15 (Env.ideal 0))
      (SystemController.new {})) (by decide)).2.1,
   (teardown_status (Env.ideal 0) (SystemController.run (List.replicate 15 (Env.ideal 0))
      (SystemController.new {})) (by decide)).2.2.1⟩

/-! ## What a cycle publishes before it ends (C11) -/

theorem DataPublisher.publishOBDData_invalid (env : Env) (p : DataPublisher)
    (c : ConnectivityManager) (w : World) (data : OBDData) (hv : data.valid = false) :
    DataPublisher.publishOBDData env p c w data =
      { pub := p.setError "OBD data is not valid", conn := c, world := w, ok := false } := by
  unfold DataPublisher.publishOBDData
  simp [hv]

namespace SystemController

theorem handleDataPublishing_invalid (env : Env) (s : SystemController)
    (ht : usub (env.millis s.world.calls % WORD) s.state_start_time ≤ PUBLISHING_TIMEOUT)
    (hl : s.obd_manager_.hasConnectionLost = false)
    (hv : s.obd_manager_.getData.valid = false) :
    ∃ (o1 o2 : PublishOutcome) (ts : Payload),
      (handleDataPublishing env s).world.log = s.world.log ++
        [Event.publish s.data_publisher_.topics_.status (Payload.text "CONNECTED") true o1,
         Event.publish s.data_publisher_.topics_.last_update ts true o2] ∧
      (handleDataPublishing env s).current_state = SystemState.COMPLETE_CYCLE := by
  have ht2 : ¬ usub (env.millis s.world.calls % WORD) s.state_start_time > PUBLISHING_TIMEOUT :=
    Nat.not_lt.mpr ht
  unfold handleDataPublishing
  simp only [World.millis, ht2, if_false, hl, Bool.false_eq_true, setState_log,
    setState_current_state, Bool.true_and, absorb]
  obtain ⟨o1, a1, _, _, a4⟩ := DataPublisher.publishStatus_spec env s.data_publisher_
    s.connectivity_manager_ s.world.tick "CONNECTED"
  generalize DataPublisher.publishStatus env s.data_publisher_
    s.connectivity_manager_ s.world.tick "CONNECTED" = r1 at *
  rw [DataPublisher.publishOBDData_invalid env r1.pub r1.conn r1.world _ hv]
  obtain ⟨o2, ts, b1, _, _, _, _, _⟩ := DataPublisher.publishLastUpdate_spec env
    (r1.pub.setError "OBD data is not valid") r1.conn r1.world
  refine ⟨o1, o2, ts, ?_, trivial⟩
  have ht : (r1.pub.setError "OBD data is not valid").topics_ = r1.pub.topics_ := rfl
  split <;> simp [b1, a1, a4, ht, World.tick]

/-- A publishing tick within the phase timeout hands a status and, last, a timestamp to
the broker client, whatever the readings and whatever each publish returns. -/
theorem handleDataPublishing_signal (env : Env) (s : SystemController)
    (ht : usub (env.millis s.world.calls % WORD) s.state_start_time ≤ PUBLISHING_TIMEOUT) :
    ∃ (mid : List (String × Payload)) (ts : Payload),
      publishedMessages (handleDataPublishing env s).world.log =
        publishedMessages s.world.log ++
          ((s.data_publisher_.topics_.status,
            Payload.text (if s.obd_manager_.hasConnectionLost then "No Car Connection"
                          else "CONNECTED")) ::
           (mid ++ [(s.data_publisher_.topics_.last_update, ts)])) := by
  cases hl : s.obd_manager_.hasConnectionLost
  · cases hv : s.obd_manager_.getData.valid
    · obtain ⟨o1, o2, ts, h, _⟩ := handleDataPublishing_invalid env s ht hl hv
      refine ⟨[], ts, ?_⟩
      rw [h, publishedMessages_append]
      rfl
    · obtain ⟨o1, o2, o3, o4, o5, ts, h, _⟩ := handleDataPublishing_linked env s ht hl hv
      refine ⟨[(s.data_publisher_.topics_.soc,
          Payload.fixed s.obd_manager_.getData.state_of_charge 2),
        (s.data_publisher_.topics_.battery_temp,
          Payload.fixed s.obd_manager_.getData.battery_temperature 1),
        (s.data_publisher_.topics_.battery_voltage,
          Payload.fixed s.obd_manager_.getData.battery_voltage 2)], ts, ?_⟩
      rw [h, publishedMessages_append]
      rfl
  · obtain ⟨o1, o2, ts, h, _⟩ := handleDataPublishing_lost env s ht hl
    refine ⟨[], ts, ?_⟩
    rw [h, publishedMessages_append]
    rfl

end SystemController


/-- Refutation of C11 as stated: from power-up the acquisition succeeds (10 ticks), the
wireless network then never associates, neither in the connectivity phase (tick 11,
which ends in `ERROR_HANDLING`) nor in error handling (tick 12, which ends in
`COMPLETE_CYCLE`), and tick 13 enters `WAITING`.  No publish call has been made in the
whole cycle: `handleErrorHandling` calls `publishErrorStatus` only when the broker session
is up. -/
theorem offline_cycle_publishes_nothing :
    (SystemController.new {}).current_state = SystemState.INIT ∧
    SystemController.acquired.current_state = SystemState.CONNECTIVITY_SETUP ∧
    (SystemController.update (Env.wifiDown 0) SystemController.acquired).current_state
      = SystemState.ERROR_HANDLING ∧
    SystemController.acquiredOffline.current_state = SystemState.COMPLETE_CYCLE ∧
    (SystemController.update (Env.wifiDown 0) SystemController.acquiredOffline).current_state
      = SystemState.WAITING ∧
    publishedMessages
      (SystemController.update (Env.wifiDown 0) SystemController.acquiredOffline).world.log
      = [] := by
  decide

/-- C11 (amended). A cycle enters `WAITING` only from `COMPLETE_CYCLE`, and
`COMPLETE_CYCLE` only from `DATA_PUBLISHING` or `ERROR_HANDLING`.  The publishing tick
that enters `COMPLETE_CYCLE` hands the broker client a status ("No Car Connection" or
"CONNECTED") first and a last-update timestamp last.  The error-handling tick always
enters `COMPLETE_CYCLE`; it hands over a status and a timestamp when the broker session is
up at its end, and makes no publish call at all when it is not. -/
theorem signal_per_cycle (env : Env) (s : SystemController) :
    ((SystemController.update env s).current_state = SystemState.WAITING →
      s.current_state = SystemState.COMPLETE_CYCLE ∨ s.current_state = SystemState.WAITING) ∧
    ((SystemController.update env s).current_state = SystemState.COMPLETE_CYCLE →
      s.current_state = SystemState.DATA_PUBLISHING ∨
      s.current_state = SystemState.ERROR_HANDLING) ∧
    (s.current_state = SystemState.DATA_PUBLISHING →
      (SystemController.update env s).current_state = SystemState.COMPLETE_CYCLE →
      ∃ (mid : List (String × Payload)) (ts : Payload),
        publishedMessages (SystemController.update env s).world.log =
          publishedMessages s.world.log ++
            ((s.data_publisher_.topics_.status,
              Payload.text (if s.obd_manager_.hasConnectionLost then "No Car Connection"
                            else "CONNECTED")) ::
             (mid ++ [(s.data_publisher_.topics_.last_update, ts)]))) ∧
    (s.current_state = SystemState.ERROR_HANDLING →
      (SystemController.update env s).current_state = SystemState.COMPLETE_CYCLE ∧
      ((SystemController.update env s).isMQTTConnected = true →
        ∃ ts : Payload,
          publishedMessages (SystemController.update env s).world.log =
            publishedMessages s.world.log ++
              [(s.data_publisher_.topics_.status,
                Payload.text (if s.obd_manager_.hasConnectionLost then "No Car Connection"
                              else if s.last_error.length > 0 then s.last_error
                              else "UNKNOWN_ERROR")),
               (s.data_publisher_.topics_.last_update, ts)]) ∧
      ((SystemController.update env s).isMQTTConnected = false →
        publishedMessages (SystemController.update env s).world.log
          = publishedMessages s.world.log)) := by
  have edge := SystemController.update_edge env s
  refine ⟨?_, ?_, ?_, ?_⟩
  · intro h
    rw [h] at edge
    cases hs : s.current_state <;> rw [hs] at edge <;>
      first
      | exact Or.inl rfl
      | exact Or.inr rfl
      | exact absurd edge (by decide)
  · intro h
    rw [h] at edge
    cases hs : s.current_state <;> rw [hs] at edge <;>
      first
      | exact Or.inl rfl
      | exact Or.inr rfl
      | exact absurd edge (by decide)
  · intro hs h
    rw [SystemController.update_publishing env s hs] at h ⊢
    by_cases ht : usub (env.millis s.world.calls % WORD) s.state_start_time
        ≤ SystemController.PUBLISHING_TIMEOUT
    · exact SystemController.handleDataPublishing_signal env s ht
    · rw [SystemController.handleDataPublishing_timeout env s (Nat.lt_of_not_le ht),
        SystemController.setState_current_state] at h
      exact SystemState.noConfusion h
  · intro hs
    rw [SystemController.update_error env s hs]
    obtain ⟨p1, p2⟩ := SystemController.handleErrorHandling_published env s
    refine ⟨SystemController.handleErrorHandling_state env s, ?_, p2⟩
    intro hm
    obtain ⟨ts, _, hts⟩ := p1 hm
    exact ⟨ts, hts⟩

/-- Witness of C11 (amended): the controller of the refutation at its error-handling
tick. -/
theorem signal_per_cycle_witness :
    (SystemController.update (Env.wifiDown 0) SystemController.acquired).current_state
      = SystemState.ERROR_HANDLING ∧
    (SystemController.update (Env.wifiDown 0)
      (SystemController.update (Env.wifiDown 0) SystemController.acquired)).current_state
      = SystemState.COMPLETE_CYCLE :=
  ⟨by decide,
   ((signal_per_cycle (Env.wifiDown 0)
      (SystemController.update (Env.wifiDown 0) SystemController.acquired)).2.2.2
      (by decide)).1⟩

/-! ## Idempotence of the teardown (C21) -/

theorem OBDManager.disconnect_twice (m : OBDManager) (w : World) :
    (m.disconnect w).1.disconnect (m.disconnect w).2 = m.disconnect w := by
  unfold OBDManager.disconnect
  cases h : m.obd_connected <;> simp [h]

theorem ConnectivityManager.disconnectMQTT_twice (c : ConnectivityManager) (w : World) :
    (c.disconnectMQTT w).1.disconnectMQTT (c.disconnectMQTT w).2 = c.disconnectMQTT w := by
  unfold ConnectivityManager.disconnectMQTT
  cases h : c.mqtt_connected <;> simp [h]

theorem ConnectivityManager.disconnectWiFi_twice (c : ConnectivityManager) (w : World) :
    (c.disconnectWiFi w).1.disconnectWiFi (c.disconnectWiFi w).2 = c.disconnectWiFi w := by
  unfold ConnectivityManager.disconnectWiFi
  cases h : c.wifi_connected <;> simp [h]

theorem SystemController.cleanupConnections_twice (s : SystemController) :
    s.cleanupConnections.cleanupConnections = s.cleanupConnections := by
  unfold SystemController.cleanupConnections OBDManager.disconnect
    ConnectivityManager.disconnectWiFi ConnectivityManager.disconnectMQTT
  cases h1 : s.connectivity_manager_.mqtt_connected <;>
    cases h2 : s.connectivity_manager_.wifi_connected <;>
    cases h3 : s.obd_manager_.obd_connected <;> simp [h1, h2, h3]

/-- C21. For `OBDManager::disconnect`, `ConnectivityManager::disconnectMQTT`,
`ConnectivityManager::disconnectWiFi` and `SystemController::cleanupConnections`, from
every starting state, a second call in a row returns exactly what the first call left:
the same members (connection flags and last errors included) and the same record of
collaborator calls, so the second call issues no operation on any transport. -/
theorem teardown_idempotent :
    (∀ (m : OBDManager) (w : World),
      (m.disconnect w).1.disconnect (m.disconnect w).2 = m.disconnect w) ∧
    (∀ (c : ConnectivityManager) (w : World),
      (c.disconnectMQTT w).1.disconnectMQTT (c.disconnectMQTT w).2 = c.disconnectMQTT w) ∧
    (∀ (c : ConnectivityManager) (w : World),
      (c.disconnectWiFi w).1.disconnectWiFi (c.disconnectWiFi w).2 = c.disconnectWiFi w) ∧
    (∀ s : SystemController, s.cleanupConnections.cleanupConnections = s.cleanupConnections) ∧
    (∀ s : SystemController,
      s.cleanupConnections.cleanupConnections.world.log = s.cleanupConnections.world.log ∧
      s.cleanupConnections.cleanupConnections.last_error = s.cleanupConnections.last_error ∧
      s.cleanupConnections.cleanupConnections.obd_manager_.getLastError
        = s.cleanupConnections.obd_manager_.getLastError ∧
      s.cleanupConnections.cleanupConnections.connectivity_manager_.getLastError
        = s.cleanupConnections.connectivity_manager_.getLastError) :=
  ⟨OBDManager.disconnect_twice, ConnectivityManager.disconnectMQTT_twice,
   ConnectivityManager.disconnectWiFi_twice, SystemController.cleanupConnections_twice,
   fun s => by rw [SystemController.cleanupConnections_twice]; exact ⟨rfl, rfl, rfl, rfl⟩⟩

/-! ## The end of the idle period (C22) -/

theorem usub_wrapped (b d : Nat) (hd : d < WORD) : usub ((b + d) % WORD) b = d := by
  unfold usub WORD at *
  omega

namespace SystemController

theorem handleWaiting_decision (env : Env) (s : SystemController)
    (hs : s.current_state = SystemState.WAITING) :
    ((handleWaiting env s).current_state =
      (if s.current_cycle_interval ≤
          usub (env.millis (if s.connectivity_manager_.isMQTTConnected
            then (s.connectivity_manager_.poll env s.world).2 else s.world).calls % WORD)
            s.last_update_time
        then SystemState.INIT else SystemState.WAITING)) ∧
    (handleWaiting env s).last_update_time = s.last_update_time ∧
    (handleWaiting env s).current_cycle_interval = s.current_cycle_interval := by
  unfold handleWaiting
  by_cases hm : s.connectivity_manager_.isMQTTConnected = true
  · simp only [hm, if_true, World.millis]
    split
    · exact ⟨setState_current_state _ _ _, (setState_frame _ _ _).2.2.2.2.1,
        (setState_frame _ _ _).2.2.2.2.2.1⟩
    · exact ⟨hs, rfl, rfl⟩
  · simp only [hm, if_false, Bool.false_eq_true, World.millis]
    split
    · exact ⟨setState_current_state _ _ _, (setState_frame _ _ _).2.2.2.2.1,
        (setState_frame _ _ _).2.2.2.2.2.1⟩
    · exact ⟨hs, rfl, rfl⟩

theorem handleCompleteCycle_stamp (env : Env) (s : SystemController) :
    (handleCompleteCycle env s).last_update_time
      = env.millis s.cleanupConnections.world.calls % WORD := by
  unfold handleCompleteCycle
  rw [(setState_frame _ _ _).2.2.2.2.1]
  split
  · rfl
  · split <;> rfl

end SystemController

/-- C22. In `WAITING`, `update()` moves the controller to `INIT` exactly when the tick
counter read in this call, minus `last_update_time` in 32-bit unsigned arithmetic, is at
least the chosen interval, and leaves it in `WAITING` otherwise, with the interval and
`last_update_time` unchanged.  `last_update_time` is the tick counter read by the
`COMPLETE_CYCLE` tick.  When `d` < 2^32 milliseconds have passed since then, so that the
counter reads `(last_update_time + d) mod 2^32` (wrapped or not), the move happens exactly
when `d` is at least the interval. -/
theorem waiting_decision (env : Env) (s : SystemController)
    (hs : s.current_state = SystemState.WAITING) :
    ((SystemController.update env s).current_state = SystemState.INIT ↔
      s.current_cycle_interval ≤
        usub (env.millis (if s.connectivity_manager_.isMQTTConnected
          then (s.connectivity_manager_.poll env s.world).2 else s.world).calls % WORD)
          s.last_update_time) ∧
    ((SystemController.update env s).current_state = SystemState.INIT ∨
      (SystemController.update env s).current_state = SystemState.WAITING) ∧
    (SystemController.update env s).last_update_time = s.last_update_time ∧
    (SystemController.update env s).current_cycle_interval = s.current_cycle_interval ∧
    (∀ d : Nat, d < WORD →
      env.millis (if s.connectivity_manager_.isMQTTConnected
          then (s.connectivity_manager_.poll env s.world).2 else s.world).calls % WORD
        = (s.last_update_time + d) % WORD →
      ((SystemController.update env s).current_state = SystemState.INIT ↔
        s.current_cycle_interval ≤ d)) ∧
    (∀ (env0 : Env) (s0 : SystemController),
      s0.current_state = SystemState.COMPLETE_CYCLE →
      (SystemController.update env0 s0).current_state = SystemState.WAITING ∧
      (SystemController.update env0 s0).last_update_time
        = env0.millis s0.cleanupConnections.world.calls % WORD) := by
  obtain ⟨h1, h2, h3⟩ := SystemController.handleWaiting_decision env s hs
  rw [SystemController.update_waiting env s hs]
  have key : (SystemController.handleWaiting env s).current_state = SystemState.INIT ↔
      s.current_cycle_interval ≤
        usub (env.millis (if s.connectivity_manager_.isMQTTConnected
          then (s.connectivity_manager_.poll env s.world).2 else s.world).calls % WORD)
          s.last_update_time := by
    rw [h1]
    by_cases h : s.current_cycle_interval ≤
        usub (env.millis (if s.connectivity_manager_.isMQTTConnected
          then (s.connectivity_manager_.poll env s.world).2 else s.world).calls % WORD)
          s.last_update_time
    · rw [if_pos h]
      exact ⟨fun _ => h, fun _ => rfl⟩
    · rw [if_neg h]
      exact ⟨fun e => SystemState.noConfusion e, fun e => absurd e h⟩
  refine ⟨key, ?_, h2, h3, ?_, ?_⟩
  · rw [h1]
    by_cases h : s.current_cycle_interval ≤
        usub (env.millis (if s.connectivity_manager_.isMQTTConnected
          then (s.connectivity_manager_.poll env s.world).2 else s.world).calls % WORD)
          s.last_update_time
    · rw [if_pos h]
      exact Or.inl rfl
    · rw [if_neg h]
      exact Or.inr rfl
  · intro d hd hnow
    rw [key, hnow, usub_wrapped _ _ hd]
  · intro env0 s0 h0
    rw [SystemController.update_complete env0 s0 h0]
    exact ⟨SystemController.handleCompleteCycle_state env0 s0,
      SystemController.handleCompleteCycle_stamp env0 s0⟩


/-- Witness of C22: the idle period starts 1000 ms before the tick counter wraps, the
interval is 300000 ms; at counter value 299000 (300000 ms later) the controller goes to
`INIT`, one millisecond earlier it stays in `WAITING`. -/
theorem waiting_decision_witness :
    SystemController.waitingBeforeWrap.current_state = SystemState.WAITING ∧
    SystemController.waitingBeforeWrap.last_update_time = 4294966296 ∧
    SystemController.waitingBeforeWrap.current_cycle_interval = 300000 ∧
    (SystemController.update (Env.ideal 299000)
      SystemController.waitingBeforeWrap).current_state = SystemState.INIT ∧
    (SystemController.update (Env.ideal 298999)
      SystemController.waitingBeforeWrap).current_state = SystemState.WAITING :=
  ⟨by decide, by decide, by decide,
   ((waiting_decision (Env.ideal 299000) SystemController.waitingBeforeWrap
      (by decide)).2.2.2.2.1 300000 (by decide) (by decide)).mpr (by decide),
   ((waiting_decision (Env.ideal 298999) SystemController.waitingBeforeWrap
      (by decide)).2.1).resolve_left
     (fun h => absurd (((waiting_decision (Env.ideal 298999)
        SystemController.waitingBeforeWrap (by decide)).2.2.2.2.1 299999 (by decide)
        (by decide)).mp h) (by decide))⟩

/-! ## Ranges of the decoded values (C30) -/

theorem OBDManager.hexPair_le (m : OBDManager) (i : Nat) : m.hexPair i ≤ 255 := by
  rw [OBDManager.hexPair_eq]
  have h1 := OBDManager.ctoi_le (m.payloadAt i)
  have h2 := OBDManager.ctoi_le (m.payloadAt (i + 1))
  omega

theorem Legacy.OBDManager.hexPair_bound (l : Legacy.OBDManager) (i : Nat) :
    l.hexPair i ≤ 255 := by
  rw [Legacy.OBDManager.hexPair_sum]
  have h1 := Legacy.OBDManager.charToInt_le (l.payload.getD i 0)
  have h2 := Legacy.OBDManager.charToInt_le (l.payload.getD (i + 1) 0)
  omega

theorem OBDManager.ctoi_byte (c : Nat) (hc : c < 256) :
    OBDManager.ctoi c =
      (if 65 ≤ c ∧ c ≤ 70 then c - 65 + 10 else if 48 ≤ c ∧ c ≤ 57 then c - 48 else 0) := by
  unfold OBDManager.ctoi
  simp only [Nat.mod_eq_of_lt hc]
  split_ifs <;> omega

theorem Legacy.OBDManager.charToInt_byte (c : Nat) (hc : c < 256) :
    Legacy.OBDManager.charToInt c =
      (if 65 ≤ c ∧ c ≤ 70 then c - 65 + 10 else if 48 ≤ c ∧ c ≤ 57 then c - 48 else 0) := by
  unfold Legacy.OBDManager.charToInt
  simp only [Nat.mod_eq_of_lt hc]
  split_ifs <;> omega

/-- C30. For every byte `c`, `ctoi(c)` and `charToInt(c)` agree and are at most 15:
`c − '0'` for `'0'..'9'`, `c − 'A' + 10` for `'A'..'F'`, and 0 for every other byte,
lowercase `'a'..'f'` included.  Hence, for every payload, each decoded byte is at most
255, a two-byte raw value is at most 65535, a stored temperature lies in −40..215, a
stored state of charge in 0..655.35 and a stored voltage in 0..65535; the same ranges hold
for the temperature and the state of charge returned by the blocking manager. -/
theorem hex_digit_bounds (c : Nat) (hc : c < 256) :
    OBDManager.ctoi c ≤ 15 ∧
    Legacy.OBDManager.charToInt c = OBDManager.ctoi c ∧
    (48 ≤ c ∧ c ≤ 57 → OBDManager.ctoi c = c - 48) ∧
    (65 ≤ c ∧ c ≤ 70 → OBDManager.ctoi c = c - 65 + 10) ∧
    (¬ (48 ≤ c ∧ c ≤ 57) → ¬ (65 ≤ c ∧ c ≤ 70) → OBDManager.ctoi c = 0) ∧
    (97 ≤ c ∧ c ≤ 102 → OBDManager.ctoi c = 0) ∧
    (∀ (m : OBDManager) (i : Nat), m.hexPair i ≤ 255) ∧
    (∀ (l : Legacy.OBDManager) (i : Nat), l.hexPair i ≤ 255) ∧
    (∀ m : OBDManager, m.hexPair 11 + m.hexPair 13 * 256 ≤ 65535) ∧
    (∀ l : Legacy.OBDManager, l.hexPair 11 + l.hexPair 13 * 256 ≤ 65535) ∧
    (∀ (env : Env) (m : OBDManager) (w : World), (m.handleTempReading env w).2.2 = true →
      -40 ≤ (m.handleTempReading env w).1.data.battery_temperature ∧
      (m.handleTempReading env w).1.data.battery_temperature ≤ 215) ∧
    (∀ (env : Env) (m : OBDManager) (w : World), (m.handleSOCReading env w).2.2 = true →
      0 ≤ (m.handleSOCReading env w).1.data.state_of_charge ∧
      (m.handleSOCReading env w).1.data.state_of_charge ≤ 65535 / 100) ∧
    (∀ (env : Env) (m : OBDManager) (w : World), (m.handleVoltageReading env w).2.2 = true →
      0 ≤ (m.handleVoltageReading env w).1.data.battery_voltage ∧
      (m.handleVoltageReading env w).1.data.battery_voltage ≤ 65535) ∧
    (∀ (env : Env) (fuel : Nat) (l : Legacy.OBDManager) (w : World) (out : ℚ)
        (r : Legacy.ReadResult), r.ok = true →
      (Legacy.OBDManager.readBatteryTemperature env fuel l w out = some r →
        -40 ≤ r.value ∧ r.value ≤ 215) ∧
      (Legacy.OBDManager.readStateOfCharge env fuel l w out = some r →
        0 ≤ r.value ∧ r.value ≤ 65535 / 100)) := by
  have raw : ∀ m : OBDManager, m.hexPair 11 + m.hexPair 13 * 256 ≤ 65535 := by
    intro m
    have h1 := OBDManager.hexPair_le m 11
    have h2 := OBDManager.hexPair_le m 13
    omega
  have rawL : ∀ l : Legacy.OBDManager, l.hexPair 11 + l.hexPair 13 * 256 ≤ 65535 := by
    intro l
    have h1 := Legacy.OBDManager.hexPair_bound l 11
    have h2 := Legacy.OBDManager.hexPair_bound l 13
    omega
  have hb := OBDManager.ctoi_byte c hc
  refine ⟨OBDManager.ctoi_le c, ?_, ?_, ?_, ?_, ?_, OBDManager.hexPair_le,
    Legacy.OBDManager.hexPair_bound, raw, rawL, ?_, ?_, ?_, ?_⟩
  · rw [hb, Legacy.OBDManager.charToInt_byte c hc]
  · intro h
    rw [hb]
    split_ifs <;> omega
  · intro h
    rw [hb, if_pos h]
  · intro h1 h2
    rw [hb, if_neg h2, if_neg h1]
  · intro h
    rw [hb]
    split_ifs <;> omega
  · intro env m w h
    rw [(OBDManager.handleTempReading_success env m w h).1]
    have hle : (((m.handleTempReading env w).1.hexPair 11 : Nat) : ℚ) ≤ 255 := by
      exact_mod_cast OBDManager.hexPair_le _ 11
    have hge : (0 : ℚ) ≤ (((m.handleTempReading env w).1.hexPair 11 : Nat) : ℚ) :=
      Nat.cast_nonneg _
    constructor <;> linarith
  · intro env m w h
    rw [(OBDManager.handleSOCReading_success env m w h).1]
    have hle : ((((m.handleSOCReading env w).1.hexPair 11 +
        (m.handleSOCReading env w).1.hexPair 13 * 256 : Nat)) : ℚ) ≤ 65535 := by
      exact_mod_cast raw _
    have hge : (0 : ℚ) ≤ ((((m.handleSOCReading env w).1.hexPair 11 +
        (m.handleSOCReading env w).1.hexPair 13 * 256 : Nat)) : ℚ) := Nat.cast_nonneg _
    constructor
    · positivity
    · linarith
  · intro env m w h
    rw [(OBDManager.handleVoltageReading_success env m w h).1]
    have hle : ((((m.handleVoltageReading env w).1.hexPair 11 +
        (m.handleVoltageReading env w).1.hexPair 13 * 256 : Nat)) : ℚ) ≤ 65535 := by
      exact_mod_cast raw _
    exact ⟨Nat.cast_nonneg _, hle⟩
  · intro env fuel l w out r hok
    constructor
    · intro hr
      obtain ⟨m2, hv, _, _, _⟩ := Legacy.OBDManager.readWith_ok _ _ _ _ _ env fuel l w out r
        hr hok
      rw [hv]
      have hle : ((m2.hexPair 11 : Nat) : ℚ) ≤ 255 := by
        exact_mod_cast Legacy.OBDManager.hexPair_bound m2 11
      have hge : (0 : ℚ) ≤ ((m2.hexPair 11 : Nat) : ℚ) := Nat.cast_nonneg _
      constructor <;> linarith
    · intro hr
      obtain ⟨m2, hv, _, _, _⟩ := Legacy.OBDManager.readWith_ok _ _ _ _ _ env fuel l w out r
        hr hok
      rw [hv]
      have hle : (((m2.hexPair 11 + m2.hexPair 13 * 256 : Nat)) : ℚ) ≤ 65535 := by
        exact_mod_cast rawL m2
      have hge : (0 : ℚ) ≤ (((m2.hexPair 11 + m2.hexPair 13 * 256 : Nat)) : ℚ) :=
        Nat.cast_nonneg _
      constructor
      · positivity
      · linarith

/-- Witness of C30: the lowercase digit `'a'` (97). -/
theorem hex_digit_bounds_witness :
    OBDManager.ctoi 97 ≤ 15 ∧ Legacy.OBDManager.charToInt 97 = OBDManager.ctoi 97 ∧
    OBDManager.ctoi 97 = 0 :=
  ⟨(hex_digit_bounds 97 (by decide)).1, (hex_digit_bounds 97 (by decide)).2.1,
   (hex_digit_bounds 97 (by decide)).2.2.2.2.2.1 (by decide)⟩

/-! ## Time synchronisation is best effort (C24) -/

theorem ConnectivityManager.syncTime_result (env : Env) (c : ConnectivityManager)
    (w : World) : (c.syncTime env w).2.2 = (c.syncTime env w).1.time_synced := by
  unfold ConnectivityManager.syncTime
  cases h1 : c.time_synced
  · cases h2 : c.wifi_connected
    · simp [h1, h2, ConnectivityManager.setError]
    · simp only [h1, h2, Bool.false_eq_true, if_false, Bool.not_true]
      split
      · simp [ConnectivityManager.setError, h1]
      · split
        · simp [ConnectivityManager.setError, h1]
        · rfl
  · simp [h1]

/-- C24. From the time-sync step of `CONNECTIVITY_SETUP`, with at most 30000 ms elapsed
in the phase, one `update()` leaves the controller in `CONNECTIVITY_SETUP`, sets the
sub-step to the broker connection and leaves the controller's last error untouched,
whether `syncTime()` returned true or false; the connectivity manager is the one
`syncTime()` left, and `syncTime()` returned true exactly when `isTimeSynced()` holds
afterwards. -/
theorem time_sync_failure_continues (env : Env) (s : SystemController)
    (hs : s.current_state = SystemState.CONNECTIVITY_SETUP)
    (hstep : s.connectivity_step = ConnectivityStep.SETUP_NTP)
    (ht : usub (env.millis s.world.calls % WORD) s.state_start_time
      ≤ SystemController.CONNECTIVITY_TIMEOUT) :
    (SystemController.update env s).current_state = SystemState.CONNECTIVITY_SETUP ∧
    (SystemController.update env s).connectivity_step = ConnectivityStep.SETUP_MQTT ∧
    (SystemController.update env s).last_error = s.last_error ∧
    (SystemController.update env s).connectivity_manager_
      = (s.connectivity_manager_.syncTime env s.world.tick).1 ∧
    ((s.connectivity_manager_.syncTime env s.world.tick).2.2
      = (SystemController.update env s).isTimeSynced) := by
  have ht2 : ¬ usub (env.millis s.world.calls % WORD) s.state_start_time
      > SystemController.CONNECTIVITY_TIMEOUT := Nat.not_lt.mpr ht
  have hu : SystemController.update env s =
      { s with
        connectivity_manager_ := (s.connectivity_manager_.syncTime env s.world.tick).1
        world := (s.connectivity_manager_.syncTime env s.world.tick).2.1
        connectivity_step := ConnectivityStep.SETUP_MQTT } := by
    rw [SystemController.update_connectivity env s hs]
    unfold SystemController.handleConnectivitySetup
    simp only [World.millis, ht2, if_false, hstep]
    split <;> rfl
  rw [hu]
  refine ⟨hs, rfl, rfl, rfl, ?_⟩
  exact ConnectivityManager.syncTime_result env _ _

/-- Witness of C24: after an ideal acquisition and network association, the system
clock never leaves 1970 and `syncTime()` fails. -/
theorem time_sync_failure_continues_witness :
    (SystemController.update (Env.ideal 0) SystemController.acquired).connectivity_step
      = ConnectivityStep.SETUP_NTP ∧
    (SystemController.update (Env.clockDown 0)
      (SystemController.update (Env.ideal 0) SystemController.acquired)).isTimeSynced
      = false ∧
    (SystemController.update (Env.clockDown 0)
      (SystemController.update (Env.ideal 0) SystemController.acquired)).current_state
      = SystemState.CONNECTIVITY_SETUP ∧
    (SystemController.update (Env.clockDown 0)
      (SystemController.update (Env.ideal 0) SystemController.acquired)).connectivity_step
      = ConnectivityStep.SETUP_MQTT ∧
    (SystemController.update (Env.clockDown 0)
      (SystemController.update (Env.ideal 0) SystemController.acquired)).last_error
      = (SystemController.update (Env.ideal 0) SystemController.acquired).last_error :=
  ⟨by decide, by decide,
   (time_sync_failure_continues (Env.clockDown 0)
      (SystemController.update (Env.ideal 0) SystemController.acquired)
      (by decide) (by decide) (by decide)).1,
   (time_sync_failure_continues (Env.clockDown 0)
      (SystemController.update (Env.ideal 0) SystemController.acquired)
      (by decide) (by decide) (by decide)).2.1,
   (time_sync_failure_continues (Env.clockDown 0)
      (SystemController.update (Env.ideal 0) SystemController.acquired)
      (by decide) (by decide) (by decide)).2.2.1⟩

/-! ## The timestamp of an unsynchronised clock (C23) -/

theorem strncpyBuf_fits (size : Nat) (src : String) (h : src.length + 1 ≤ size) :
    strncpyBuf size src = src := by
  unfold strncpyBuf
  have hl : src.data.length ≤ size - 1 := by
    have : src.data.length = src.length := rfl
    omega
  rw [List.take_of_length_le hl]

/-- C23. While the sync flag is false — as it is from construction until a
synchronisation succeeds — `getCurrentTimeString` writes exactly `TIME_NOT_SYNCED` into
every buffer of at least 16 bytes, whatever the clock and the other collaborators do;
`publishLastUpdate` (64-byte buffer) hands exactly that text to the broker client under
the last-update topic; and `TimeManager::getCurrentTimestamp` returns the same literal. -/
theorem unsynced_timestamp_literal (env : Env) (c : ConnectivityManager) (w : World)
    (p : DataPublisher) (buffer_size : Nat)
    (hsync : c.isTimeSynced = false) (hb : 16 ≤ buffer_size) :
    (c.getCurrentTimeString env w buffer_size).1 = Payload.text "TIME_NOT_SYNCED" ∧
    (∃ o : PublishOutcome,
      (DataPublisher.publishLastUpdate env p c w).world.log =
        w.log ++ [Event.publish p.topics_.last_update (Payload.text "TIME_NOT_SYNCED")
          true o]) ∧
    (∀ (envL : Env) (t : Legacy.TimeManager) (wL : World), t.isSynced = false →
      (t.getCurrentTimestamp envL wL).1 = Payload.text "TIME_NOT_SYNCED") ∧
    ({} : ConnectivityManager).isTimeSynced = false ∧
    ({} : Legacy.TimeManager).isSynced = false ∧
    ((c.syncTime env w).2.2 = false → (c.syncTime env w).1.isTimeSynced = false) ∧
    (∀ (envL : Env) (t : Legacy.TimeManager) (wL : World), t.isSynced = false →
      (t.syncWithNTP envL wL).2.2 = false → (t.syncWithNTP envL wL).1.isSynced = false) := by
  have hs : c.time_synced = false := hsync
  refine ⟨?_, ?_, ?_, rfl, rfl, ?_, ?_⟩
  · unfold ConnectivityManager.getCurrentTimeString
    simp only [hs, Bool.not_false, if_true]
    rw [strncpyBuf_fits buffer_size "TIME_NOT_SYNCED" hb]
  · obtain ⟨o, ts, h1, _, _, _, h5, _⟩ := DataPublisher.publishLastUpdate_spec env p c w
    refine ⟨o, ?_⟩
    rw [h1, h5 hs]
  · intro envL t wL ht
    have ht2 : t.timeSynced = false := ht
    unfold Legacy.TimeManager.getCurrentTimestamp
    simp only [ht2, Bool.not_false, if_true]
    rfl
  · intro h
    show (c.syncTime env w).1.time_synced = false
    rw [← ConnectivityManager.syncTime_result, h]
  · intro envL t wL ht h
    have ht2 : t.timeSynced = false := ht
    unfold Legacy.TimeManager.syncWithNTP at h ⊢
    by_cases hr : (Legacy.TimeManager.waitForSync envL NTP.MAX_RETRY 0
        (wL.emit Event.configTime)).1 = true
    · simp [hr] at h
    · simp only [hr, if_false, Bool.false_eq_true]
      exact ht

/-- Witness of C23: the connectivity manager as constructed and a 16-byte buffer; a
15-byte buffer would cut the text. -/
theorem unsynced_timestamp_literal_witness :
    (({} : ConnectivityManager).getCurrentTimeString (Env.ideal 0) {} 16).1
      = Payload.text "TIME_NOT_SYNCED" ∧
    (({} : ConnectivityManager).getCurrentTimeString (Env.ideal 0) {} 15).1
      = Payload.text "TIME_NOT_SYNCE" :=
  ⟨(unsynced_timestamp_literal (Env.ideal 0) {} {} {} 16 rfl (by decide)).1, by decide⟩

/-! ## The link during publishing (C28) -/

theorem OBDManager.complete_has_link (m : OBDManager) (h : m.StreakInv)
    (hc : m.current_state = OBDState.COMPLETE) :
    m.car_connection_lost = false ∧ m.consecutive_bt_timeouts = 0 ∧ m.data.valid = true := by
  obtain ⟨h1, h2, h3⟩ := h
  have h0 : m.consecutive_bt_timeouts = 0 := h2 (Or.inr (Or.inr hc))
  refine ⟨?_, h0, h3 hc⟩
  cases hl : m.car_connection_lost
  · rfl
  · have := h1 hl
    omega

namespace SystemController

theorem update_acqInv (env : Env) (s : SystemController) (hc : s.CycleInv)
    (ha : s.AcqInv) : (update env s).AcqInv := by
  obtain ⟨h1, h2, _⟩ := hc
  obtain ⟨a1, a2⟩ := ha
  unfold update
  cases hs : s.current_state with
  | INIT =>
    simp only []
    obtain ⟨_, b, _⟩ := handleInit_frame env s
    refine ⟨fun hx => ?_, fun hx => ?_⟩
    · rw [handleInit_state] at hx
      rcases hx with hx | hx <;> exact SystemState.noConfusion hx
    · rw [b] at hx
      exact Bool.noConfusion hx
  | OBD_READING =>
    simp only []
    obtain ⟨b, _⟩ := handleOBDReading_frame env s
    refine ⟨fun hx => ?_, fun hx => ?_⟩
    · rw [handleOBDReading_obd]
      rw [handleOBDReading_state] at hx
      cases ho : (s.obd_manager_.update env s.world).1.current_state <;>
        rw [ho] at hx <;> simp only [hs] at hx <;>
        first
        | rfl
        | (rcases hx with hx | hx <;> exact SystemState.noConfusion hx)
    · rw [b, h2 (Or.inl hs)] at hx
      exact Bool.noConfusion hx
  | CONNECTIVITY_SETUP =>
    simp only []
    obtain ⟨a, b, _⟩ := handleConnectivitySetup_frame env s hs
    refine ⟨fun _ => ?_, fun hx => ?_⟩
    · rw [a]
      exact a1 (Or.inl hs)
    · rw [b, h2 (Or.inr (Or.inl hs))] at hx
      exact Bool.noConfusion hx
  | DATA_PUBLISHING =>
    simp only []
    obtain ⟨a, _⟩ := handleDataPublishing_frame env s
    have hl := OBDManager.complete_has_link s.obd_manager_ h1 (a1 (Or.inr hs))
    refine ⟨fun hx => ?_, fun _ => ?_⟩
    · rcases handleDataPublishing_state env s with hd | hd <;> rw [hd] at hx <;>
        rcases hx with hx | hx <;> exact SystemState.noConfusion hx
    · rw [a]
      exact ⟨hl.1, hl.2.1⟩
  | ERROR_HANDLING =>
    simp only []
    obtain ⟨_, _, c, _⟩ := handleErrorHandling_frame env s
    refine ⟨fun hx => ?_, fun hx => ?_⟩
    · rw [handleErrorHandling_state] at hx
      rcases hx with hx | hx <;> exact SystemState.noConfusion hx
    · rw [c, h2 (Or.inr (Or.inr (Or.inr hs)))] at hx
      exact Bool.noConfusion hx
  | WAITING =>
    simp only []
    obtain ⟨a, _, c, _⟩ := handleWaiting_frame env s
    refine ⟨fun hx => ?_, fun hx => ?_⟩
    · rcases handleWaiting_state env s hs with hd | hd <;> rw [hd] at hx <;>
        rcases hx with hx | hx <;> exact SystemState.noConfusion hx
    · rw [c] at hx
      rw [a]
      exact a2 hx
  | COMPLETE_CYCLE =>
    simp only []
    obtain ⟨a, _⟩ := handleCompleteCycle_frame env s
    refine ⟨fun hx => ?_, fun hx => ?_⟩
    · rw [handleCompleteCycle_state] at hx
      rcases hx with hx | hx <;> exact SystemState.noConfusion hx
    · rw [handleCompleteCycle_success] at hx
      rw [a, OBDManager.disconnect_fst]
      exact a2 hx

theorem reachable_acqInv (s : SystemController) (h : Reachable s) : s.AcqInv := by
  induction h with
  | power_up config =>
    exact ⟨fun hx => by rcases hx with hx | hx <;> exact SystemState.noConfusion hx,
      fun hx => Bool.noConfusion hx⟩
  | started env config =>
    unfold initialise setCycleInterval
    refine ⟨fun hx => ?_, fun hx => ?_⟩
    · simp only [setState_current_state] at hx
      rcases hx with hx | hx <;> exact SystemState.noConfusion hx
    · simp only [setState_success] at hx
      exact Bool.noConfusion hx
  | update env s hr ih => exact update_acqInv env s (reachable_cycleInv s hr) ih

end SystemController

/-- C28. In every reachable state of the controller: in `DATA_PUBLISHING` the acquisition
machine stands in COMPLETE with valid readings, `hasConnectionLost()` is false and the
streak is 0, so that a publishing tick within its timeout publishes the status
"CONNECTED" and never "No Car Connection"; and whenever the cycle is marked successful
the link is not reported lost. -/
theorem publishing_has_link (s : SystemController) (hr : Reachable s) :
    (s.current_state = SystemState.DATA_PUBLISHING →
      s.obd_manager_.hasConnectionLost = false ∧
      s.obd_manager_.consecutive_bt_timeouts = 0 ∧
      s.obd_manager_.getCurrentState = OBDState.COMPLETE ∧
      s.obd_manager_.getData.valid = true ∧
      ∀ env : Env,
        usub (env.millis s.world.calls % WORD) s.state_start_time
          ≤ SystemController.PUBLISHING_TIMEOUT →
        ∃ (mid : List (String × Payload)) (ts : Payload),
          publishedMessages (SystemController.update env s).world.log =
            publishedMessages s.world.log ++
              ((s.data_publisher_.topics_.status, Payload.text "CONNECTED") ::
               (mid ++ [(s.data_publisher_.topics_.last_update, ts)]))) ∧
    (s.cycle_successful = true → s.obd_manager_.hasConnectionLost = false) := by
  have hc := SystemController.reachable_cycleInv s hr
  obtain ⟨a1, a2⟩ := SystemController.reachable_acqInv s hr
  refine ⟨fun hs => ?_, fun hx => (a2 hx).1⟩
  have hcomp := a1 (Or.inr hs)
  obtain ⟨l1, l2, l3⟩ := OBDManager.complete_has_link s.obd_manager_ hc.1 hcomp
  refine ⟨l1, l2, hcomp, l3, ?_⟩
  intro env ht
  obtain ⟨mid, ts, h⟩ := SystemController.handleDataPublishing_signal env s ht
  have hl : s.obd_manager_.hasConnectionLost = false := l1
  rw [hl] at h
  rw [SystemController.update_publishing env s hs]
  exact ⟨mid, ts, h⟩

/-- Witness of C28: the controller that has just entered `DATA_PUBLISHING` after an
ideal acquisition and connectivity setup. -/
theorem publishing_has_link_witness :
    SystemController.readyToPublish.current_state = SystemState.DATA_PUBLISHING ∧
    SystemController.readyToPublish.obd_manager_.hasConnectionLost = false ∧
    SystemController.readyToPublish.obd_manager_.consecutive_bt_timeouts = 0 :=
  ⟨by decide,
   ((publishing_has_link SystemController.readyToPublish
      (SystemController.reachable_run _ _ (SystemController.reachable_run _ _
        (Reachable.power_up {})))).1 (by decide)).1,
   ((publishing_has_link SystemController.readyToPublish
      (SystemController.reachable_run _ _ (SystemController.reachable_run _ _
        (Reachable.power_up {})))).1 (by decide)).2.1⟩

/-! ## The order of the connectivity sequence (C27) -/

/-- C27. In every reachable state outside `CONNECTIVITY_SETUP` the static sub-step of
`handleConnectivitySetup` is `SETUP_WIFI`, and every tick that leaves the phase resets
it; so the phase is always entered at the network association.  From an entry to the
phase, with no phase timeout, the network associating in the first tick and the broker
session coming up in the third, the sub-steps run network, time sync, broker, complete,
one per tick, and the fourth tick enters `DATA_PUBLISHING` with the sub-step reset. -/
theorem connectivity_sequence (s : SystemController) (e0 e1 e2 e3 e4 : Env)
    (hr : Reachable s)
    (hs : s.current_state = SystemState.OBD_READING)
    (hentry : (SystemController.run [e0] s).current_state = SystemState.CONNECTIVITY_SETUP)
    (ht1 : usub (e1.millis (SystemController.run [e0] s).world.calls % WORD)
      (SystemController.run [e0] s).state_start_time ≤ SystemController.CONNECTIVITY_TIMEOUT)
    (ht2 : usub (e2.millis (SystemController.run [e0, e1] s).world.calls % WORD)
      (SystemController.run [e0, e1] s).state_start_time
        ≤ SystemController.CONNECTIVITY_TIMEOUT)
    (ht3 : usub (e3.millis (SystemController.run [e0, e1, e2] s).world.calls % WORD)
      (SystemController.run [e0, e1, e2] s).state_start_time
        ≤ SystemController.CONNECTIVITY_TIMEOUT)
    (ht4 : usub (e4.millis (SystemController.run [e0, e1, e2, e3] s).world.calls % WORD)
      (SystemController.run [e0, e1, e2, e3] s).state_start_time
        ≤ SystemController.CONNECTIVITY_TIMEOUT)
    (hw : (SystemController.run [e0, e1] s).isWiFiConnected = true)
    (hm : (SystemController.run [e0, e1, e2, e3] s).isMQTTConnected = true) :
    (SystemController.run [e0] s).connectivity_step = ConnectivityStep.SETUP_WIFI ∧
    ((SystemController.run [e0, e1] s).current_state = SystemState.CONNECTIVITY_SETUP ∧
      (SystemController.run [e0, e1] s).connectivity_step = ConnectivityStep.SETUP_NTP) ∧
    ((SystemController.run [e0, e1, e2] s).current_state = SystemState.CONNECTIVITY_SETUP ∧
      (SystemController.run [e0, e1, e2] s).connectivity_step
        = ConnectivityStep.SETUP_MQTT) ∧
    ((SystemController.run [e0, e1, e2, e3] s).current_state
        = SystemState.CONNECTIVITY_SETUP ∧
      (SystemController.run [e0, e1, e2, e3] s).connectivity_step
        = ConnectivityStep.CONNECTIVITY_COMPLETE) ∧
    ((SystemController.run [e0, e1, e2, e3, e4] s).current_state
        = SystemState.DATA_PUBLISHING ∧
      (SystemController.run [e0, e1, e2, e3, e4] s).connectivity_step
        = ConnectivityStep.SETUP_WIFI) ∧
    (∀ s2 : SystemController, Reachable s2 →
      s2.current_state ≠ SystemState.CONNECTIVITY_SETUP →
      s2.connectivity_step = ConnectivityStep.SETUP_WIFI) ∧
    (∀ (env : Env) (s2 : SystemController),
      s2.current_state = SystemState.CONNECTIVITY_SETUP →
      (SystemController.update env s2).current_state ≠ SystemState.CONNECTIVITY_SETUP →
      (SystemController.update env s2).connectivity_step = ConnectivityStep.SETUP_WIFI) := by
  have inv : ∀ s2 : SystemController, Reachable s2 →
      s2.current_state ≠ SystemState.CONNECTIVITY_SETUP →
      s2.connectivity_step = ConnectivityStep.SETUP_WIFI :=
    fun s2 h2 => (SystemController.reachable_cycleInv s2 h2).2.2
  have h0 : (SystemController.update e0 s).connectivity_step = ConnectivityStep.SETUP_WIFI := by
    rw [SystemController.update_reading e0 s hs,
      (SystemController.handleOBDReading_frame e0 s).2.1]
    exact inv s hr (by rw [hs]; decide)
  have p1 := SystemController.connectivity_wifi_step e1 (SystemController.update e0 s)
    hentry h0 ht1 hw
  have p2 := SystemController.connectivity_ntp_step e2
    (SystemController.update e1 (SystemController.update e0 s)) p1.1 p1.2 ht2
  have p3 := SystemController.connectivity_mqtt_step e3
    (SystemController.update e2 (SystemController.update e1 (SystemController.update e0 s)))
    p2.1 p2.2 ht3 hm
  have p4 := SystemController.connectivity_complete_step e4
    (SystemController.update e3 (SystemController.update e2
      (SystemController.update e1 (SystemController.update e0 s)))) p3.1 p3.2 ht4
  have exit : ∀ (env : Env) (s2 : SystemController),
      s2.current_state = SystemState.CONNECTIVITY_SETUP →
      (SystemController.update env s2).current_state ≠ SystemState.CONNECTIVITY_SETUP →
      (SystemController.update env s2).connectivity_step = ConnectivityStep.SETUP_WIFI := by
    intro env s2 h2 hne
    rw [SystemController.update_connectivity env s2 h2] at hne ⊢
    exact (SystemController.handleConnectivitySetup_frame env s2 h2).2.2.2.2 hne
  refine ⟨h0, p1, p2, p3, ⟨p4, ?_⟩, inv, exit⟩
  exact exit e4 _ p3.1 (by
    show (SystemController.update e4 _).current_state ≠ _
    rw [p4]
    decide)

/-- Witness of C27: the ideal cycle from power-up; the tenth tick enters the phase. -/
theorem connectivity_sequence_witness :
    (SystemController.run [Env.ideal 0]
      (SystemController.run (List.replicate 9 (Env.ideal 0))
        (SystemController.new {}))).connectivity_step = ConnectivityStep.SETUP_WIFI ∧
    (SystemController.run [Env.ideal 0, Env.ideal 0, Env.ideal 0, Env.ideal 0, Env.ideal 0]
      (SystemController.run (List.replicate 9 (Env.ideal 0))
        (SystemController.new {}))).current_state = SystemState.DATA_PUBLISHING :=
  ⟨(connectivity_sequence (SystemController.run (List.replicate 9 (Env.ideal 0))
        (SystemController.new {})) (Env.ideal 0) (Env.ideal 0) (Env.ideal 0) (Env.ideal 0)
      (Env.ideal 0) (SystemController.reachable_run _ _ (Reachable.power_up {}))
      (by decide) (by decide) (by decide) (by decide) (by decide) (by decide) (by decide)
      (by decide)).1,
   (connectivity_sequence (SystemController.run (List.replicate 9 (Env.ideal 0))
        (SystemController.new {})) (Env.ideal 0) (Env.ideal 0) (Env.ideal 0) (Env.ideal 0)
      (Env.ideal 0) (SystemController.reachable_run _ _ (Reachable.power_up {}))
      (by decide) (by decide) (by decide) (by decide) (by decide) (by decide) (by decide)
      (by decide)).2.2.2.2.1.1⟩

/-! ## The retry counter of the broker connection (C29) -/

namespace ConnectivityManager

theorem strncpyBuf_head (e t : String) (h : strncpyBuf 128 e = t) :
    e.data.take 16 = t.data.take 16 := by
  rw [← h]
  unfold strncpyBuf
  simp [List.take_take]

theorem steady_of (c n : ConnectivityManager) (h : c.Steady)
    (h1 : n.mqtt_retry_count = c.mqtt_retry_count)
    (h2 : n.last_error = c.last_error ∨
      ∃ e : String, n.last_error = strncpyBuf 128 e ∧
        e.data.take 16 ≠ "MQTT connection:".data) : n.Steady := by
  refine ⟨h1.trans h.1, ?_⟩
  rcases h2 with h2 | ⟨e, he, hne⟩
  · rw [h2]
    exact h.2
  · intro hx
    rw [he] at hx
    exact hne (strncpyBuf_head e _ hx)

theorem connectWiFi_steady (env : Env) (c : ConnectivityManager) (w : World)
    (h : c.Steady) : (c.connectWiFi env w).1.Steady := by
  unfold connectWiFi
  simp only []
  split_ifs
  · exact h
  · exact steady_of c _ h rfl (Or.inl rfl)
  · exact steady_of c _ h rfl (Or.inr ⟨_, rfl, by decide⟩)

theorem disconnectWiFi_steady (c : ConnectivityManager) (w : World)
    (h : c.Steady) : (c.disconnectWiFi w).1.Steady := by
  unfold disconnectWiFi
  split_ifs
  · exact steady_of c _ h rfl (Or.inl rfl)
  · exact h

theorem disconnectMQTT_steady (c : ConnectivityManager) (w : World)
    (h : c.Steady) : (c.disconnectMQTT w).1.Steady := by
  unfold disconnectMQTT
  split_ifs
  · exact steady_of c _ h rfl (Or.inl rfl)
  · exact h

theorem syncTime_steady (env : Env) (c : ConnectivityManager) (w : World)
    (h : c.Steady) : (c.syncTime env w).1.Steady := by
  unfold syncTime
  split
  · exact h
  · split
    · exact steady_of c _ h rfl (Or.inr ⟨_, rfl, by decide⟩)
    · simp only []
      split
      · exact steady_of c _ h rfl (Or.inr ⟨_, rfl, by decide⟩)
      · split
        · exact steady_of c _ h rfl (Or.inr ⟨_, rfl, by decide⟩)
        · exact steady_of c _ h rfl (Or.inl rfl)

theorem publishWithTimeout_steady (env : Env) (c : ConnectivityManager) (w : World)
    (topic : String) (message : Payload) (retain : Bool) (h : c.Steady) :
    (c.publishWithTimeout env w topic message retain).1.Steady := by
  unfold publishWithTimeout
  simp only []
  split_ifs <;>
    first
    | exact h
    | exact steady_of c _ h rfl (Or.inr ⟨_, rfl, by decide⟩)

theorem poll_steady (env : Env) (c : ConnectivityManager) (w : World)
    (h : c.Steady) : (c.poll env w).1.Steady := by
  unfold poll
  simp only []
  split_ifs <;>
    first
    | exact h
    | exact steady_of c _ h rfl (Or.inr ⟨_, rfl, by decide⟩)

end ConnectivityManager


namespace ConnectivityManager

theorem failed_message_head (code : Int) :
    ("MQTT connection failed! Error code = " ++ toString code).data.take 16
      ≠ "MQTT connection:".data := by
  rw [String.data_append, List.take_append_of_le_length (by decide)]
  decide

/-- What one `connectMQTT()` call does when the retry counter is 0 and the tick counter
advances by at most 10000 ms between its first two readings: with no session and the
network up it makes exactly one connection attempt, whose result it returns. -/
theorem connectMQTT_steady (env : Env) (c : ConnectivityManager) (w : World)
    (h : c.Steady)
    (hclock : usub (env.millis (w.calls + 1) % WORD) (env.millis w.calls % WORD)
      ≤ MQTT_CONNECTION_TIMEOUT) :
    (c.connectMQTT env w).1.Steady ∧
    (c.mqtt_connected = false → c.wifi_connected = true →
      (c.connectMQTT env w).2.1.log = w.log ++ [Event.mqttConnect (c.connectMQTT env w).2.2] ∧
      (c.connectMQTT env w).2.2 = env.mqttConnect (w.calls + 2) ∧
      (c.connectMQTT env w).1.mqtt_connected = (c.connectMQTT env w).2.2) := by
  have hclock2 : ¬ usub (env.millis (w.calls + 1) % WORD) (env.millis w.calls % WORD)
      > MQTT_CONNECTION_TIMEOUT := Nat.not_lt.mpr hclock
  constructor
  · unfold connectMQTT
    cases hm : c.mqtt_connected
    · cases hw : c.wifi_connected
      · simp only [Bool.false_eq_true, if_false, Bool.not_false, if_true]
        exact steady_of c _ h rfl (Or.inr ⟨_, rfl, by decide⟩)
      · simp only [Bool.false_eq_true, if_false, Bool.not_true, h.1, if_true, World.millis,
          World.tick, World.emit, hclock2]
        cases hok : env.mqttConnect (w.calls + 1 + 1)
        · simp only [Bool.not_false, if_true]
          exact steady_of c _ h h.1.symm (Or.inr ⟨_, rfl, failed_message_head _⟩)
        · simp only [Bool.not_true, Bool.false_eq_true, if_false]
          exact steady_of c _ h h.1.symm (Or.inl rfl)
    · simp only [if_true]
      exact h
  · intro hm hw
    unfold connectMQTT
    simp only [hm, hw, Bool.false_eq_true, if_false, Bool.not_true, h.1, if_true,
      World.millis, World.tick, World.emit, hclock2]
    cases hok : env.mqttConnect (w.calls + 1 + 1)
    · simp [setError]
    · simp

theorem reach_steady (c : ConnectivityManager) (h : c.Reach) : c.Steady := by
  induction h with
  | constructed => exact ⟨rfl, by decide⟩
  | connectWiFi env w c _ ih => exact connectWiFi_steady env c w ih
  | disconnectWiFi w c _ ih => exact disconnectWiFi_steady c w ih
  | syncTime env w c _ ih => exact syncTime_steady env c w ih
  | connectMQTT env w c _ hclock ih => exact (connectMQTT_steady env c w ih hclock).1
  | disconnectMQTT w c _ ih => exact disconnectMQTT_steady c w ih
  | publishWithTimeout env w topic message retain c _ ih =>
    exact publishWithTimeout_steady env c w topic message retain ih
  | poll env w c _ ih => exact poll_steady env c w ih

end ConnectivityManager

/-- C29. In every state of the connectivity manager reachable from construction through
its public operations, each `connectMQTT()` call seeing the tick counter advance by at
most 10000 ms between its first two readings: `mqtt_retry_count` is 0 and the last error
is not "MQTT connection: Maximum retries reached"; the same holds after one more such
`connectMQTT()` call; and that call, made with the network up and no session, makes
exactly one connection attempt and returns its result, so that `MAX_MQTT_RETRIES` never
decides anything. -/
theorem retry_count_stays_zero (env : Env) (c : ConnectivityManager) (w : World)
    (hr : c.Reach)
    (hclock : usub (env.millis (w.calls + 1) % WORD) (env.millis w.calls % WORD)
      ≤ ConnectivityManager.MQTT_CONNECTION_TIMEOUT) :
    c.mqtt_retry_count = 0 ∧
    c.getLastError ≠ "MQTT connection: Maximum retries reached" ∧
    (c.connectMQTT env w).1.mqtt_retry_count = 0 ∧
    (c.connectMQTT env w).1.getLastError ≠ "MQTT connection: Maximum retries reached" ∧
    (c.isMQTTConnected = false → c.isWiFiConnected = true →
      (c.connectMQTT env w).2.1.log = w.log ++ [Event.mqttConnect (c.connectMQTT env w).2.2] ∧
      (c.connectMQTT env w).2.2 = env.mqttConnect (w.calls + 2) ∧
      (c.connectMQTT env w).1.isMQTTConnected = (c.connectMQTT env w).2.2) := by
  have hs := ConnectivityManager.reach_steady c hr
  obtain ⟨h1, h2⟩ := ConnectivityManager.connectMQTT_steady env c w hs hclock
  exact ⟨hs.1, hs.2, h1.1, h1.2, h2⟩

/-- Witness of C29: the manager as constructed associates with the network and is then
refused by the broker; a second `connectMQTT()` call follows. -/
theorem retry_count_stays_zero_witness :
    (((({} : ConnectivityManager).connectWiFi (Env.ideal 0) {}).1.connectMQTT
      (Env.brokerDown 0) {}).1.connectMQTT (Env.brokerDown 0) {}).2.2 = false ∧
    (((({} : ConnectivityManager).connectWiFi (Env.ideal 0) {}).1.connectMQTT
      (Env.brokerDown 0) {}).1.connectMQTT (Env.brokerDown 0) {}).1.mqtt_retry_count = 0 ∧
    (((({} : ConnectivityManager).connectWiFi (Env.ideal 0) {}).1.connectMQTT
      (Env.brokerDown 0) {}).1.connectMQTT (Env.brokerDown 0) {}).1.getLastError
      ≠ "MQTT connection: Maximum retries reached" :=
  ⟨by decide,
   (retry_count_stays_zero (Env.brokerDown 0)
      ((({} : ConnectivityManager).connectWiFi (Env.ideal 0) {}).1.connectMQTT
        (Env.brokerDown 0) {}).1 {}
      (ConnectivityManager.Reach.connectMQTT _ _ _
        (ConnectivityManager.Reach.connectWiFi _ _ _ ConnectivityManager.Reach.constructed)
        (by decide)) (by decide)).2.2.1,
   (retry_count_stays_zero (Env.brokerDown 0)
      ((({} : ConnectivityManager).connectWiFi (Env.ideal 0) {}).1.connectMQTT
        (Env.brokerDown 0) {}).1 {}
      (ConnectivityManager.Reach.connectMQTT _ _ _
        (ConnectivityManager.Reach.connectWiFi _ _ _ ConnectivityManager.Reach.constructed)
        (by decide)) (by decide)).2.2.2.1⟩

/-! ## A refused broker session (C25) -/

/-- C25 (the code at the failing input). The connectivity phase has reached the broker
sub-step with the network up and no attempt made so far; the broker refuses the session.
The tick makes one connection attempt and leaves the controller in `ERROR_HANDLING` with
last error "MQTT connection failed", the sub-step reset and the retry counter at 0: the
phase has failed after a single attempt.  The error-handling tick makes one more attempt
and, refused again, completes the cycle without publishing anything. -/
theorem single_refusal_fails_phase :
    SystemController.brokerPending.current_state = SystemState.CONNECTIVITY_SETUP ∧
    SystemController.brokerPending.connectivity_step = ConnectivityStep.SETUP_MQTT ∧
    SystemController.brokerPending.isWiFiConnected = true ∧
    mqttAttempts SystemController.brokerPending.world.log = [] ∧
    (SystemController.update (Env.brokerDown 0) SystemController.brokerPending).current_state
      = SystemState.ERROR_HANDLING ∧
    (SystemController.update (Env.brokerDown 0) SystemController.brokerPending).getLastError
      = "MQTT connection failed" ∧
    mqttAttempts
      (SystemController.update (Env.brokerDown 0) SystemController.brokerPending).world.log
      = [false] ∧
    (SystemController.update (Env.brokerDown 0)
      SystemController.brokerPending).connectivity_manager_.mqtt_retry_count = 0 ∧
    (SystemController.update (Env.brokerDown 0)
      SystemController.brokerPending).connectivity_step = ConnectivityStep.SETUP_WIFI ∧
    (SystemController.update (Env.brokerDown 0) (SystemController.update (Env.brokerDown 0)
      SystemController.brokerPending)).current_state = SystemState.COMPLETE_CYCLE ∧
    mqttAttempts (SystemController.update (Env.brokerDown 0)
      (SystemController.update (Env.brokerDown 0)
        SystemController.brokerPending)).world.log = [false, false] ∧
    publishedMessages (SystemController.update (Env.brokerDown 0)
      (SystemController.update (Env.brokerDown 0)
        SystemController.brokerPending)).world.log = [] := by
  decide

/-! ## What one tick does (C26) -/

theorem connectivityOps_append (a b : List Event) :
    connectivityOps (a ++ b) = connectivityOps a + connectivityOps b := by
  unfold connectivityOps
  exact List.countP_append _ _ _

theorem connectivityOps_emit (w : World) (e : Event) :
    connectivityOps (w.emit e).log
      = connectivityOps w.log + (if e.isConnectivityOp then 1 else 0) := by
  unfold World.emit
  rw [connectivityOps_append]
  unfold connectivityOps
  cases h : e.isConnectivityOp <;> simp [List.countP_cons, h]

namespace ConnectivityManager

theorem wifiWait_ops (env : Env) (n : Nat) (w : World) :
    connectivityOps (wifiWait env n w).log = connectivityOps w.log := by
  induction n generalizing w with
  | zero => rfl
  | succ n ih =>
    unfold wifiWait
    split
    · rfl
    · rw [ih, connectivityOps_emit]
      rfl

theorem connectWiFi_ops (env : Env) (c : ConnectivityManager) (w : World) :
    connectivityOps (c.connectWiFi env w).2.1.log
      = connectivityOps w.log + (if c.wifi_connected then 0 else 1) := by
  unfold connectWiFi
  cases h : c.wifi_connected
  · simp only [Bool.false_eq_true, if_false]
    split <;>
    · simp only [World.tick]
      rw [wifiWait_ops, connectivityOps_emit]
      rfl
  · rfl

theorem syncWait_ops (env : Env) (start : Nat) (n : Nat) (year : Int) (w : World) :
    connectivityOps (syncWait env start n year w).2.log = connectivityOps w.log := by
  induction n generalizing w year with
  | zero => rfl
  | succ n ih =>
    unfold syncWait
    split
    · simp only []
      split
      · rfl
      · rw [ih]
        simp only [World.tick, World.millis]
        rw [connectivityOps_emit]
        rfl
    · rfl

theorem syncTime_ops (env : Env) (c : ConnectivityManager) (w : World) :
    connectivityOps (c.syncTime env w).2.1.log ≤ connectivityOps w.log + 1 := by
  unfold syncTime
  split
  · exact Nat.le_succ _
  · split
    · exact Nat.le_succ _
    · simp only []
      have key : connectivityOps (syncWait env (env.millis w.calls % WORD) 14 0
          ((w.millis env).2.emit Event.configTime)).2.log = connectivityOps w.log + 1 := by
        rw [syncWait_ops, connectivityOps_emit]
        rfl
      split
      · exact Nat.le_of_eq key
      · split <;> exact Nat.le_of_eq key

theorem connectMQTT_ops (env : Env) (c : ConnectivityManager) (w : World) :
    connectivityOps (c.connectMQTT env w).2.1.log ≤ connectivityOps w.log + 1 := by
  unfold connectMQTT
  simp only []
  split_ifs <;>
    simp [World.emit, World.millis, World.tick, connectivityOps_append, connectivityOps,
      List.countP_cons, Event.isConnectivityOp]

end ConnectivityManager


namespace OBDManager

theorem disconnect_ops (m : OBDManager) (w : World) :
    connectivityOps (m.disconnect w).2.log = connectivityOps w.log := by
  unfold disconnect
  split
  · simp only [sendCommand_Blocking]
    rw [connectivityOps_emit, connectivityOps_emit]
    rfl
  · rfl

theorem handleTimeout_ops (m : OBDManager) (w : World) (e : String) :
    connectivityOps (m.handleTimeout w e).2.log = connectivityOps w.log := by
  unfold handleTimeout
  exact disconnect_ops _ _

theorem configureELM327_ops (w : World) :
    connectivityOps (configureELM327 w).log = connectivityOps w.log := by
  unfold configureELM327
  simp only [List.foldl, sendCommand_Blocking, connectivityOps_emit, Event.isConnectivityOp]
  rfl

theorem update_ops (env : Env) (m : OBDManager) (w : World) :
    connectivityOps (m.update env w).2.log = connectivityOps w.log := by
  unfold update
  cases m.current_state <;> simp only []
  · unfold handleSetupStep
    cases m.setup_substep <;> simp only []
    · simp only [World.millis, World.tick]
      rw [connectivityOps_emit]
      rfl
    · split
      · rw [handleTimeout_ops]
        simp only [World.tick]
        rw [connectivityOps_emit]
        rfl
      · simp only [World.millis, World.tick]
        rw [connectivityOps_emit]
        rfl
    · split
      · split
        · rw [handleTimeout_ops]
          simp only [World.millis, World.tick]
          rw [connectivityOps_emit]
          rfl
        · simp only [World.millis, World.tick]
          rw [connectivityOps_emit]
          rfl
      · rw [configureELM327_ops]
        simp only [World.tick]
        rw [connectivityOps_emit]
        rfl
  · unfold handleSOCReading
    cases m.soc_query_state <;> simp only []
    · simp only [sendCommand, World.millis, World.tick]
      rw [connectivityOps_emit]
      rfl
    · split
      · rw [handleTimeout_ops]
        rfl
      · split
        · simp only [get_response, World.millis, World.tick]
          rw [connectivityOps_emit]
          rfl
        · split
          · rw [handleTimeout_ops]
            simp only [get_response, World.millis, World.tick]
            rw [connectivityOps_emit]
            rfl
          · simp only [get_response, World.millis, World.tick]
            rw [connectivityOps_emit]
            rfl
  · unfold handleTempReading
    cases m.temp_query_state <;> simp only []
    · simp only [sendCommand, World.millis, World.tick]
      rw [connectivityOps_emit]
      rfl
    · split
      · rw [handleTimeout_ops]
        rfl
      · split
        · simp only [get_response, World.millis, World.tick]
          rw [connectivityOps_emit]
          rfl
        · split
          · rw [handleTimeout_ops]
            simp only [get_response, World.millis, World.tick]
            rw [connectivityOps_emit]
            rfl
          · simp only [get_response, World.millis, World.tick]
            rw [connectivityOps_emit]
            rfl
  · unfold handleVoltageReading
    cases m.voltage_query_state <;> simp only []
    · simp only [sendCommand, World.millis, World.tick]
      rw [connectivityOps_emit]
      rfl
    · split
      · rw [handleTimeout_ops]
        rfl
      · split
        · simp only [get_response, World.millis, World.tick]
          rw [connectivityOps_emit]
          rfl
        · split
          · rw [handleTimeout_ops]
            simp only [get_response, World.millis, World.tick]
            rw [connectivityOps_emit]
            rfl
          · simp only [get_response, World.millis, World.tick]
            rw [connectivityOps_emit]
            rfl

end OBDManager


namespace DataPublisher

theorem publishErrorStatus_ops (env : Env) (p : DataPublisher) (c : ConnectivityManager)
    (w : World) (error_message : String) (car_connection_lost : Bool) :
    connectivityOps (publishErrorStatus env p c w error_message car_connection_lost).world.log
      = connectivityOps w.log := by
  obtain ⟨o1, o2, ts, h, _⟩ := publishErrorStatus_spec env p c w error_message
    car_connection_lost
  rw [h, connectivityOps_append]
  rfl

end DataPublisher

namespace SystemController

theorem handleInit_ops (env : Env) (s : SystemController) :
    connectivityOps (handleInit env s).world.log = connectivityOps s.world.log := by
  unfold handleInit
  simp only [OBDManager.initialise, Bool.not_true, Bool.false_eq_true, if_false, setState_log]

theorem handleOBDReading_ops (env : Env) (s : SystemController) :
    connectivityOps (handleOBDReading env s).world.log = connectivityOps s.world.log := by
  rw [handleOBDReading_world, OBDManager.update_ops]

theorem handleConnectivitySetup_ops (env : Env) (s : SystemController) :
    connectivityOps (handleConnectivitySetup env s).world.log
      ≤ connectivityOps s.world.log + 1 := by
  unfold handleConnectivitySetup
  simp only []
  split
  · simp only [setState_log, setError, World.millis]
    exact Nat.le_succ _
  · cases s.connectivity_step <;> simp only []
    · split
      · simp only [ConnectivityManager.connectWiFi_ops, World.millis]
        split
        · exact Nat.le_succ _
        · exact Nat.le_refl _
      · simp only [setState_log, setError, ConnectivityManager.connectWiFi_ops, World.millis]
        split
        · exact Nat.le_succ _
        · exact Nat.le_refl _
    · split <;> exact ConnectivityManager.syncTime_ops env _ _
    · split
      · exact ConnectivityManager.connectMQTT_ops env _ _
      · simp only [setState_log, setError]
        exact ConnectivityManager.connectMQTT_ops env _ _
    · simp only [setState_log, World.millis]
      exact Nat.le_succ _

theorem handleDataPublishing_ops (env : Env) (s : SystemController) :
    connectivityOps (handleDataPublishing env s).world.log = connectivityOps s.world.log := by
  by_cases ht : usub (env.millis s.world.calls % WORD) s.state_start_time ≤ PUBLISHING_TIMEOUT
  · cases hl : s.obd_manager_.hasConnectionLost
    · cases hv : s.obd_manager_.getData.valid
      · obtain ⟨o1, o2, ts, h, _⟩ := handleDataPublishing_invalid env s ht hl hv
        rw [h, connectivityOps_append]
        rfl
      · obtain ⟨o1, o2, o3, o4, o5, ts, h, _⟩ := handleDataPublishing_linked env s ht hl hv
        rw [h, connectivityOps_append]
        rfl
    · obtain ⟨o1, o2, ts, h, _⟩ := handleDataPublishing_lost env s ht hl
      rw [h, connectivityOps_append]
      rfl
  · rw [handleDataPublishing_timeout env s (Nat.lt_of_not_le ht), setState_log]
    rfl

theorem handleErrorHandling_ops (env : Env) (s : SystemController) :
    connectivityOps (handleErrorHandling env s).world.log
      ≤ connectivityOps s.world.log + 3 := by
  unfold handleErrorHandling
  simp only [setState_log]
  generalize hs1 : (if (!s.connectivity_manager_.isWiFiConnected) = true then
      if (s.connectivity_manager_.connectWiFi env s.world).2.2 = true then
        { s with
          connectivity_manager_ := ((s.connectivity_manager_.connectWiFi env s.world).1.syncTime
            env (s.connectivity_manager_.connectWiFi env s.world).2.1).1
          world := ((s.connectivity_manager_.connectWiFi env s.world).1.syncTime
            env (s.connectivity_manager_.connectWiFi env s.world).2.1).2.1 }
      else
        { s with
          connectivity_manager_ := (s.connectivity_manager_.connectWiFi env s.world).1
          world := (s.connectivity_manager_.connectWiFi env s.world).2.1 }
    else s) = s1
  have f1 : connectivityOps s1.world.log ≤ connectivityOps s.world.log + 2 := by
    have hw : connectivityOps (s.connectivity_manager_.connectWiFi env s.world).2.1.log
        ≤ connectivityOps s.world.log + 1 := by
      rw [ConnectivityManager.connectWiFi_ops]
      split
      · exact Nat.le_succ _
      · exact Nat.le_refl _
    rw [← hs1]
    split
    · split
      · have := ConnectivityManager.syncTime_ops env
          (s.connectivity_manager_.connectWiFi env s.world).1
          (s.connectivity_manager_.connectWiFi env s.world).2.1
        simp only []
        omega
      · simp only []
        omega
    · omega
  generalize hs2 : (if (s1.connectivity_manager_.isWiFiConnected &&
      !s1.connectivity_manager_.isMQTTConnected) = true then
        { s1 with
          connectivity_manager_ := (s1.connectivity_manager_.connectMQTT env s1.world).1
          world := (s1.connectivity_manager_.connectMQTT env s1.world).2.1 }
    else s1) = s2
  have f2 : connectivityOps s2.world.log ≤ connectivityOps s.world.log + 3 := by
    rw [← hs2]
    split
    · have := ConnectivityManager.connectMQTT_ops env s1.connectivity_manager_ s1.world
      simp only []
      omega
    · omega
  by_cases hm : s2.connectivity_manager_.isMQTTConnected = true
  · simp only [hm, if_true, absorb]
    rw [DataPublisher.publishErrorStatus_ops]
    exact f2
  · simp only [hm, if_false, Bool.false_eq_true]
    exact f2

theorem handleCompleteCycle_ops (env : Env) (s : SystemController) :
    connectivityOps (handleCompleteCycle env s).world.log = connectivityOps s.world.log := by
  have hw : connectivityOps s.cleanupConnections.world.log = connectivityOps s.world.log := by
    unfold cleanupConnections
    simp only []
    rw [OBDManager.disconnect_ops]
    unfold ConnectivityManager.disconnectWiFi ConnectivityManager.disconnectMQTT
    split <;> split <;> simp only [connectivityOps_emit] <;> rfl
  unfold handleCompleteCycle
  simp only [setState_log]
  split
  · exact hw
  · split <;> exact hw

theorem handleWaiting_ops (env : Env) (s : SystemController) :
    connectivityOps (handleWaiting env s).world.log = connectivityOps s.world.log := by
  unfold handleWaiting
  by_cases hm : s.connectivity_manager_.isMQTTConnected = true
  · simp only [hm, if_true]
    have hp : connectivityOps (s.connectivity_manager_.poll env s.world).2.log
        = connectivityOps s.world.log := by
      unfold ConnectivityManager.poll
      simp only []
      split_ifs <;>
        simp [World.emit, World.millis, World.tick, connectivityOps_append, connectivityOps,
          List.countP_cons, Event.isConnectivityOp]
    split
    · simp only [setState_log, World.millis, World.tick]
      exact hp
    · simp only [World.millis, World.tick]
      exact hp
  · simp only [hm, if_false, Bool.false_eq_true]
    split
    · simp only [setState_log, World.millis, World.tick]
    · simp only [World.millis, World.tick]

end SystemController


/-- Refutation of C26 as stated: from power-up the BLE connect is refused and the
controller enters `ERROR_HANDLING` with no connectivity operation made so far.  The single
error-handling tick, all collaborators answering, starts the network connection, the time
synchronisation and the broker connection, one after the other, and completes the
cycle. -/
theorem error_handling_runs_three_operations :
    SystemController.acquisitionFailed.current_state = SystemState.ERROR_HANDLING ∧
    connectivityOps SystemController.acquisitionFailed.world.log = 0 ∧
    (SystemController.update (Env.ideal 0) SystemController.acquisitionFailed).current_state
      = SystemState.COMPLETE_CYCLE ∧
    (SystemController.update (Env.ideal 0)
      SystemController.acquisitionFailed).world.log.filter Event.isConnectivityOp
      = [Event.wifiBegin, Event.configTime, Event.mqttConnect true] ∧
    connectivityOps
      (SystemController.update (Env.ideal 0) SystemController.acquisitionFailed).world.log
      = 3 := by
  decide

/-- C26 (amended). One `update()` runs the handler of the current state and no other.
In `OBD_READING` it performs exactly one acquisition step (`OBDManager::update`) and
issues nothing else; in the connectivity, publishing, error-handling and waiting states
it performs none.  It starts at most one connectivity operation (network connect, time
sync, broker connect) in `CONNECTIVITY_SETUP`, none in any state other than
`CONNECTIVITY_SETUP` and `ERROR_HANDLING`, and at most three in `ERROR_HANDLING`. -/
theorem one_step_per_tick (env : Env) (s : SystemController) :
    (SystemController.update env s =
      match s.current_state with
      | SystemState.INIT => SystemController.handleInit env s
      | SystemState.OBD_READING => SystemController.handleOBDReading env s
      | SystemState.CONNECTIVITY_SETUP => SystemController.handleConnectivitySetup env s
      | SystemState.DATA_PUBLISHING => SystemController.handleDataPublishing env s
      | SystemState.ERROR_HANDLING => SystemController.handleErrorHandling env s
      | SystemState.WAITING => SystemController.handleWaiting env s
      | SystemState.COMPLETE_CYCLE => SystemController.handleCompleteCycle env s) ∧
    (s.current_state = SystemState.OBD_READING →
      (SystemController.update env s).obd_manager_ = (s.obd_manager_.update env s.world).1 ∧
      (SystemController.update env s).world.log = (s.obd_manager_.update env s.world).2.log) ∧
    (s.current_state = SystemState.CONNECTIVITY_SETUP ∨
      s.current_state = SystemState.DATA_PUBLISHING ∨
      s.current_state = SystemState.ERROR_HANDLING ∨
      s.current_state = SystemState.WAITING →
      (SystemController.update env s).obd_manager_ = s.obd_manager_) ∧
    (s.current_state = SystemState.CONNECTIVITY_SETUP →
      connectivityOps (SystemController.update env s).world.log
        ≤ connectivityOps s.world.log + 1) ∧
    (s.current_state = SystemState.ERROR_HANDLING →
      connectivityOps (SystemController.update env s).world.log
        ≤ connectivityOps s.world.log + 3) ∧
    (s.current_state ≠ SystemState.CONNECTIVITY_SETUP →
      s.current_state ≠ SystemState.ERROR_HANDLING →
      connectivityOps (SystemController.update env s).world.log
        = connectivityOps s.world.log) := by
  refine ⟨?_, ?_, ?_, ?_, ?_, ?_⟩
  · unfold SystemController.update
    cases s.current_state <;> rfl
  · intro hs
    rw [SystemController.update_reading env s hs]
    exact ⟨SystemController.handleOBDReading_obd env s,
      SystemController.handleOBDReading_world env s⟩
  · intro hs
    rcases hs with hs | hs | hs | hs
    · rw [SystemController.update_connectivity env s hs]
      exact (SystemController.handleConnectivitySetup_frame env s hs).1
    · rw [SystemController.update_publishing env s hs]
      exact (SystemController.handleDataPublishing_frame env s).1
    · rw [SystemController.update_error env s hs]
      exact (SystemController.handleErrorHandling_frame env s).1
    · rw [SystemController.update_waiting env s hs]
      exact (SystemController.handleWaiting_frame env s).1
  · intro hs
    rw [SystemController.update_connectivity env s hs]
    exact SystemController.handleConnectivitySetup_ops env s
  · intro hs
    rw [SystemController.update_error env s hs]
    exact SystemController.handleErrorHandling_ops env s
  · intro h1 h2
    unfold SystemController.update
    cases hs : s.current_state <;> simp only []
    · exact SystemController.handleInit_ops env s
    · exact SystemController.handleOBDReading_ops env s
    · exact absurd hs h1
    · exact SystemController.handleDataPublishing_ops env s
    · exact absurd hs h2
    · exact SystemController.handleWaiting_ops env s
    · exact SystemController.handleCompleteCycle_ops env s

/-- Witness of C26 (amended): the error-handling tick of the refutation. -/
theorem one_step_per_tick_witness :
    connectivityOps
      (SystemController.update (Env.ideal 0) SystemController.acquisitionFailed).world.log
      ≤ connectivityOps SystemController.acquisitionFailed.world.log + 3 :=
  (one_step_per_tick (Env.ideal 0) SystemController.acquisitionFailed).2.2.2.2.1 (by decide)

end SealOBD
